import Mathlib

/-!
# SCVMM machine controller: reconciliation state machine

A shallow embedding of `controllers/scvmmmachine_controller.go`.

* Go strings are embedded as Lean `String`s (the quote character handled by the
  escaping functions is ASCII, so working on characters or on UTF-8 bytes
  gives the same result).
* `int64` values are `Int`s; arithmetic that can leave the `int64` range is
  wrapped explicitly with `wrapInt64`.
* Stateful code is embedded with explicit state passing: the in-memory record,
  the records persisted by the attempt, and the trace of remote calls.
* The deferred `cmd.Close()` changes nothing the controller reads and is not
  tracked.
* Everything outside the controller (the remote scripts, the API server, the
  process environment, library helpers) is a field of `Env`.
-/

namespace Scvmm

/-! ## Strings -/

/-- The single quote character (U+0027). -/
def quote : Char := Char.ofNat 39

/-- Go `strings.Replace(s, old, new, -1)` for a non-empty `old`, on character
lists: scan left to right, replace each leftmost non-overlapping occurrence.
The first argument counts the characters of a matched occurrence that are
still to be skipped. -/
def replaceAllFrom (old new : List Char) : Nat → List Char → List Char
  | _, [] => []
  | k + 1, _ :: cs => replaceAllFrom old new k cs
  | 0, c :: cs =>
    if old.isPrefixOf (c :: cs) then new ++ replaceAllFrom old new (old.length - 1) cs
    else c :: replaceAllFrom old new 0 cs

/-- Go `strings.Replace(s, old, new, -1)`.  With an empty `old` Go inserts
`new` in front of every character and at the end. -/
def stringsReplaceAll (s old new : String) : String :=
  if old = new then s
  else if old.data = [] then ⟨new.data ++ s.data.flatMap (fun c => c :: new.data)⟩
  else ⟨replaceAllFrom old.data new.data 0 s.data⟩

/-- Source lines 349-351: `strings.Replace(str, "'", "''", -1)`. -/
def escapeSingleQuotes (str : String) : String :=
  stringsReplaceAll str ⟨[quote]⟩ ⟨[quote, quote]⟩

/-- Source lines 353-366.  The loop `for s := range str[1:]` binds `s` to the
indices `0 .. len(str)-2` of the sub-slice, and the body reads `str[s]`. -/
def escapeSingleQuotesArray (str : List String) : String :=
  if str.length = 0 then ""
  else
    let res := "'" ++ stringsReplaceAll (str.getD 0 "") ⟨[quote]⟩ ⟨[quote, quote]⟩
    let res := (List.range (str.drop 1).length).foldl
      (fun acc s => acc ++ "','" ++ stringsReplaceAll (str.getD s "") ⟨[quote]⟩ ⟨[quote, quote]⟩) res
    res ++ "'"

/-! ### Specification-side definitions for the escaping claims -/

/-- The wording of the specification: every quote becomes two quotes, every
other character is kept. -/
def doubleQuotes : List Char → List Char
  | [] => []
  | c :: cs => if c = quote then quote :: quote :: doubleQuotes cs else c :: doubleQuotes cs

/-- Collapse each doubled quote back to one quote. -/
def collapseQuotes : List Char → List Char
  | [] => []
  | [c] => [c]
  | c :: d :: cs =>
    if c = quote ∧ d = quote then quote :: collapseQuotes cs
    else c :: collapseQuotes (d :: cs)

/-- Lengths of the maximal runs of quotes of a character list; the first
argument is the length of the run being scanned. -/
def quoteRunsFrom : Nat → List Char → List Nat
  | k, [] => if k = 0 then [] else [k]
  | k, c :: cs =>
    if c = quote then quoteRunsFrom (k + 1) cs
    else if k = 0 then quoteRunsFrom 0 cs else k :: quoteRunsFrom 0 cs

/-- Lengths of the maximal runs of quotes. -/
def quoteRuns (l : List Char) : List Nat := quoteRunsFrom 0 l

/-- The wording of the claim about lists: comma-separated, each element
escaped and wrapped in quotes, in the original order. -/
def quotedList (xs : List String) : String :=
  ",".intercalate (xs.map (fun x => "'" ++ escapeSingleQuotes x ++ "'"))

/-! ## Data model

The record types of `api/v1beta1` and of the Kubernetes libraries, restricted
to the fields the controller reads or writes.  A Go pointer or a slice that is
tested against `nil` is an `Option`. -/

/-- `metav1.Time` as an instant; `0` stands for the zero time. -/
abbrev Time := Int

/-- `(*metav1.Time).IsZero`: a nil pointer or the zero instant. -/
def Time.IsZero (t : Option Time) : Bool :=
  match t with
  | none => true
  | some v => v == 0

/-- Element type of `VMResult.VirtualDisks`. -/
structure VirtualDisk where
  Size : Int := 0
  MaximumSize : Int := 0
  deriving DecidableEq, Repr

/-- Source lines 92-113: the result of a call to a remote script. -/
structure VMResult where
  Cloud : String := ""
  Name : String := ""
  Hostname : String := ""
  Status : String := ""
  Memory : Int := 0
  CpuCount : Int := 0
  VirtualNetwork : String := ""
  IPv4Addresses : Option (List String) := none
  VirtualDisks : List VirtualDisk := []
  BiosGuid : String := ""
  Id : String := ""
  VMId : String := ""
  Error : String := ""
  ScriptErrors : String := ""
  Message : String := ""
  CreationTime : Time := 0
  ModifiedTime : Time := 0
  deriving DecidableEq, Repr

/-- `corev1.ObjectReference`, the fields used as a lookup key. -/
structure ObjectReference where
  Namespace : String := ""
  Name : String := ""
  deriving DecidableEq, Repr

/-- `infrav1.VmDisk`; `Size` holds `Size.Value()` of a non-nil quantity. -/
structure VmDisk where
  Size : Option Int := none
  VHDisk : String := ""
  Dynamic : Bool := false
  deriving DecidableEq, Repr

/-- `infrav1.ActiveDirectory`. -/
structure ActiveDirectory where
  OUPath : String := ""
  DomainController : String := ""
  Description : String := ""
  MemberOf : List String := []
  deriving DecidableEq, Repr

/-- `infrav1.CloudInit`: inline bootstrap source of a standalone machine. -/
structure CloudInit where
  UserData : String := ""
  MetaData : String := ""
  NetworkConfig : String := ""
  ProviderRef : Option ObjectReference := none
  deriving DecidableEq, Repr

/-- `infrav1.ScvmmMachineSpec`; `Memory` holds `Memory.Value()`.  A nil and an
empty `Disks` slice behave alike in the controller, both are `[]`. -/
structure ScvmmMachineSpec where
  VMName : String := ""
  ProviderID : String := ""
  Cloud : String := ""
  HostGroup : String := ""
  VMTemplate : String := ""
  Memory : Int := 0
  CPUCount : Int := 0
  Disks : List VmDisk := []
  VMNetwork : String := ""
  HardwareProfile : String := ""
  Description : String := ""
  StartAction : String := ""
  StopAction : String := ""
  ActiveDirectory : Option ActiveDirectory := none
  CloudInit : Option CloudInit := none
  deriving DecidableEq, Repr

/-- Source lines 115-120: the spec echoed by a spec call, with the three
failure channels. -/
structure VMSpecResult where
  ScvmmMachineSpec : ScvmmMachineSpec := {}
  Error : String := ""
  ScriptErrors : String := ""
  Message : String := ""
  deriving DecidableEq, Repr

/-- `corev1.ConditionStatus`. -/
inductive ConditionStatus where
  | ConditionTrue
  | ConditionFalse
  | ConditionUnknown
  deriving DecidableEq, Repr

/-- `clusterv1.ConditionSeverity`. -/
inductive ConditionSeverity where
  | ConditionSeverityError
  | ConditionSeverityWarning
  | ConditionSeverityInfo
  | ConditionSeverityNone
  deriving DecidableEq, Repr

/-- `clusterv1.ConditionType`. -/
abbrev ConditionType := String

/-- `clusterv1.Condition` without its transition time (`CondType` is the Go
field `Type`). -/
structure Condition where
  CondType : ConditionType
  Status : ConditionStatus
  Severity : ConditionSeverity := ConditionSeverity.ConditionSeverityNone
  Reason : String := ""
  Message : String := ""
  deriving DecidableEq, Repr

/-- `clusterv1.MachineAddress` (`AddrType` is the Go field `Type`). -/
structure MachineAddress where
  AddrType : String
  Address : String
  deriving DecidableEq, Repr

/-- `infrav1.ScvmmMachineStatus`. -/
structure ScvmmMachineStatus where
  Ready : Bool := false
  VMStatus : String := ""
  BiosGuid : String := ""
  CreationTime : Time := 0
  ModifiedTime : Time := 0
  Addresses : List MachineAddress := []
  Hostname : String := ""
  Conditions : List Condition := []
  deriving DecidableEq, Repr

/-- `metav1.ObjectMeta` of the record. -/
structure ObjectMeta where
  Name : String := ""
  Namespace : String := ""
  DeletionTimestamp : Option Time := none
  Finalizers : List String := []
  deriving DecidableEq, Repr

/-- `infrav1.ScvmmMachine`. -/
structure ScvmmMachine where
  ObjectMeta : ObjectMeta := {}
  Spec : ScvmmMachineSpec := {}
  Status : ScvmmMachineStatus := {}
  deriving DecidableEq, Repr

/-- `clusterv1.Machine`: the owner of a record.  `DataSecretName` is
`Spec.Bootstrap.DataSecretName`. -/
structure Machine where
  Name : String := ""
  Namespace : String := ""
  Labels : List (String × String) := []
  DataSecretName : Option String := none
  deriving DecidableEq, Repr

/-- `clusterv1.Cluster`.  `InfrastructureRefName` is
`Spec.InfrastructureRef.Name`, `InfrastructureReady` is
`Status.InfrastructureReady`. -/
structure Cluster where
  Name : String := ""
  InfrastructureRefName : String := ""
  InfrastructureReady : Bool := false
  Conditions : List Condition := []
  deriving DecidableEq, Repr

/-- `infrav1.ScvmmCluster`. -/
structure ScvmmCluster where
  Name : String := ""
  Namespace : String := ""
  ProviderRef : Option ObjectReference := none
  deriving DecidableEq, Repr

/-- `infrav1.ScvmmProviderSpec`.  `ExtraFunctions` is a Go map: `none` is the
nil map, which cannot be assigned to.  `SecretRef` holds `SecretRef.Name`. -/
structure ScvmmProviderSpec where
  ScvmmHost : String := ""
  ExecHost : String := ""
  ScvmmLibraryISOs : String := ""
  ADServer : String := ""
  SecretRef : Option String := none
  ScvmmUsername : String := ""
  ScvmmPassword : String := ""
  ExtraFunctions : Option (List (String × String)) := none
  deriving DecidableEq, Repr

/-- `infrav1.ScvmmProvider`. -/
structure ScvmmProvider where
  Namespace : String := ""
  Spec : ScvmmProviderSpec := {}
  deriving DecidableEq, Repr

/-- `ctrl.Result`; `RequeueAfter` is a `time.Duration` in nanoseconds. -/
structure Result where
  Requeue : Bool := false
  RequeueAfter : Int := 0
  deriving DecidableEq, Repr

/-- `time.Second`. -/
def Second : Int := 1000000000

/-! ### Constants (source lines 57-78) -/

def VmCreated : ConditionType := "VmCreated"
def VmRunning : ConditionType := "VmRunning"
def ReadyCondition : ConditionType := "Ready"
def ControlPlaneInitializedCondition : ConditionType := "ControlPlaneInitialized"
def WaitingForClusterInfrastructureReason : String := "WaitingForClusterInfrastructure"
def WaitingForControlPlaneAvailableReason : String := "WaitingForControlplaneAvailable"
def WaitingForBootstrapDataReason : String := "WaitingForBootstrapData"
def WaitingForOwnerReason : String := "WaitingForOwner"
def ClusterNotAvailableReason : String := "ClusterNotAvailable"
def MissingClusterReason : String := "MissingCluster"
def VmCreatingReason : String := "VmCreating"
def VmUpdatingReason : String := "VmUpdating"
def VmStartingReason : String := "VmStarting"
def VmDeletingReason : String := "VmDeleting"
def VmFailedReason : String := "VmFailed"
def MachineFinalizer : String := "scvmmmachine.finalizers.cluster.x-k8s.io"
def ClusterLabelName : String := "cluster.x-k8s.io/cluster-name"
def MachineControlPlaneLabelName : String := "cluster.x-k8s.io/control-plane"

/-! ## Remote commands and the environment -/

/-- A remote function invocation: one constructor per command line the
controller sends, holding the arguments substituted into the format string
(for the two spec calls: the spec and the metadata that are serialised). -/
inductive Cmd where
  | GetVM (VMName : String)
  | GenerateVMName (spec : ScvmmMachineSpec) (metadata : ObjectMeta)
  | CreateADComputer (Name OUPath DomainController Description MemberOf : String)
  | CreateVM (Cloud HostGroup VMName VMTemplate : String) (Memory CPUCount : Int)
      (Disks VMNetwork HardwareProfile Description StartAction StopAction : String)
  | AddVMSpec (spec : ScvmmMachineSpec) (metadata : ObjectMeta)
  | ExpandVMDisks (VMName Disks : String)
  | AddIsoToVM (VMName ISOPath : String)
  | StartVM (VMName : String)
  | ReadVM (VMName : String)
  | RemoveVM (VMName : String)
  | RemoveADComputer (Name OUPath DomainController : String)
  deriving DecidableEq, Repr

/-- The remote function a command invokes. -/
def Cmd.name : Cmd → String
  | .GetVM .. => "GetVM"
  | .GenerateVMName .. => "GenerateVMName"
  | .CreateADComputer .. => "CreateADComputer"
  | .CreateVM .. => "CreateVM"
  | .AddVMSpec .. => "AddVMSpec"
  | .ExpandVMDisks .. => "ExpandVMDisks"
  | .AddIsoToVM .. => "AddIsoToVM"
  | .StartVM .. => "StartVM"
  | .ReadVM .. => "ReadVM"
  | .RemoveVM .. => "RemoveVM"
  | .RemoveADComputer .. => "RemoveADComputer"

/-- Outcome of a Go call: a value, a returned error, or a run-time panic. -/
inductive Go (α : Type) where
  | ok (a : α)
  | err (e : String)
  | panic (msg : String)
  deriving DecidableEq, Repr

/-- An error of the API client; `notFound` is `apierrors.IsNotFound`. -/
structure ApiError where
  notFound : Bool
  msg : String
  deriving DecidableEq, Repr

/-- Source lines 763-767. -/
structure VmDiskElem where
  SizeMB : Int
  VHDisk : String
  Dynamic : Bool
  deriving DecidableEq, Repr

/-- A scalar JSON value. -/
inductive JsonScalar where
  | num (n : Int)
  | str (s : String)
  | bool (b : Bool)
  deriving DecidableEq, Repr

/-- A JSON object without nesting: its keys with their values, in order. -/
abbrev JsonObject := List (String × JsonScalar)

/-- The JSON object of a disk element by its struct tags (source lines
764-766): `vhDisk` carries `omitempty`. -/
def VmDiskElem.toJSON (e : VmDiskElem) : JsonObject :=
  [("sizeMB", JsonScalar.num e.SizeMB)] ++
    (if e.VHDisk = "" then [] else [("vhDisk", JsonScalar.str e.VHDisk)]) ++
    [("dynamic", JsonScalar.bool e.Dynamic)]

/-- Everything the controller talks to.  A transport failure of a remote call
is `Except.error`; the answer may depend on the calls made before it in the
same attempt. -/
structure Env where
  /-- `os.Getenv`. -/
  getenv : String → String
  /-- `filepath.Glob` over the script directory. -/
  globScripts : Except String (List String)
  /-- `ioutil.ReadFile`. -/
  readScript : String → Except String String
  /-- The WinRM part of `createWinrmCmd` (lines 224-303): `none` when the
  session is open and seeded. -/
  openSession : ScvmmProviderSpec → String → Option String
  /-- `cmd.SendCommand` followed by `getWinrmResult`. -/
  vmCall : List Cmd → Cmd → Except String VMResult
  /-- `cmd.SendCommand` followed by `getWinrmSpecResult`. -/
  specCall : List Cmd → Cmd → Except String VMSpecResult
  /-- `r.Get` of the record. -/
  getScvmmMachine : Except ApiError ScvmmMachine
  /-- `patch.NewHelper`: `none` on success. -/
  newHelper : Option String
  /-- `patchHelper.Patch`, by the number of earlier patches: `none` on success. -/
  patch : Nat → ScvmmMachine → Option String
  /-- `util.GetOwnerMachine`. -/
  getOwnerMachine : ObjectMeta → Except String (Option Machine)
  /-- `util.GetClusterFromMetadata`. -/
  getClusterFromMetadata : Machine → Except String (Option Cluster)
  /-- `r.Client.Get` of the ScvmmCluster, by namespace and name: `none` on success. -/
  getScvmmCluster : String → String → Option String
  /-- `r.Client.Get` of the ScvmmProvider, by namespace and name. -/
  getScvmmProvider : String → String → Except String ScvmmProvider
  /-- `r.Client.Get` of a secret, by namespace and name: its `Data` map. -/
  getSecret : String → String → Except String (List (String × Option String))
  /-- `VMSpecResult.CopyNonZeroTo` (declared in `api/v1beta1`): the merged
  target spec and whether the merge changed it. -/
  copyNonZeroTo : ScvmmMachineSpec → ScvmmMachineSpec → ScvmmMachineSpec × Bool
  /-- `writeCloudInit` (declared in another file of the package): `none` on success. -/
  writeCloudInit : ScvmmMachine → ScvmmProviderSpec → String → String →
    Option String → Option String → Option String → Option String
  /-- `conditions.SetSummary`: the summary of the conditions, if any. -/
  summary : List Condition → Bool → Option Condition
  /-- `fmt.Sprintf`. -/
  sprintf : String → List String → String
  /-- `json.Marshal` of the disk array: the text of an array of objects. -/
  marshalDisks : List JsonObject → String

/-- The state of one reconciliation attempt. -/
structure St where
  /-- The in-memory record `scvmmMachine`. -/
  machine : ScvmmMachine := {}
  /-- The records written by the successful patches of this attempt, oldest
  first. -/
  persisted : List ScvmmMachine := []
  /-- Number of patches attempted. -/
  patches : Nat := 0
  /-- Remote calls issued, oldest first. -/
  calls : List Cmd := []
  /-- Number of times `createWinrmCmd` was entered. -/
  sessions : Nat := 0

/-- What an attempt hands back: `ctrl.Result` and error, or a panic. -/
inductive Ret where
  | done (res : Result) (err : Option String)
  | panic (msg : String)
  deriving DecidableEq, Repr

/-- Final state and return value of a controller function. -/
structure Outcome where
  st : St
  ret : Ret

/-- `errors.Wrap(err, msg)`. -/
def errorsWrap (e msg : String) : String := msg ++ ": " ++ e

/-- Wrap-around of a mathematical integer into the `int64` range. -/
def wrapInt64 (x : Int) : Int := (x + 2 ^ 63) % 2 ^ 64 - 2 ^ 63

/-! ## Conditions and finalizers (library helpers) -/

/-- `conditions.Get`: the first condition of the given type. -/
def conditionsGet : List Condition → ConditionType → Option Condition
  | [], _ => none
  | c :: cs, t => if c.CondType = t then some c else conditionsGet cs t

/-- `conditions.Set` without transition times and without the final sort:
replace the first condition of the same type, or append. -/
def conditionsSet : List Condition → Condition → List Condition
  | [], c => [c]
  | x :: xs, c => if x.CondType = c.CondType then c :: xs else x :: conditionsSet xs c

/-- `conditions.IsTrue`. -/
def conditionsIsTrue (cs : List Condition) (t : ConditionType) : Bool :=
  match conditionsGet cs t with
  | some c => c.Status == ConditionStatus.ConditionTrue
  | none => false

/-- `conditions.MarkTrue`. -/
def MarkTrue (m : ScvmmMachine) (t : ConditionType) : ScvmmMachine :=
  let c : Condition := { CondType := t, Status := ConditionStatus.ConditionTrue }
  { m with Status.Conditions := conditionsSet m.Status.Conditions c }

/-- `conditions.MarkFalse`. -/
def MarkFalse (env : Env) (m : ScvmmMachine) (t : ConditionType) (reason : String)
    (severity : ConditionSeverity) (messageFormat : String) (messageArgs : List String) :
    ScvmmMachine :=
  let c : Condition :=
    { CondType := t, Status := ConditionStatus.ConditionFalse, Reason := reason,
      Severity := severity, Message := env.sprintf messageFormat messageArgs }
  { m with Status.Conditions := conditionsSet m.Status.Conditions c }

/-- `controllerutil.ContainsFinalizer`. -/
def ContainsFinalizer (m : ScvmmMachine) (finalizer : String) : Bool :=
  m.ObjectMeta.Finalizers.contains finalizer

/-- `controllerutil.AddFinalizer`. -/
def AddFinalizer (m : ScvmmMachine) (finalizer : String) : ScvmmMachine :=
  if m.ObjectMeta.Finalizers.contains finalizer then m
  else { m with ObjectMeta.Finalizers := m.ObjectMeta.Finalizers ++ [finalizer] }

/-- `controllerutil.RemoveFinalizer`. -/
def RemoveFinalizer (m : ScvmmMachine) (finalizer : String) : ScvmmMachine :=
  { m with ObjectMeta.Finalizers := m.ObjectMeta.Finalizers.filter (fun f => f != finalizer) }

/-- `util.IsControlPlaneMachine`: the control-plane label is present. -/
def IsControlPlaneMachine (machine : Machine) : Bool :=
  machine.Labels.any (fun kv => kv.1 == MachineControlPlaneLabelName)

/-! ## Session, provider and patch helpers -/

/-- The backslash, as a string. -/
def backslash : String := ⟨[Char.ofNat 92]⟩

/-- The preamble written in front of the function library (lines 140-144). -/
def scriptPreamble : String :=
  "$ProgressPreference = 'SilentlyContinue'\n" ++
  "$WarningPreference = 'SilentlyContinue'\n" ++
  "$VerbosePreference = 'SilentlyContinue'\n" ++
  "$InformationPreference = 'SilentlyContinue'\n" ++
  "$DebugPreference = 'SilentlyContinue'\n\n"

/-- Source lines 122-151.  `funcScripts` is declared without being made, so it
is the nil map: storing the first script file or the first extra function
into it panics; with neither, the result is the preamble alone. -/
def getFuncScript (env : Env) (provider : ScvmmProviderSpec) : Go String :=
  match env.globScripts with
  | .error e => .err ("error scanning script dir " ++ env.getenv "SCRIPT_DIR" ++ ": " ++ e)
  | .ok [] =>
    match provider.ExtraFunctions with
    | some (_ :: _) => .panic "assignment to entry in nil map"
    | _ => .ok scriptPreamble
  | .ok (file :: _) =>
    match env.readScript file with
    | .error e => .err ("error reading script file " ++ file ++ ": " ++ e)
    | .ok _ => .panic "assignment to entry in nil map"

/-- Source lines 219-304: build the function script, then open and seed the
session. -/
def createWinrmCmd (env : Env) (provider : ScvmmProviderSpec) : Go Unit :=
  match getFuncScript env provider with
  | .err e => .err e
  | .panic msg => .panic msg
  | .ok functionScript =>
    match env.openSession provider functionScript with
    | some e => .err e
    | none => .ok ()

/-- Source lines 322-331 and 368-390: record the call; the answer comes from
the environment. -/
def St.call (s : St) (c : Cmd) : St := { s with calls := s.calls ++ [c] }

/-- Assignment to fields of the in-memory record. -/
def St.setMachine (s : St) (m : ScvmmMachine) : St := { s with machine := m }

/-- Entering `createWinrmCmd`. -/
def St.openSession (s : St) : St := { s with sessions := s.sessions + 1 }

/-- Source lines 590-592 and 603-605: the provider id, when the result has a
machine id. -/
def setProviderID (m : ScvmmMachine) (vm : VMResult) : ScvmmMachine :=
  if vm.VMId ≠ "" then { m with Spec.ProviderID := "scvmm://" ++ vm.VMId } else m

/-- Source lines 593-597, 606-610 and 651-655: readiness and the status fields
copied from a result. -/
def fillStatus (m : ScvmmMachine) (ready : Bool) (vm : VMResult) : ScvmmMachine :=
  { m with
    Status.Ready := ready
    Status.VMStatus := vm.Status
    Status.BiosGuid := vm.BiosGuid
    Status.CreationTime := vm.CreationTime
    Status.ModifiedTime := vm.ModifiedTime }

/-- Source lines 731-742: addresses and host name of a running machine. -/
def fillAddresses (m : ScvmmMachine) (vm : VMResult) : ScvmmMachine :=
  let m : ScvmmMachine :=
    match vm.IPv4Addresses with
    | some addrs =>
      let addresses : List MachineAddress :=
        addrs.map (fun a => { AddrType := "InternalIP", Address := a })
      { m with Status.Addresses := addresses }
    | none => m
  if vm.Hostname ≠ "" then { m with Status.Hostname := vm.Hostname } else m

/-- Source lines 770-779: the array `diskarr`. -/
def makeDisksElems (disks : List VmDisk) : List VmDiskElem :=
  disks.map (fun d =>
    { SizeMB := match d.Size with
        | none => 0
        | some v => (v.tdiv 1024).tdiv 1024
      VHDisk := d.VHDisk
      Dynamic := d.Dynamic })

/-- Source lines 769-781.  `json.Marshal` of an array of structs of an
integer, a string and a boolean has no failing case, so the error result is
always nil and only the text is returned. -/
def makeDisksJSON (env : Env) (disks : List VmDisk) : String :=
  env.marshalDisks ((makeDisksElems disks).map VmDiskElem.toJSON)

/-- Assignment `m[k] = v` to a non-nil Go map held as an association list. -/
def mapSet (m : List (String × String)) (k v : String) : List (String × String) :=
  if m.any (fun kv => kv.1 == k) then m.map (fun kv => if kv.1 == k then (k, v) else kv)
  else m ++ [(k, v)]

/-- Source lines 172-215: defaults and credentials of a fetched provider.  With
an empty `ExecHost` the value read from `SCVMM_EXECHOST` is assigned and then
overwritten by `ScvmmHost` (lines 182-185); in between, the `ConnectSCVMM`
entry is stored into `ExtraFunctions`, which panics on the nil map. -/
def providerDefaults (env : Env) (provider : ScvmmProvider) : Go ScvmmProviderSpec :=
  let p := provider.Spec
  let host := if p.ScvmmHost = "" then env.getenv "SCVMM_HOST" else p.ScvmmHost
  if host = "" then .err "missing required value ScvmmHost"
  else
    let p := { p with ScvmmHost := host }
    if p.ExecHost = "" ∧ p.ExtraFunctions = none then .panic "assignment to entry in nil map"
    else
      let p := if p.ExecHost = "" then
          { p with ExtraFunctions := some (mapSet (p.ExtraFunctions.getD []) "ConnectSCVMM" "")
                   ExecHost := p.ScvmmHost }
        else p
      let p := if p.ScvmmLibraryISOs = "" then
          (if env.getenv "SCVMM_LIBRARY" = "" then
            { p with ScvmmLibraryISOs := backslash ++ backslash ++ p.ScvmmHost ++ backslash ++
                "MSSCVMMLibrary" ++ backslash ++ "ISOs" ++ backslash ++ "clond-init" }
          else { p with ScvmmLibraryISOs := env.getenv "SCVMM_LIBRARY" })
        else p
      let p := if p.ADServer = "" then { p with ADServer := env.getenv "ACTIVEDIRECTORY_SERVER" }
        else p
      let creds : Except String ScvmmProviderSpec :=
        match p.SecretRef with
        | none => .ok p
        | some name =>
          match env.getSecret provider.Namespace name with
          | .error e => .error ("Failed to get credential secretref: " ++ e)
          | .ok data =>
            let p := match data.lookup "username" with
              | some value => { p with ScvmmUsername := value.getD "" }
              | none => p
            let p := match data.lookup "password" with
              | some value => { p with ScvmmPassword := value.getD "" }
              | none => p
            .ok p
      match creds with
      | .error e => .err e
      | .ok p =>
        let p := if p.ScvmmUsername = "" then { p with ScvmmUsername := env.getenv "SCVMM_USERNAME" }
          else p
        let p := if p.ScvmmPassword = "" then { p with ScvmmPassword := env.getenv "SCVMM_PASSWORD" }
          else p
        .ok p

/-- Source lines 153-216.  With a provider reference that names no namespace
the namespace of `scvmmCluster` is read, which panics on the nil pointer. -/
def getProvider (env : Env) (scvmmCluster : Option ScvmmCluster) (scvmmMachine : ScvmmMachine) :
    Go ScvmmProviderSpec :=
  let providerRef : Option ObjectReference :=
    match scvmmCluster with
    | none =>
      match scvmmMachine.Spec.CloudInit with
      | some ci => ci.ProviderRef
      | none => none
    | some c => c.ProviderRef
  match providerRef with
  | none => providerDefaults env {}
  | some ref =>
    let ns : Option String :=
      if ref.Namespace = "" then scvmmCluster.map (fun c => c.Namespace) else some ref.Namespace
    match ns with
    | none => .panic "invalid memory address or nil pointer dereference"
    | some ns =>
      match env.getScvmmProvider ns ref.Name with
      | .error e => .err ("Failed to get ScvmmProvider: " ++ e)
      | .ok provider => providerDefaults env provider

/-- `conditions.SetSummary` over `VmCreated` and `VmRunning` (lines 884-890):
the summary, when there is one, is stored as the `Ready` condition. -/
def setSummary (env : Env) (m : ScvmmMachine) : ScvmmMachine :=
  match env.summary m.Status.Conditions (Time.IsZero m.ObjectMeta.DeletionTimestamp) with
  | none => m
  | some c =>
    let ready : Condition := { c with CondType := ReadyCondition }
    { m with Status.Conditions := conditionsSet m.Status.Conditions ready }

/-- Source lines 881-902: recompute the summary condition, then patch. -/
def patchScvmmMachine (env : Env) (s : St) : St × Option String :=
  let m := setSummary env s.machine
  match env.patch s.patches m with
  | none => ({ s with machine := m, persisted := s.persisted ++ [m], patches := s.patches + 1 }, none)
  | some perr => ({ s with machine := m, patches := s.patches + 1 }, some perr)

/-- Source lines 856-879.  The product `time.Second * time.Duration(requeue)`
is `int64` arithmetic. -/
def patchReasonCondition (env : Env) (s : St) (requeue : Int) (err : Option String)
    (condition : ConditionType) (reason : String) (message : String)
    (messageargs : List String) : Outcome :=
  let m : ScvmmMachine := { s.machine with Status.Ready := false }
  let severity := match err with
    | some _ => ConditionSeverity.ConditionSeverityError
    | none => ConditionSeverity.ConditionSeverityInfo
  let m := MarkFalse env m condition reason severity message messageargs
  let s := (patchScvmmMachine env (s.setMachine m)).1
  match err with
  | some e => { st := s, ret := .done {} (some (errorsWrap e reason)) }
  | none =>
    if requeue ≠ 0 then
      { st := s, ret := .done { RequeueAfter := wrapInt64 (Second * requeue) } none }
    else { st := s, ret := .done {} none }

/-- Source lines 904-921. -/
def getBootstrapData (env : Env) (machine : Machine) : Except String (Option String) :=
  match machine.DataSecretName with
  | none => .error
      "error retrieving bootstrap data: linked Machine's bootstrap.dataSecretName is nil"
  | some name =>
    match env.getSecret machine.Namespace name with
    | .error e => .error (errorsWrap e ("failed to retrieve bootstrap data secret for ScvmmMachine "
        ++ machine.Namespace ++ "/" ++ machine.Name))
    | .ok data =>
      match data.lookup "value" with
      | none => .error "error retrieving bootstrap data: secret value key is missing"
      | some value => .ok value

/-! ## reconcileNormal (source lines 509-761) -/

/-- Source lines 630-634: the disk-expansion check.  `none` is the
index-out-of-range panic of `vm.VirtualDisks[i]`; the subtraction is `int64`
arithmetic. -/
def expandCheck : List VmDisk → Nat → List VirtualDisk → Bool → Option Bool
  | [], _, _, doexpand => some doexpand
  | d :: ds, i, vds, doexpand =>
    match d.Size with
    | none => expandCheck ds (i + 1) vds doexpand
    | some size =>
      match vds.get? i with
      | none => none
      | some vd =>
        if vd.MaximumSize < wrapInt64 (size - 1024 * 1024) then expandCheck ds (i + 1) vds true
        else expandCheck ds (i + 1) vds doexpand

/-- Source lines 715-721: store the status of the last call, patch, requeue
in 10 seconds. -/
def finishStart (env : Env) (s : St) (vm : VMResult) : Outcome :=
  let r := patchScvmmMachine env
    (s.setMachine { s.machine with Status.VMStatus := vm.Status })
  match r.2 with
  | some perr => { st := r.1, ret := .done {} (some perr) }
  | none => { st := r.1, ret := .done { RequeueAfter := Second * 10 } none }

/-- Source lines 698-714: the media-attach call. -/
def addIsoToVM (env : Env) (s : St) (isoPath : String) : Outcome :=
  let c := Cmd.AddIsoToVM (escapeSingleQuotes s.machine.Spec.VMName) (escapeSingleQuotes isoPath)
  match env.vmCall s.calls c with
  | .error e => { st := s.call c, ret := .done {} (some (errorsWrap e "Failed to add iso to vm")) }
  | .ok vm => finishStart env (s.call c) vm

/-- Source lines 706-714: the start call. -/
def startVM (env : Env) (s : St) : Outcome :=
  let c := Cmd.StartVM (escapeSingleQuotes s.machine.Spec.VMName)
  match env.vmCall s.calls c with
  | .error e => { st := s.call c, ret := .done {} (some (errorsWrap e "Failed to start vm")) }
  | .ok vm => finishStart env (s.call c) vm

/-- Source lines 686-721: attach the cloud-init media or start the machine. -/
def attachOrStart (env : Env) (provider : ScvmmProviderSpec) (s : St) (vm : VMResult)
    (bootstrapData metaData networkConfig : Option String) : Outcome :=
  if metaData ≠ none ∨ bootstrapData ≠ none ∨ networkConfig ≠ none then
    let isoPath := provider.ScvmmLibraryISOs ++ backslash ++ s.machine.Spec.VMName ++
      "-cloud-init.iso"
    match env.writeCloudInit s.machine provider vm.VMId isoPath bootstrapData metaData
        networkConfig with
    | some e => patchReasonCondition env s 0 (some e) VmCreated WaitingForBootstrapDataReason
        "Failed to create cloud init data" []
    | none =>
      let r := patchScvmmMachine env (s.setMachine (MarkFalse env s.machine VmRunning
        VmStartingReason ConditionSeverity.ConditionSeverityInfo "" []))
      match r.2 with
      | some _ => { st := r.1, ret := .done {} none }
      | none => addIsoToVM env r.1 isoPath
  else startVM env s

/-- Source lines 659-685: find the bootstrap data, then attach or start. -/
def bootstrap (env : Env) (cluster : Option Cluster) (provider : ScvmmProviderSpec)
    (machine : Option Machine) (s : St) (vm : VMResult) : Outcome :=
  match machine with
  | some machine =>
    match machine.DataSecretName with
    | none =>
      if IsControlPlaneMachine machine then
        patchReasonCondition env s 0 none VmCreated WaitingForBootstrapDataReason "" []
      else
        match cluster with
        | none => { st := s, ret := .panic "invalid memory address or nil pointer dereference" }
        | some cluster =>
          if !conditionsIsTrue cluster.Conditions ControlPlaneInitializedCondition then
            patchReasonCondition env s 0 none VmCreated WaitingForControlPlaneAvailableReason "" []
          else
            patchReasonCondition env s 0 none VmCreated WaitingForBootstrapDataReason "" []
    | some _ =>
      match getBootstrapData env machine with
      | .error e => patchReasonCondition env s 0 (some e) VmCreated WaitingForBootstrapDataReason
          "Failed to get bootstrap data" []
      | .ok bootstrapData => attachOrStart env provider s vm bootstrapData none none
  | none =>
    match s.machine.Spec.CloudInit with
    | some ci =>
      attachOrStart env provider s vm
        (if ci.UserData ≠ "" then some ci.UserData else none)
        (if ci.MetaData ≠ "" then some ci.MetaData else none)
        (if ci.NetworkConfig ≠ "" then some ci.NetworkConfig else none)
    | none => attachOrStart env provider s vm none none none

/-- Source lines 637-643: the expand command line. -/
def expandCmd (env : Env) (spec : ScvmmMachineSpec) : Cmd :=
  Cmd.ExpandVMDisks (escapeSingleQuotes spec.VMName)
    (escapeSingleQuotes (makeDisksJSON env spec.Disks))

/-- Source lines 635-657: the expand call. -/
def expandVMDisks (env : Env) (s : St) : Outcome :=
  let c := expandCmd env s.machine.Spec
  match env.vmCall s.calls c with
  | .error e => patchReasonCondition env (s.call c) 0 (some e) VmCreated VmFailedReason
      "Failed to expand disks" []
  | .ok vm =>
    if vm.Error ≠ "" then
      patchReasonCondition env (s.call c) 0 none VmCreated VmFailedReason
        "Failed to create vm: %s" [vm.Error]
    else
      patchReasonCondition env ((s.call c).setMachine (fillStatus s.machine false vm)) 10 none
        VmCreated VmUpdatingReason "" []

/-- Source lines 628-657: the expansion check, then the expand call or the
bootstrap step. -/
def expandOrBootstrap (env : Env) (cluster : Option Cluster) (provider : ScvmmProviderSpec)
    (machine : Option Machine) (s : St) (vm : VMResult) : Outcome :=
  match expandCheck s.machine.Spec.Disks 0 vm.VirtualDisks false with
  | none => { st := s, ret := .panic "index out of range" }
  | some true => expandVMDisks env s
  | some false => bootstrap env cluster provider machine s vm

/-- Source lines 622-627: merge the echoed spec into the record and persist
the record when the merge changed it. -/
def mergeSpec (env : Env) (cluster : Option Cluster) (provider : ScvmmProviderSpec)
    (machine : Option Machine) (s : St) (vm : VMResult) (newspec : VMSpecResult) : Outcome :=
  let merged := env.copyNonZeroTo newspec.ScvmmMachineSpec s.machine.Spec
  let s := s.setMachine { s.machine with Spec := merged.1 }
  if merged.2 then
    let r := patchScvmmMachine env s
    match r.2 with
    | some _ => { st := r.1, ret := .done {} none }
    | none => expandOrBootstrap env cluster provider machine r.1 vm
  else expandOrBootstrap env cluster provider machine s vm

/-- Source lines 612-627: the spec-merge call of a powered-off machine. -/
def powerOff (env : Env) (cluster : Option Cluster) (provider : ScvmmProviderSpec)
    (machine : Option Machine) (s : St) (vm : VMResult) : Outcome :=
  let c := Cmd.AddVMSpec s.machine.Spec s.machine.ObjectMeta
  match env.specCall s.calls c with
  | .error e => patchReasonCondition env (s.call c) 0 (some e) VmCreated VmFailedReason
      "Failed calling add spec function" []
  | .ok newspec =>
    if newspec.Error ≠ "" then
      patchReasonCondition env (s.call c) 60 none VmCreated VmFailedReason
        ("Failed calling add spec function: " ++ newspec.Message) []
    else mergeSpec env cluster provider machine (s.call c) vm newspec

/-- Source lines 748-757: one more discovery call for a running machine
without addresses or host name. -/
def readVM (env : Env) (s : St) : Outcome :=
  let c := Cmd.ReadVM (escapeSingleQuotes s.machine.Spec.VMName)
  match env.vmCall s.calls c with
  | .error e => { st := s.call c, ret := .done {} (some (errorsWrap e "Failed to read vm")) }
  | .ok _ => { st := s.call c, ret := .done { RequeueAfter := Second * 60 } none }

/-- Source lines 724-761: the machine is past the power-off stage. -/
def running (env : Env) (s : St) (vm : VMResult) : Outcome :=
  if vm.Status ≠ "Running" then
    patchReasonCondition env s 30 none VmRunning VmStartingReason "" []
  else
    let m := fillAddresses { s.machine with Status.Ready := true } vm
    let r := patchScvmmMachine env (s.setMachine (MarkTrue m VmRunning))
    match r.2 with
    | some perr => { st := r.1, ret := .done {} (some perr) }
    | none =>
      if vm.IPv4Addresses = none ∨ vm.Hostname = "" then readVM env r.1
      else { st := r.1, ret := .done {} none }

/-- Source lines 600-610: the status filled in from the discovery result. -/
def fillFound (s : St) (vm : VMResult) : St :=
  s.setMachine (fillStatus (setProviderID (MarkTrue s.machine VmCreated) vm)
    (vm.Status == "Running") vm)

/-- Source lines 600-761: the discovery found the machine. -/
def found (env : Env) (cluster : Option Cluster) (provider : ScvmmProviderSpec)
    (machine : Option Machine) (s : St) (vm : VMResult) : Outcome :=
  if vm.Status = "PowerOff" then powerOff env cluster provider machine (fillFound s vm) vm
  else running env (fillFound s vm) vm

/-- Source lines 567-579: the creation command line. -/
def createVMCmd (env : Env) (spec : ScvmmMachineSpec) (vmName : String) : Cmd :=
  Cmd.CreateVM (escapeSingleQuotes spec.Cloud) (escapeSingleQuotes spec.HostGroup)
    (escapeSingleQuotes vmName) (escapeSingleQuotes spec.VMTemplate)
    ((spec.Memory.tdiv 1024).tdiv 1024) spec.CPUCount
    (escapeSingleQuotes (makeDisksJSON env spec.Disks))
    (escapeSingleQuotes spec.VMNetwork) (escapeSingleQuotes spec.HardwareProfile)
    (escapeSingleQuotes spec.Description) (escapeSingleQuotes spec.StartAction)
    (escapeSingleQuotes spec.StopAction)

/-- Source lines 562-598: the creation call and the status it fills in. -/
def createVMCall (env : Env) (s : St) (vmName : String) : Outcome :=
  let c := createVMCmd env s.machine.Spec vmName
  match env.vmCall s.calls c with
  | .error e => patchReasonCondition env (s.call c) 0 (some e) VmCreated VmFailedReason
      "Failed to create vm" []
  | .ok vm =>
    if vm.Error ≠ "" then
      patchReasonCondition env (s.call c) 0 none VmCreated VmFailedReason
        "Failed to create vm: %s" [vm.Error]
    else
      let m := setProviderID { s.machine with Spec.VMName := vmName } vm
      patchReasonCondition env ((s.call c).setMachine (fillStatus m false vm)) 10 none
        VmCreated VmCreatingReason "" []

/-- Source lines 544-598: register the directory object if asked for, then
create the machine. -/
def createVM (env : Env) (s : St) (vmName : String) : Outcome :=
  match s.machine.Spec.ActiveDirectory with
  | none => createVMCall env s vmName
  | some adspec =>
    let c := Cmd.CreateADComputer (escapeSingleQuotes vmName) (escapeSingleQuotes adspec.OUPath)
      (escapeSingleQuotes adspec.DomainController) (escapeSingleQuotes adspec.Description)
      (escapeSingleQuotesArray adspec.MemberOf)
    match env.vmCall s.calls c with
    | .error e => patchReasonCondition env (s.call c) 0 (some e) VmCreated VmFailedReason
        "Failed to create AD entry" []
    | .ok vm =>
      if vm.Error ≠ "" then
        patchReasonCondition env (s.call c) 60 none VmCreated VmFailedReason
          "Failed to create AD entry: %s" [vm.Error]
      else createVMCall env (s.call c) vmName

/-- Source lines 527-599: the discovery found nothing; generate a name when
the record has none, then create. -/
def notFound (env : Env) (s : St) : Outcome :=
  if s.machine.Spec.VMName = "" then
    let c := Cmd.GenerateVMName s.machine.Spec s.machine.ObjectMeta
    match env.specCall s.calls c with
    | .error e => patchReasonCondition env (s.call c) 0 (some e) VmCreated VmFailedReason
        "Failed generate vmname" []
    | .ok newspec =>
      if newspec.Error ≠ "" then
        patchReasonCondition env (s.call c) 0 none VmCreated VmFailedReason
          ("Failed generate vmname: " ++ newspec.Message) []
      else if newspec.ScvmmMachineSpec.VMName = "" then
        patchReasonCondition env (s.call c) 0 none VmCreated VmFailedReason
          ("Failed generate vmname: " ++ newspec.Message) []
      else createVM env (s.call c) newspec.ScvmmMachineSpec.VMName
  else createVM env s s.machine.Spec.VMName

/-- Source lines 527-761: what follows the discovery step. -/
def afterDiscovery (env : Env) (cluster : Option Cluster) (provider : ScvmmProviderSpec)
    (machine : Option Machine) (s : St) (vm : VMResult) : Outcome :=
  if vm.Name = "" then notFound env s
  else found env cluster provider machine s vm

/-- Source lines 518-526: the discovery call, made when the record has a
name; without one the result is the zero value. -/
def discover (env : Env) (cluster : Option Cluster) (provider : ScvmmProviderSpec)
    (machine : Option Machine) (s : St) : Outcome :=
  if s.machine.Spec.VMName ≠ "" then
    let c := Cmd.GetVM (escapeSingleQuotes s.machine.Spec.VMName)
    match env.vmCall s.calls c with
    | .error e => { st := s.call c, ret := .done {} (some (errorsWrap e "Failed to get vm")) }
    | .ok vm => afterDiscovery env cluster provider machine (s.call c) vm
  else afterDiscovery env cluster provider machine s {}

/-- Source lines 509-761. -/
def reconcileNormal (env : Env) (cluster : Option Cluster) (provider : ScvmmProviderSpec)
    (machine : Option Machine) (s : St) : Outcome :=
  match createWinrmCmd env provider with
  | .panic msg => { st := s.openSession, ret := .panic msg }
  | .err e => { st := s.openSession, ret := .done {} (some (errorsWrap e "Winrm")) }
  | .ok _ => discover env cluster provider machine s.openSession

/-! ## reconcileDelete (source lines 783-854) -/

/-- Source lines 839-845: drop the finalizer and persist. -/
def removeFinalizer (env : Env) (s : St) : Outcome :=
  let r := patchScvmmMachine env (s.setMachine (RemoveFinalizer s.machine MachineFinalizer))
  match r.2 with
  | some perr => { st := r.1, ret := .done {} (some perr) }
  | none => { st := r.1, ret := .done {} none }

/-- Source lines 823-845: the machine is removed; remove the directory object
if there is one, then the finalizer. -/
def removed (env : Env) (s : St) : Outcome :=
  match s.machine.Spec.ActiveDirectory with
  | none => removeFinalizer env s
  | some adspec =>
    let c := Cmd.RemoveADComputer (escapeSingleQuotes s.machine.Spec.VMName)
      (escapeSingleQuotes adspec.OUPath) (escapeSingleQuotes adspec.DomainController)
    match env.vmCall s.calls c with
    | .error e => patchReasonCondition env (s.call c) 0 (some e) VmCreated VmFailedReason
        "Failed to remove AD entry" []
    | .ok vm =>
      if vm.Error ≠ "" then
        patchReasonCondition env (s.call c) 60 none VmCreated VmFailedReason
          "Failed to remove AD entry: %s" [vm.Error]
      else removeFinalizer env (s.call c)

/-- Source lines 813-853: the removal call and what follows it. -/
def removeVM (env : Env) (s : St) : Outcome :=
  let c := Cmd.RemoveVM (escapeSingleQuotes s.machine.Spec.VMName)
  match env.vmCall s.calls c with
  | .error e => patchReasonCondition env (s.call c) 0 (some e) VmCreated VmFailedReason
      "Failed to delete VM" []
  | .ok vm =>
    if vm.Error ≠ "" then
      patchReasonCondition env (s.call c) 60 none VmCreated VmFailedReason
        "Failed to delete VM: %s" [vm.Error]
    else if vm.Message = "Removed" then removed env (s.call c)
    else
      let m : ScvmmMachine := { s.machine with
        Status.VMStatus := vm.Status
        Status.CreationTime := vm.CreationTime
        Status.ModifiedTime := vm.ModifiedTime }
      patchReasonCondition env ((s.call c).setMachine m) 30 none VmCreated VmDeletingReason "" []

/-- Source lines 800-853: mark the record as deleting, persist, open the
session, remove. -/
def deleteVM (env : Env) (provider : ScvmmProviderSpec) (s : St) : Outcome :=
  let r := patchScvmmMachine env (s.setMachine (MarkFalse env s.machine VmCreated
    VmDeletingReason ConditionSeverity.ConditionSeverityInfo "" []))
  match r.2 with
  | some perr => { st := r.1, ret := .done {} (some (errorsWrap perr "failed to patch ScvmmMachine")) }
  | none =>
    match createWinrmCmd env provider with
    | .panic msg => { st := r.1.openSession, ret := .panic msg }
    | .err e => { st := r.1.openSession, ret := .done {} (some (errorsWrap e "Winrm")) }
    | .ok _ => removeVM env r.1.openSession

/-- Source lines 783-854. -/
def reconcileDelete (env : Env) (provider : ScvmmProviderSpec) (s : St) : Outcome :=
  if !ContainsFinalizer s.machine MachineFinalizer then { st := s, ret := .done {} none }
  else if s.machine.Spec.VMName = "" then removeFinalizer env s
  else deleteVM env provider s

/-! ## Reconcile (source lines 398-507) -/

/-- Source lines 408-415: every disk without a size gets the size zero. -/
def fixDiskSizes (m : ScvmmMachine) : ScvmmMachine :=
  let disks := m.Spec.Disks.map (fun d => match d.Size with
    | none => { d with Size := some 0 }
    | some _ => d)
  { m with Spec.Disks := disks }

/-- Source lines 496-506: resolve the provider, then run the workflow. -/
def delegate (env : Env) (deleting : Bool) (cluster : Option Cluster)
    (machine : Option Machine) (scvmmCluster : Option ScvmmCluster) (s : St) : Outcome :=
  match getProvider env scvmmCluster s.machine with
  | .panic msg => { st := s, ret := .panic msg }
  | .err _ => { st := s, ret := .done {} none }
  | .ok provider =>
    if deleting then reconcileDelete env provider s
    else reconcileNormal env cluster provider machine s

/-- Source lines 483-507: the finalizer check, then the delegation to the two
workflows. -/
def finalizerAndDelegate (env : Env) (deleting : Bool) (cluster : Option Cluster)
    (machine : Option Machine) (scvmmCluster : Option ScvmmCluster) (s : St) : Outcome :=
  if !deleting && !ContainsFinalizer s.machine MachineFinalizer then
    let r := patchScvmmMachine env (s.setMachine (AddFinalizer s.machine MachineFinalizer))
    match r.2 with
    | some _ => { st := r.1, ret := .done {} none }
    | none => { st := r.1, ret := .done {} none }
  else delegate env deleting cluster machine scvmmCluster s

/-- Source lines 435-481: the owner, cluster and ScvmmCluster lookups of a
record without a cloud-init section.  `scvmmCluster` is a nil pointer that is
passed to the client and never assigned, so reading `scvmmCluster.Name` after
a lookup that reports no error panics; lines 476-480 follow that read. -/
def ownerLookups (env : Env) (s : St) : Outcome :=
  match env.getOwnerMachine s.machine.ObjectMeta with
  | .error e => { st := s, ret := .done {} (some (errorsWrap e "Get owner machine")) }
  | .ok none => patchReasonCondition env s 0 none VmCreated WaitingForOwnerReason "" []
  | .ok (some machine) =>
    match env.getClusterFromMetadata machine with
    | .error e => patchReasonCondition env s 0 (some e) VmCreated MissingClusterReason
        "ScvmmMachine owner Machine is missing cluster label or cluster does not exist" []
    | .ok none => patchReasonCondition env s 0 none VmCreated MissingClusterReason
        "Please associate this machine with a cluster using the label %s: <name of cluster>"
        [ClusterLabelName]
    | .ok (some cluster) =>
      match env.getScvmmCluster s.machine.ObjectMeta.Namespace cluster.InfrastructureRefName with
      | some _ => patchReasonCondition env s 0 none VmCreated ClusterNotAvailableReason "" []
      | none => { st := s, ret := .panic "invalid memory address or nil pointer dereference" }

/-- Source lines 398-507. -/
def Reconcile (env : Env) : Outcome :=
  match env.getScvmmMachine with
  | .error e => { st := {}, ret := .done {} (if e.notFound then none else some e.msg) }
  | .ok fetched =>
    let s : St := { machine := fixDiskSizes fetched }
    match env.newHelper with
    | some e => { st := s, ret := .done {} (some (errorsWrap e "Get patchhelper")) }
    | none =>
      let deleting : Bool := !Time.IsZero s.machine.ObjectMeta.DeletionTimestamp
      match s.machine.Spec.CloudInit with
      | none => ownerLookups env s
      | some _ => finalizerAndDelegate env deleting none none none s


/-! ## Specification-side definitions for the controller claims -/

/-- Modelled from the spec: `VMSpecResult.CopyNonZeroTo` of `api/v1beta1`,
which is not among the sources.  Every non-zero field of the echoed spec
overwrites the field of the target, zero fields leave the target as it is;
the flag tells whether the target changed. -/
def copyNonZeroTo (src target : ScvmmMachineSpec) : ScvmmMachineSpec × Bool :=
  let merged : ScvmmMachineSpec :=
    { VMName := if src.VMName ≠ "" then src.VMName else target.VMName
      ProviderID := if src.ProviderID ≠ "" then src.ProviderID else target.ProviderID
      Cloud := if src.Cloud ≠ "" then src.Cloud else target.Cloud
      HostGroup := if src.HostGroup ≠ "" then src.HostGroup else target.HostGroup
      VMTemplate := if src.VMTemplate ≠ "" then src.VMTemplate else target.VMTemplate
      Memory := if src.Memory ≠ 0 then src.Memory else target.Memory
      CPUCount := if src.CPUCount ≠ 0 then src.CPUCount else target.CPUCount
      Disks := if src.Disks ≠ [] then src.Disks else target.Disks
      VMNetwork := if src.VMNetwork ≠ "" then src.VMNetwork else target.VMNetwork
      HardwareProfile :=
        if src.HardwareProfile ≠ "" then src.HardwareProfile else target.HardwareProfile
      Description := if src.Description ≠ "" then src.Description else target.Description
      StartAction := if src.StartAction ≠ "" then src.StartAction else target.StartAction
      StopAction := if src.StopAction ≠ "" then src.StopAction else target.StopAction
      ActiveDirectory :=
        if src.ActiveDirectory ≠ none then src.ActiveDirectory else target.ActiveDirectory
      CloudInit := if src.CloudInit ≠ none then src.CloudInit else target.CloudInit }
  (merged, decide (merged ≠ target))

/-- The record and every record persisted so far hold the finalizer. -/
def St.holdsFinalizer (s : St) : Bool :=
  ContainsFinalizer s.machine MachineFinalizer &&
    s.persisted.all (fun p => ContainsFinalizer p MachineFinalizer)

/-- The record has a condition of type `t` with the given status and reason. -/
def hasCondition (m : ScvmmMachine) (t : ConditionType) (status : ConditionStatus)
    (reason : String) : Bool :=
  match conditionsGet m.Status.Conditions t with
  | some c => c.Status == status && c.Reason == reason
  | none => false

/-- The value fits the Go type `int64`. -/
def isInt64 (x : Int) : Prop := -2 ^ 63 ≤ x ∧ x < 2 ^ 63

/-- Every declared size is an `int64` value. -/
def sizesInt64 (disks : List VmDisk) : Bool :=
  disks.all (fun d =>
    match d.Size with
    | some size => decide (-2 ^ 63 ≤ size ∧ size < 2 ^ 63)
    | none => true)

/-- Every declared size is an `int64` value from which one mebibyte can be
subtracted within `int64`. -/
def sizesNoWrap (disks : List VmDisk) : Bool :=
  disks.all (fun d =>
    match d.Size with
    | some size => decide (-2 ^ 63 + 1048576 ≤ size ∧ size < 2 ^ 63)
    | none => true)

/-- Every discovered maximum size is an `int64` value. -/
def maximaInt64 (vds : List VirtualDisk) : Bool :=
  vds.all (fun vd => decide (-2 ^ 63 ≤ vd.MaximumSize ∧ vd.MaximumSize < 2 ^ 63))

/-- Some declared disk has a target size above the maximum size of the
virtual disk at the same index plus one mebibyte. -/
def someDiskExceeds (disks : List VmDisk) (vds : List VirtualDisk) : Bool :=
  (disks.zip vds).any (fun p =>
    match p.1.Size with
    | some size => decide (size > p.2.MaximumSize + 1048576)
    | none => false)

/-- The state of `reconcileNormal` at source line 612: the session is open,
the discovery call is made and the status is filled in from its result. -/
def atPowerOff (s : St) (vm : VMResult) : St :=
  fillFound (s.openSession.call (Cmd.GetVM (escapeSingleQuotes s.machine.Spec.VMName))) vm

/-- The spec-merge command sent from a state (source line 614). -/
def addVMSpecCmd (s : St) : Cmd := Cmd.AddVMSpec s.machine.Spec s.machine.ObjectMeta

/-- The state after the spec-merge call answered `newspec` from the state `s`
and the echoed spec is merged into the record (source lines 614-622). -/
def afterMerge (env : Env) (s : St) (newspec : VMSpecResult) : St :=
  (s.call (addVMSpecCmd s)).setMachine
    { s.machine with Spec := (env.copyNonZeroTo newspec.ScvmmMachineSpec s.machine.Spec).1 }

/-- The merge left the record as it was, or the patch of the merged record
went through (source lines 622-627). -/
def mergePersisted (env : Env) (s : St) (newspec : VMSpecResult) : Bool :=
  !(env.copyNonZeroTo newspec.ScvmmMachineSpec s.machine.Spec).2 ||
    (patchScvmmMachine env (afterMerge env s newspec)).2.isNone

/-- The state of `reconcileNormal` at source line 628, where the expansion
check starts. -/
def atExpandCheck (env : Env) (s : St) (newspec : VMSpecResult) : St :=
  if (env.copyNonZeroTo newspec.ScvmmMachineSpec s.machine.Spec).2 then
    (patchScvmmMachine env (afterMerge env s newspec)).1
  else afterMerge env s newspec

/-- The JSON object the claim about `makeDisksJSON` describes for one disk:
`sizeMB` is the size divided by 1048576 with truncation, 0 without a size;
`vhDisk` is left out when empty. -/
def diskObject (d : VmDisk) : JsonObject :=
  [("sizeMB", JsonScalar.num (match d.Size with
      | none => 0
      | some v => v.tdiv 1048576))] ++
    (if d.VHDisk = "" then [] else [("vhDisk", JsonScalar.str d.VHDisk)]) ++
    [("dynamic", JsonScalar.bool d.Dynamic)]

/-- The value of a Go call that returned one. -/
def Go.value? {α : Type} : Go α → Option α
  | .ok a => some a
  | .err _ => none
  | .panic _ => none

/-- The state of `reconcileDelete` at source line 813, where the removal call
is made: the record is marked as deleting and patched, the session is open. -/
def atRemoveVM (env : Env) (s : St) : St :=
  (patchScvmmMachine env (s.setMachine (MarkFalse env s.machine VmCreated VmDeletingReason
    ConditionSeverity.ConditionSeverityInfo "" []))).1.openSession

/-- The state of `reconcileDelete` at source line 841, before the patch that
persists the record without the finalizer (no directory object to remove). -/
def atRemoveFinalizer (env : Env) (s : St) : St :=
  ((atRemoveVM env s).call (Cmd.RemoveVM (escapeSingleQuotes s.machine.Spec.VMName))).setMachine
    (RemoveFinalizer (atRemoveVM env s).machine MachineFinalizer)

/-- The state of `reconcileNormal` at source line 744, before the patch of a
running machine: readiness, addresses, host name and `VmRunning` are set. -/
def atRunningPatch (s : St) (vm : VMResult) : St :=
  (atPowerOff s vm).setMachine
    (MarkTrue (fillAddresses { (atPowerOff s vm).machine with Status.Ready := true } vm)
      VmRunning)

/-- The state of `reconcileNormal` at source line 659, where the bootstrap
step starts: the machine was found powered off and the spec is merged. -/
def atBootstrap (env : Env) (s : St) (vm : VMResult) (newspec : VMSpecResult) : St :=
  atExpandCheck env (atPowerOff s vm) newspec

/-- The bootstrap, meta-data and network-config payloads that source lines
659-685 hand on when the bootstrap data is available: with an owner, the
value of its bootstrap secret; without one, the non-empty inline cloud-init
fields.  `none` when the bootstrap data is not available. -/
def bootstrapPayloads (env : Env) (machine : Option Machine) (m : ScvmmMachine) :
    Option (Option String × Option String × Option String) :=
  match machine with
  | some machine =>
    match machine.DataSecretName with
    | none => none
    | some _ =>
      match getBootstrapData env machine with
      | .error _ => none
      | .ok bootstrapData => some (bootstrapData, none, none)
  | none =>
    match m.Spec.CloudInit with
    | some ci =>
      some (if ci.UserData ≠ "" then some ci.UserData else none,
        if ci.MetaData ≠ "" then some ci.MetaData else none,
        if ci.NetworkConfig ≠ "" then some ci.NetworkConfig else none)
    | none => some (none, none, none)

/-- The path of the cloud-init media (source line 688). -/
def isoPath (provider : ScvmmProviderSpec) (m : ScvmmMachine) : String :=
  provider.ScvmmLibraryISOs ++ backslash ++ m.Spec.VMName ++ "-cloud-init.iso"

/-- The media-attach command (source lines 703-705). -/
def addIsoCmd (provider : ScvmmProviderSpec) (m : ScvmmMachine) : Cmd :=
  Cmd.AddIsoToVM (escapeSingleQuotes m.Spec.VMName) (escapeSingleQuotes (isoPath provider m))

/-- The start command (source lines 711-712). -/
def startCmd (m : ScvmmMachine) : Cmd := Cmd.StartVM (escapeSingleQuotes m.Spec.VMName)

/-- The patch of source lines 697-698, made from the state `s` before the
media-attach call: `VmRunning` is marked False with reason `VmStarting`. -/
def attachPatch (env : Env) (s : St) : St × Option String :=
  patchScvmmMachine env (s.setMachine (MarkFalse env s.machine VmRunning VmStartingReason
    ConditionSeverity.ConditionSeverityInfo "" []))

/-- The closing patch of source line 716, made from the state `s` with the
status of the result `vm`, goes through. -/
def closingPatchOk (env : Env) (s : St) (vm : VMResult) : Bool :=
  (patchScvmmMachine env (s.setMachine { s.machine with Status.VMStatus := vm.Status })).2.isNone

/-- The result of a simple call with its `Message` field erased. -/
def VMResult.eraseMessage (vm : VMResult) : VMResult := { vm with Message := "" }

/-- The result of a spec call with its `Message` field erased. -/
def VMSpecResult.eraseMessage (r : VMSpecResult) : VMSpecResult := { r with Message := "" }

/-- Two records agree in metadata and spec; their status may differ. -/
def sameRecord (m1 m2 : ScvmmMachine) : Prop :=
  m1.ObjectMeta = m2.ObjectMeta ∧ m1.Spec = m2.Spec

/-- Two states of an attempt agree in everything that the control flow reads
or an observer of the remote side sees: metadata and spec of the record, the
calls issued, the number of patches attempted and of sessions entered. -/
def St.Alike (s1 s2 : St) : Prop :=
  sameRecord s1.machine s2.machine ∧ s1.calls = s2.calls ∧ s1.patches = s2.patches ∧
    s1.sessions = s2.sessions

/-- Two outcomes agree: alike states and the same returned pair. -/
def Outcome.Alike (o1 o2 : Outcome) : Prop := St.Alike o1.st o2.st ∧ o1.ret = o2.ret

/-- The outcomes of patching the record and of writing the cloud-init media
are the same in both environments and do not depend on the status of the
record. -/
def sameWrites (e1 e2 : Env) : Prop :=
  (∀ n m1 m2, sameRecord m1 m2 → e1.patch n m1 = e2.patch n m2) ∧
  (∀ m1 m2 p id path b md nc, sameRecord m1 m2 →
    e1.writeCloudInit m1 p id path b md nc = e2.writeCloudInit m2 p id path b md nc)

/-- Two environments whose remote results are equal except for the `Message`
fields: after the same calls the same command fails with the same transport
error in both or returns results that are equal once `Message` is erased;
sessions, secrets, spec merge and marshalling are the same, and so are the
outcomes of the writes. -/
def sameButMessage (e1 e2 : Env) : Prop :=
  (∀ calls c, (e1.vmCall calls c).map VMResult.eraseMessage =
    (e2.vmCall calls c).map VMResult.eraseMessage) ∧
  (∀ calls c, (e1.specCall calls c).map VMSpecResult.eraseMessage =
    (e2.specCall calls c).map VMSpecResult.eraseMessage) ∧
  (∀ provider, createWinrmCmd e1 provider = createWinrmCmd e2 provider) ∧
  e1.getSecret = e2.getSecret ∧ e1.copyNonZeroTo = e2.copyNonZeroTo ∧
  e1.marshalDisks = e2.marshalDisks ∧ sameWrites e1 e2

/-- The removal results of two environments agree on whether the `Message`
is `Removed`. -/
def sameRemoved (e1 e2 : Env) : Prop :=
  ∀ calls name vm1 vm2, e1.vmCall calls (Cmd.RemoveVM name) = .ok vm1 →
    e2.vmCall calls (Cmd.RemoveVM name) = .ok vm2 →
    (vm1.Message = "Removed" ↔ vm2.Message = "Removed")

/-- Some declared disk with a size sits at an index, counted from `i`, at or
beyond `n`, the number of virtual disks of the discovery result. -/
def sizedDiskBeyond : List VmDisk → Nat → Nat → Bool
  | [], _, _ => false
  | d :: ds, i, n => (d.Size.isSome && decide (n ≤ i)) || sizedDiskBeyond ds (i + 1) n

/-- The value of `Status.Ready` that the claim about readiness names for a
discovery result: true when the result has a name and the status `Running`. -/
def readyFor (vm : VMResult) : Bool := decide (vm.Name ≠ "" ∧ vm.Status = "Running")

/-- Every record persisted in `t` that was not yet persisted in `s` has
readiness `b`. -/
def St.persistsReady (b : Bool) (s t : St) : Prop :=
  ∀ p ∈ t.persisted, p ∈ s.persisted ∨ p.Status.Ready = b

/-- The record in `t` has readiness `b`, and so has every record persisted
since `s`. -/
def St.readyIs (b : Bool) (s t : St) : Prop :=
  t.machine.Status.Ready = b ∧ St.persistsReady b s t

/-- The answers that allow the finalizer to go: the removal call, made after
the calls `calls`, came back without transport error, with an empty `Error`
and the message `Removed`, and with a directory spec the directory removal
came back with an empty `Error` as well. -/
def removalConfirmed (env : Env) (calls : List Cmd) (vmName : String)
    (adspec : Option ActiveDirectory) : Bool :=
  match env.vmCall calls (Cmd.RemoveVM (escapeSingleQuotes vmName)) with
  | .error _ => false
  | .ok vm =>
    vm.Error == "" && vm.Message == "Removed" &&
      match adspec with
      | none => true
      | some ad =>
        match env.vmCall (calls ++ [Cmd.RemoveVM (escapeSingleQuotes vmName)])
            (Cmd.RemoveADComputer (escapeSingleQuotes vmName) (escapeSingleQuotes ad.OUPath)
              (escapeSingleQuotes ad.DomainController)) with
        | .error _ => false
        | .ok vm2 => vm2.Error == ""

/-- Metadata of the in-memory record and of every persisted record. -/
def St.metas (s : St) : List ObjectMeta :=
  s.machine.ObjectMeta :: s.persisted.map (fun p => p.ObjectMeta)

/-- From `s` to `t` no metadata appears that `s` does not hold, and the calls
of `t` are those of `s` followed by calls of the functions `names`. -/
def St.Step (names : List String) (s t : St) : Prop :=
  t.metas ⊆ s.metas ∧ ∃ rest, t.calls = s.calls ++ rest ∧ ∀ c ∈ rest, c.name ∈ names

/-- The remote functions of `reconcileNormal`. -/
def normalNames : List String :=
  ["GetVM", "GenerateVMName", "CreateADComputer", "CreateVM", "AddVMSpec", "ExpandVMDisks",
    "AddIsoToVM", "StartVM", "ReadVM"]

/-! ## Concrete environments and records -/

/-- A provider that needs no defaulting of the execution host. -/
def testProvider : ScvmmProviderSpec :=
  { ScvmmHost := "scvmm", ExecHost := "exec", ScvmmLibraryISOs := "lib" }

/-- An environment in which nothing fails: no script files, every remote call
returns the zero result, every patch goes through, no owner, no variables. -/
def quietEnv : Env where
  getenv := fun k => if k = "SCVMM_HOST" then "scvmm" else ""
  globScripts := .ok []
  readScript := fun _ => .ok ""
  openSession := fun _ _ => none
  vmCall := fun _ _ => .ok {}
  specCall := fun _ _ => .ok {}
  getScvmmMachine := .ok {}
  newHelper := none
  patch := fun _ _ => none
  getOwnerMachine := fun _ => .ok none
  getClusterFromMetadata := fun _ => .ok none
  getScvmmCluster := fun _ _ => some "not found"
  getScvmmProvider := fun _ _ => .ok { Spec := testProvider }
  getSecret := fun _ _ => .ok []
  copyNonZeroTo := copyNonZeroTo
  writeCloudInit := fun _ _ _ _ _ _ _ => none
  summary := fun _ _ => none
  sprintf := fun f args =>
    match args with
    | [] => f
    | a :: _ => stringsReplaceAll f "%s" a
  marshalDisks := fun _ => "[]"

/-- A standalone record that is being deleted, holds the finalizer and has a
machine name. -/
def deletedRecord : ScvmmMachine :=
  { ObjectMeta := { Name := "m", Namespace := "ns", DeletionTimestamp := some 1,
                    Finalizers := [MachineFinalizer] }
    Spec := { VMName := "vm1",
              CloudInit := some { ProviderRef := some { Namespace := "ns", Name := "p" } } } }

/-- The removal call reports completion. -/
def removedEnv : Env :=
  { quietEnv with
    getScvmmMachine := .ok deletedRecord
    vmCall := fun _ _ => .ok { Message := "Removed" } }


/-- A standalone record with a machine name that holds the finalizer. -/
def namedRecord : ScvmmMachine :=
  { ObjectMeta := { Name := "m", Namespace := "ns", Finalizers := [MachineFinalizer] }
    Spec := { VMName := "vm1", CloudInit := some {} } }

/-- The discovery call finds the machine running, with address and host name. -/
def runningEnv : Env :=
  { quietEnv with
    getScvmmMachine := .ok namedRecord
    vmCall := fun _ _ => .ok
      { Name := "vm1", Status := "Running", IPv4Addresses := some ["10.0.0.1"], Hostname := "h" } }

/-- One gibibyte. -/
def GiB : Int := 1073741824

/-- A discovery result for `vm1`, powered off, with the given virtual disks. -/
def powerOffResult (vds : List VirtualDisk) : VMResult :=
  { Name := "vm1", Status := "PowerOff", VirtualDisks := vds }

/-- The record `namedRecord` with the given disks. -/
def diskRecord (disks : List VmDisk) : ScvmmMachine :=
  { namedRecord with Spec := { VMName := "vm1", CloudInit := some {}, Disks := disks } }

/-- Every remote call answers with `vm1` powered off and one virtual disk of
10 GiB; the spec call echoes nothing. -/
def growEnv : Env :=
  { quietEnv with vmCall := fun _ _ => .ok (powerOffResult [{ MaximumSize := 10 * GiB }]) }

/-- As `growEnv`, but the virtual disk has maximum size zero. -/
def emptyDiskEnv : Env :=
  { quietEnv with vmCall := fun _ _ => .ok (powerOffResult [{ MaximumSize := 0 }]) }

/-- As `growEnv`, but the spec call echoes a description, so that the merge
changes the record, and no patch goes through. -/
def patchFailEnv : Env :=
  { growEnv with
    specCall := fun _ _ => .ok { ScvmmMachineSpec := { Description := "filled in" } }
    patch := fun _ _ => some "conflict" }

/-- A standalone record without a machine name. -/
def freshRecord : ScvmmMachine :=
  { ObjectMeta := { Name := "m", Namespace := "ns", Finalizers := [MachineFinalizer] }
    Spec := { CloudInit := some {} } }

/-- The name generator answers `vm1`, every other call returns the zero
result. -/
def freshEnv : Env :=
  { quietEnv with specCall := fun _ _ => .ok { ScvmmMachineSpec := { VMName := "vm1" } } }

/-- As `freshEnv`, but every simple call reports a structured error. -/
def createErrorEnv : Env :=
  { freshEnv with vmCall := fun _ _ => .ok { Error := "quota exceeded", Message := "no capacity" } }

/-- The discovery call finds `vm1` powered off without disks, the start call
reports a structured error. -/
def startErrorEnv : Env :=
  { quietEnv with
    vmCall := fun _ c =>
      match c with
      | .StartVM _ => .ok { Error := "cannot start" }
      | _ => .ok (powerOffResult []) }

/-- A record being deleted that holds the finalizer and has a machine name,
but has no cloud-init section and, in `quietEnv`, no owner. -/
def orphanDeletedRecord : ScvmmMachine :=
  { ObjectMeta := { Name := "m", Namespace := "ns", DeletionTimestamp := some 1,
                    Finalizers := [MachineFinalizer] }
    Spec := { VMName := "vm1" } }

/-- The record fetched is `orphanDeletedRecord`. -/
def orphanDeletedEnv : Env := { quietEnv with getScvmmMachine := .ok orphanDeletedRecord }

/-- A new record without cloud-init section, owner and finalizer. -/
def orphanNewRecord : ScvmmMachine :=
  { ObjectMeta := { Name := "m", Namespace := "ns" } }

/-- The record fetched is `orphanNewRecord`. -/
def orphanNewEnv : Env := { quietEnv with getScvmmMachine := .ok orphanNewRecord }

/-- A new standalone record without finalizer. -/
def newRecord : ScvmmMachine :=
  { ObjectMeta := { Name := "m", Namespace := "ns" }
    Spec := { CloudInit := some {} } }

/-- The record fetched is `newRecord`. -/
def newEnv : Env := { quietEnv with getScvmmMachine := .ok newRecord }

/-- As `newEnv`, but no patch goes through. -/
def newPatchFailsEnv : Env := { newEnv with patch := fun _ _ => some "conflict" }

/-- A standalone record whose cloud-init section refers to the provider `p`. -/
def refRecord : ScvmmMachine :=
  { ObjectMeta := { Name := "m", Namespace := "ns", Finalizers := [MachineFinalizer] }
    Spec := { VMName := "vm1",
              CloudInit := some { ProviderRef := some { Namespace := "ns", Name := "p" } } } }

/-- The provider object names the management host and an empty function
table but no execution host; the variable `SCVMM_EXECHOST` is `exec`. -/
def execHostEnv : Env :=
  { quietEnv with
    getenv := fun k =>
      if k = "SCVMM_HOST" then "scvmm" else if k = "SCVMM_EXECHOST" then "exec" else ""
    getScvmmProvider := fun _ _ => .ok { Spec := { ScvmmHost := "scvmm", ExtraFunctions := some [] } } }

/-- No variable is set and the record fetched is `namedRecord`, which refers
to no provider object. -/
def noHostEnv : Env :=
  { quietEnv with
    getenv := fun _ => ""
    getScvmmMachine := .ok namedRecord }

/-- The removal call reports that the machine is still being removed. -/
def removingEnv : Env :=
  { quietEnv with
    getScvmmMachine := .ok deletedRecord
    vmCall := fun _ _ => .ok { Status := "Deleting", Message := "Removing" } }

/-- As `removedEnv`, but only the first patch of an attempt goes through. -/
def secondPatchFailsEnv : Env :=
  { removedEnv with patch := fun n _ => if n = 0 then none else some "conflict" }

/-- A discovery result for `vm1`: running, addresses and host name unknown. -/
def startingUpResult : VMResult := { Name := "vm1", Status := "Running" }

/-- Every call answers with `startingUpResult`. -/
def startingUpEnv : Env := { quietEnv with vmCall := fun _ _ => .ok startingUpResult }

/-- Every call answers with a running machine that has no name. -/
def namelessRunningEnv : Env := { quietEnv with vmCall := fun _ _ => .ok { Status := "Running" } }

/-- As `startingUpEnv`, but no patch goes through. -/
def startingUpPatchFailsEnv : Env := { startingUpEnv with patch := fun _ _ => some "conflict" }

/-- As `startingUpEnv`, but the `ReadVM` call fails in transport. -/
def readFailsEnv : Env :=
  { quietEnv with
    vmCall := fun _ c =>
      match c with
      | .ReadVM _ => .error "timeout"
      | _ => .ok startingUpResult }

/-- A summary in the manner of `conditions.SetSummary` over `VmCreated` and
`VmRunning`: the first of them that is false if there is one, else a true
condition if one of them is there, else nothing. -/
def mergeSummary (cs : List Condition) : Option Condition :=
  let own := cs.filter (fun c => c.CondType = VmCreated || c.CondType = VmRunning)
  match own.find? (fun c => c.Status = ConditionStatus.ConditionFalse) with
  | some c => some c
  | none =>
    if own.isEmpty then none
    else some { CondType := ReadyCondition, Status := ConditionStatus.ConditionTrue }

/-- As `quietEnv`, with the summary `mergeSummary`. -/
def readySummaryEnv : Env := { quietEnv with summary := fun cs _ => mergeSummary cs }

/-- The record `namedRecord` with `VmCreated` and `VmRunning` true. -/
def readyRecord : ScvmmMachine :=
  { namedRecord with
    Status := { Ready := true,
                Conditions := [{ CondType := VmCreated, Status := ConditionStatus.ConditionTrue },
                  { CondType := VmRunning, Status := ConditionStatus.ConditionTrue }] } }

/-- The record `namedRecord` with inline user data. -/
def bootRecord : ScvmmMachine :=
  { namedRecord with Spec := { VMName := "vm1", CloudInit := some { UserData := "#cloud-config" } } }

/-- The discovery call finds `vm1` powered off without disks; every other
simple call answers with `vm1` starting. -/
def bootEnv : Env :=
  { quietEnv with
    vmCall := fun _ c =>
      match c with
      | .GetVM _ => .ok (powerOffResult [])
      | _ => .ok { Name := "vm1", Status := "Starting" } }

/-- An owner with a bootstrap secret. -/
def ownerMachine : Machine := { Name := "owner", Namespace := "ns", DataSecretName := some "boot" }

/-- As `bootEnv`, and the bootstrap secret holds an empty value. -/
def emptySecretEnv : Env := { bootEnv with getSecret := fun _ _ => .ok [("value", some "")] }

/-- As `bootEnv`, but the cloud-init media cannot be written. -/
def mediaFailsEnv : Env :=
  { bootEnv with writeCloudInit := fun _ _ _ _ _ _ _ => some "library share full" }

/-- As `bootEnv`, but no patch goes through. -/
def bootPatchFailsEnv : Env := { bootEnv with patch := fun _ _ => some "conflict" }

/-- As `removedEnv`, but the removal call reports `Removing`; the results of
the two environments differ in the `Message` field only. -/
def lingeringEnv : Env :=
  { removedEnv with vmCall := fun _ _ => .ok { Message := "Removing" } }

/-- As `removingEnv`, with another message that is not `Removed` either. -/
def waitingEnv : Env :=
  { removingEnv with vmCall := fun _ _ => .ok { Status := "Deleting", Message := "Waiting for host" } }

/-- The name generator answers `vm1`; the discovery call finds `vm1` running
with address and host name; every other call returns the zero result.  The
answers do not depend on the calls made before. -/
def createdRunningEnv : Env :=
  { freshEnv with
    vmCall := fun _ c =>
      match c with
      | .GetVM _ => .ok
          { Name := "vm1", Status := "Running", IPv4Addresses := some ["10.0.0.1"], Hostname := "h" }
      | _ => .ok {} }

/-- Every simple call answers with `vm1` powered off and no virtual disk. -/
def noVirtualDiskEnv : Env := { quietEnv with vmCall := fun _ _ => .ok (powerOffResult []) }

/-! # Theorems -/

/-! ## Escaping -/

theorem replaceAllFrom_quote (l : List Char) :
    replaceAllFrom [quote] [quote, quote] 0 l = doubleQuotes l := by
  induction l with
  | nil => rfl
  | cons c cs ih =>
    by_cases h : c = quote
    · subst h
      simp [replaceAllFrom, doubleQuotes, ih, List.isPrefixOf]
    · have h2 : ¬ quote = c := fun e => h e.symm
      simp [replaceAllFrom, doubleQuotes, ih, List.isPrefixOf, h, h2]

theorem escapeSingleQuotes_data (s : String) :
    (escapeSingleQuotes s).data = doubleQuotes s.data := by
  have hne : ¬ ((⟨[quote]⟩ : String) = ⟨[quote, quote]⟩) := by decide
  simp [escapeSingleQuotes, stringsReplaceAll, hne, replaceAllFrom_quote]

theorem quoteRunsFrom_doubleQuotes (l : List Char) :
    ∀ k, Even k → ∀ n ∈ quoteRunsFrom k (doubleQuotes l), Even n := by
  induction l with
  | nil =>
    intro k hk n hn
    by_cases h0 : k = 0
    · simp [doubleQuotes, quoteRunsFrom, h0] at hn
    · simp [doubleQuotes, quoteRunsFrom, h0] at hn
      rw [hn]; exact hk
  | cons c cs ih =>
    intro k hk n hn
    by_cases h : c = quote
    · subst h
      simp only [doubleQuotes, quoteRunsFrom, if_true] at hn
      have hk2 : Even (k + 1 + 1) := by
        have : k + 1 + 1 = k + 2 := rfl
        rw [this]; exact hk.add (by decide)
      exact ih _ hk2 n hn
    · simp only [doubleQuotes, quoteRunsFrom, h, if_false] at hn
      by_cases h0 : k = 0
      · simp only [h0, if_true] at hn
        exact ih 0 (by decide) n hn
      · simp only [h0, if_false, List.mem_cons] at hn
        rcases hn with hn | hn
        · rw [hn]; exact hk
        · exact ih 0 (by decide) n hn

theorem collapseQuotes_doubleQuotes (l : List Char) :
    collapseQuotes (doubleQuotes l) = l := by
  induction l with
  | nil => rfl
  | cons c cs ih =>
    by_cases h : c = quote
    · subst h
      simp [doubleQuotes, collapseQuotes, ih]
    · simp only [doubleQuotes, h, if_false]
      cases hd : doubleQuotes cs with
      | nil =>
        rw [hd] at ih
        simp [collapseQuotes] at ih ⊢
        exact ih
      | cons d r =>
        rw [hd] at ih
        simp [collapseQuotes, h, ih]


/-! ## Projections of the record mutators -/

@[simp] theorem MarkTrue_ObjectMeta (m : ScvmmMachine) (t : ConditionType) :
    (MarkTrue m t).ObjectMeta = m.ObjectMeta := rfl
@[simp] theorem MarkTrue_Spec (m : ScvmmMachine) (t : ConditionType) :
    (MarkTrue m t).Spec = m.Spec := rfl
@[simp] theorem MarkFalse_ObjectMeta (env : Env) (m : ScvmmMachine) (t : ConditionType)
    (r : String) (sv : ConditionSeverity) (f : String) (a : List String) :
    (MarkFalse env m t r sv f a).ObjectMeta = m.ObjectMeta := rfl
@[simp] theorem MarkFalse_Spec (env : Env) (m : ScvmmMachine) (t : ConditionType)
    (r : String) (sv : ConditionSeverity) (f : String) (a : List String) :
    (MarkFalse env m t r sv f a).Spec = m.Spec := rfl
@[simp] theorem setSummary_ObjectMeta (env : Env) (m : ScvmmMachine) :
    (setSummary env m).ObjectMeta = m.ObjectMeta := by
  unfold setSummary; split <;> rfl
@[simp] theorem setSummary_Spec (env : Env) (m : ScvmmMachine) :
    (setSummary env m).Spec = m.Spec := by
  unfold setSummary; split <;> rfl
@[simp] theorem setProviderID_ObjectMeta (m : ScvmmMachine) (vm : VMResult) :
    (setProviderID m vm).ObjectMeta = m.ObjectMeta := by
  unfold setProviderID; split <;> rfl
@[simp] theorem fillStatus_ObjectMeta (m : ScvmmMachine) (b : Bool) (vm : VMResult) :
    (fillStatus m b vm).ObjectMeta = m.ObjectMeta := rfl
@[simp] theorem fillStatus_Spec (m : ScvmmMachine) (b : Bool) (vm : VMResult) :
    (fillStatus m b vm).Spec = m.Spec := rfl
@[simp] theorem fillAddresses_ObjectMeta (m : ScvmmMachine) (vm : VMResult) :
    (fillAddresses m vm).ObjectMeta = m.ObjectMeta := by
  unfold fillAddresses; simp only []; split <;> split <;> rfl
@[simp] theorem fillAddresses_Spec (m : ScvmmMachine) (vm : VMResult) :
    (fillAddresses m vm).Spec = m.Spec := by
  unfold fillAddresses; simp only []; split <;> split <;> rfl

/-! ## Projections of the state steps -/

@[simp] theorem call_machine (s : St) (c : Cmd) : (s.call c).machine = s.machine := rfl
@[simp] theorem call_calls (s : St) (c : Cmd) : (s.call c).calls = s.calls ++ [c] := rfl
@[simp] theorem call_persisted (s : St) (c : Cmd) : (s.call c).persisted = s.persisted := rfl
@[simp] theorem call_patches (s : St) (c : Cmd) : (s.call c).patches = s.patches := rfl
@[simp] theorem call_sessions (s : St) (c : Cmd) : (s.call c).sessions = s.sessions := rfl
@[simp] theorem setMachine_machine (s : St) (m : ScvmmMachine) : (s.setMachine m).machine = m := rfl
@[simp] theorem setMachine_calls (s : St) (m : ScvmmMachine) : (s.setMachine m).calls = s.calls := rfl
@[simp] theorem setMachine_persisted (s : St) (m : ScvmmMachine) :
    (s.setMachine m).persisted = s.persisted := rfl
@[simp] theorem setMachine_patches (s : St) (m : ScvmmMachine) :
    (s.setMachine m).patches = s.patches := rfl
@[simp] theorem setMachine_sessions (s : St) (m : ScvmmMachine) :
    (s.setMachine m).sessions = s.sessions := rfl
@[simp] theorem openSession_machine (s : St) : s.openSession.machine = s.machine := rfl
@[simp] theorem openSession_calls (s : St) : s.openSession.calls = s.calls := rfl
@[simp] theorem openSession_persisted (s : St) : s.openSession.persisted = s.persisted := rfl
@[simp] theorem openSession_patches (s : St) : s.openSession.patches = s.patches := rfl
@[simp] theorem openSession_sessions (s : St) : s.openSession.sessions = s.sessions + 1 := rfl

@[simp] theorem patch_machine (env : Env) (s : St) :
    (patchScvmmMachine env s).1.machine = setSummary env s.machine := by
  unfold patchScvmmMachine; simp only []; split <;> rfl
@[simp] theorem patch_calls (env : Env) (s : St) :
    (patchScvmmMachine env s).1.calls = s.calls := by
  unfold patchScvmmMachine; simp only []; split <;> rfl
@[simp] theorem patch_sessions (env : Env) (s : St) :
    (patchScvmmMachine env s).1.sessions = s.sessions := by
  unfold patchScvmmMachine; simp only []; split <;> rfl
@[simp] theorem patch_patches (env : Env) (s : St) :
    (patchScvmmMachine env s).1.patches = s.patches + 1 := by
  unfold patchScvmmMachine; simp only []; split <;> rfl
@[simp] theorem patch_result (env : Env) (s : St) :
    (patchScvmmMachine env s).2 = env.patch s.patches (setSummary env s.machine) := by
  unfold patchScvmmMachine; simp only []; split <;> simp_all
theorem patch_persisted (env : Env) (s : St) :
    (patchScvmmMachine env s).1.persisted =
      match env.patch s.patches (setSummary env s.machine) with
      | none => s.persisted ++ [setSummary env s.machine]
      | some _ => s.persisted := by
  unfold patchScvmmMachine; simp only []; split <;> simp_all

/-! ## The step invariant -/

theorem step_refl (names : List String) (s : St) : St.Step names s s :=
  ⟨fun _ h => h, [], by simp, by simp⟩

theorem step_call {names : List String} {s0 s : St} (c : Cmd) (h : St.Step names s0 s)
    (hc : c.name ∈ names) : St.Step names s0 (s.call c) := by
  obtain ⟨hm, rest, hr, hall⟩ := h
  refine ⟨hm, rest ++ [c], by simp [hr], ?_⟩
  intro x hx
  rcases List.mem_append.1 hx with hx | hx
  · exact hall x hx
  · rw [List.mem_singleton.1 hx]; exact hc

theorem step_setMachine {names : List String} {s0 s : St} (m : ScvmmMachine)
    (h : St.Step names s0 s) (hm : m.ObjectMeta = s.machine.ObjectMeta) :
    St.Step names s0 (s.setMachine m) := by
  obtain ⟨hms, hrest⟩ := h
  refine ⟨?_, hrest⟩
  have : (s.setMachine m).metas = s.metas := by simp [St.metas, hm]
  rw [this]; exact hms

theorem step_openSession {names : List String} {s0 s : St} (h : St.Step names s0 s) :
    St.Step names s0 s.openSession := h

theorem step_patch {names : List String} {s0 s : St} (env : Env) (h : St.Step names s0 s) :
    St.Step names s0 (patchScvmmMachine env s).1 := by
  obtain ⟨hms, hrest⟩ := h
  refine ⟨?_, by simpa using hrest⟩
  refine List.Subset.trans ?_ hms
  simp only [St.metas, patch_machine, patch_persisted, setSummary_ObjectMeta]
  split <;> simp

theorem step_prc {names : List String} {s0 s : St} (env : Env) (h : St.Step names s0 s)
    (rq : Int) (err : Option String) (c : ConditionType) (r msg : String) (args : List String) :
    St.Step names s0 (patchReasonCondition env s rq err c r msg args).st := by
  have hp : St.Step names s0 (patchScvmmMachine env (s.setMachine
      (MarkFalse env { s.machine with Status.Ready := false } c r
        (match err with
          | some _ => ConditionSeverity.ConditionSeverityError
          | none => ConditionSeverity.ConditionSeverityInfo) msg args))).1 :=
    step_patch env (step_setMachine _ h rfl)
  unfold patchReasonCondition
  simp only []
  split <;> [skip; split] <;> exact hp


theorem step_finishStart {names : List String} {s0 s : St} (env : Env) (vm : VMResult)
    (h : St.Step names s0 s) : St.Step names s0 (finishStart env s vm).st := by
  unfold finishStart
  simp only []
  split <;> exact step_patch env (step_setMachine _ h rfl)

theorem step_addIsoToVM {names : List String} {s0 s : St} (env : Env) (isoPath : String)
    (h : St.Step names s0 s) (hn : "AddIsoToVM" ∈ names) :
    St.Step names s0 (addIsoToVM env s isoPath).st := by
  unfold addIsoToVM
  simp only []
  split
  · exact step_call _ h hn
  · exact step_finishStart env _ (step_call _ h hn)

theorem step_startVM {names : List String} {s0 s : St} (env : Env)
    (h : St.Step names s0 s) (hn : "StartVM" ∈ names) :
    St.Step names s0 (startVM env s).st := by
  unfold startVM
  simp only []
  split
  · exact step_call _ h hn
  · exact step_finishStart env _ (step_call _ h hn)

theorem step_attachOrStart {names : List String} {s0 s : St} (env : Env)
    (provider : ScvmmProviderSpec) (vm : VMResult) (b m n : Option String)
    (h : St.Step names s0 s) (h1 : "AddIsoToVM" ∈ names) (h2 : "StartVM" ∈ names) :
    St.Step names s0 (attachOrStart env provider s vm b m n).st := by
  unfold attachOrStart
  simp only []
  split
  · split
    · exact step_prc env h ..
    · split
      · exact step_patch env (step_setMachine _ h rfl)
      · exact step_addIsoToVM env _ (step_patch env (step_setMachine _ h rfl)) h1
  · exact step_startVM env h h2

theorem step_bootstrap {names : List String} {s0 s : St} (env : Env) (cluster : Option Cluster)
    (provider : ScvmmProviderSpec) (machine : Option Machine) (vm : VMResult)
    (h : St.Step names s0 s) (h1 : "AddIsoToVM" ∈ names) (h2 : "StartVM" ∈ names) :
    St.Step names s0 (bootstrap env cluster provider machine s vm).st := by
  unfold bootstrap
  split
  · split
    · split
      · exact step_prc env h ..
      · split
        · exact h
        · split <;> exact step_prc env h ..
    · split
      · exact step_prc env h ..
      · exact step_attachOrStart env _ _ _ _ _ h h1 h2
  · split <;> exact step_attachOrStart env _ _ _ _ _ h h1 h2

theorem step_expandVMDisks {names : List String} {s0 s : St} (env : Env)
    (h : St.Step names s0 s) (hn : "ExpandVMDisks" ∈ names) :
    St.Step names s0 (expandVMDisks env s).st := by
  unfold expandVMDisks
  simp only []
  split
  · (apply step_prc; exact step_call _ h hn)
  · split
    · (apply step_prc; exact step_call _ h hn)
    · (apply step_prc; refine step_setMachine _ (step_call _ h hn) ?_; simp)

theorem step_expandOrBootstrap {names : List String} {s0 s : St} (env : Env)
    (cluster : Option Cluster) (provider : ScvmmProviderSpec) (machine : Option Machine)
    (vm : VMResult) (h : St.Step names s0 s) (h0 : "ExpandVMDisks" ∈ names)
    (h1 : "AddIsoToVM" ∈ names) (h2 : "StartVM" ∈ names) :
    St.Step names s0 (expandOrBootstrap env cluster provider machine s vm).st := by
  unfold expandOrBootstrap
  split
  · exact h
  · exact step_expandVMDisks env h h0
  · exact step_bootstrap env _ _ _ _ h h1 h2

theorem step_mergeSpec {names : List String} {s0 s : St} (env : Env)
    (cluster : Option Cluster) (provider : ScvmmProviderSpec) (machine : Option Machine)
    (vm : VMResult) (newspec : VMSpecResult) (h : St.Step names s0 s)
    (h0 : "ExpandVMDisks" ∈ names) (h1 : "AddIsoToVM" ∈ names) (h2 : "StartVM" ∈ names) :
    St.Step names s0 (mergeSpec env cluster provider machine s vm newspec).st := by
  unfold mergeSpec
  simp only []
  split
  · split
    · exact step_patch env (step_setMachine _ h rfl)
    · exact step_expandOrBootstrap env _ _ _ _
        (step_patch env (step_setMachine _ h rfl)) h0 h1 h2
  · exact step_expandOrBootstrap env _ _ _ _ (step_setMachine _ h rfl) h0 h1 h2

theorem step_powerOff {names : List String} {s0 s : St} (env : Env)
    (cluster : Option Cluster) (provider : ScvmmProviderSpec) (machine : Option Machine)
    (vm : VMResult) (h : St.Step names s0 s) (ha : "AddVMSpec" ∈ names)
    (h0 : "ExpandVMDisks" ∈ names) (h1 : "AddIsoToVM" ∈ names) (h2 : "StartVM" ∈ names) :
    St.Step names s0 (powerOff env cluster provider machine s vm).st := by
  unfold powerOff
  simp only []
  split
  · (apply step_prc; exact step_call _ h ha)
  · split
    · (apply step_prc; exact step_call _ h ha)
    · exact step_mergeSpec env _ _ _ _ _ (step_call (Cmd.AddVMSpec ..) h ha) h0 h1 h2

theorem step_readVM {names : List String} {s0 s : St} (env : Env)
    (h : St.Step names s0 s) (hn : "ReadVM" ∈ names) :
    St.Step names s0 (readVM env s).st := by
  unfold readVM
  simp only []
  split <;> exact step_call _ h hn

theorem step_running {names : List String} {s0 s : St} (env : Env) (vm : VMResult)
    (h : St.Step names s0 s) (hn : "ReadVM" ∈ names) :
    St.Step names s0 (running env s vm).st := by
  unfold running
  simp only []
  have hp := step_patch env (step_setMachine
    (MarkTrue (fillAddresses { s.machine with Status.Ready := true } vm) VmRunning) h
    (by simp))
  split
  · exact step_prc env h ..
  · split
    · exact hp
    · split
      · exact step_readVM env hp hn
      · exact hp

theorem step_found {names : List String} {s0 s : St} (env : Env)
    (cluster : Option Cluster) (provider : ScvmmProviderSpec) (machine : Option Machine)
    (vm : VMResult) (h : St.Step names s0 s) (ha : "AddVMSpec" ∈ names)
    (h0 : "ExpandVMDisks" ∈ names) (h1 : "AddIsoToVM" ∈ names) (h2 : "StartVM" ∈ names)
    (h3 : "ReadVM" ∈ names) :
    St.Step names s0 (found env cluster provider machine s vm).st := by
  unfold found
  have hs : St.Step names s0 (fillFound s vm) := step_setMachine _ h (by simp)
  split
  · exact step_powerOff env _ _ _ _ hs ha h0 h1 h2
  · exact step_running env _ hs h3

theorem step_createVMCall {names : List String} {s0 s : St} (env : Env) (vmName : String)
    (h : St.Step names s0 s) (hn : "CreateVM" ∈ names) :
    St.Step names s0 (createVMCall env s vmName).st := by
  unfold createVMCall
  simp only []
  split
  · (apply step_prc; exact step_call _ h hn)
  · split
    · (apply step_prc; exact step_call _ h hn)
    · (apply step_prc; refine step_setMachine _ (step_call _ h hn) ?_; simp)

theorem step_createVM {names : List String} {s0 s : St} (env : Env) (vmName : String)
    (h : St.Step names s0 s) (hn : "CreateVM" ∈ names) (ha : "CreateADComputer" ∈ names) :
    St.Step names s0 (createVM env s vmName).st := by
  unfold createVM
  split
  · exact step_createVMCall env _ h hn
  · simp only []
    split
    · (apply step_prc; exact step_call _ h ha)
    · split
      · (apply step_prc; exact step_call _ h ha)
      · exact step_createVMCall env _ (step_call (Cmd.CreateADComputer ..) h ha) hn

theorem step_notFound {names : List String} {s0 s : St} (env : Env)
    (h : St.Step names s0 s) (hn : "CreateVM" ∈ names) (ha : "CreateADComputer" ∈ names)
    (hg : "GenerateVMName" ∈ names) :
    St.Step names s0 (notFound env s).st := by
  unfold notFound
  split
  · simp only []
    split
    · (apply step_prc; exact step_call _ h hg)
    · split
      · (apply step_prc; exact step_call _ h hg)
      · split
        · (apply step_prc; exact step_call _ h hg)
        · exact step_createVM env _ (step_call (Cmd.GenerateVMName ..) h hg) hn ha
  · exact step_createVM env _ h hn ha

theorem step_reconcileNormal (env : Env) (cluster : Option Cluster)
    (provider : ScvmmProviderSpec) (machine : Option Machine) (s : St) :
    St.Step normalNames s (reconcileNormal env cluster provider machine s).st := by
  have h := step_refl normalNames s
  have hg : "GetVM" ∈ normalNames := by decide
  have hf : ∀ (t : St) (vm : VMResult), St.Step normalNames s t →
      St.Step normalNames s (afterDiscovery env cluster provider machine t vm).st := by
    intro t vm ht
    unfold afterDiscovery
    split
    · exact step_notFound env ht (by decide) (by decide) (by decide)
    · exact step_found env _ _ _ _ ht (by decide) (by decide) (by decide) (by decide) (by decide)
  unfold reconcileNormal
  split
  · exact h
  · exact h
  · unfold discover
    split
    · simp only []
      split
      · exact step_call _ (step_openSession h) hg
      · exact hf _ _ (step_call _ (step_openSession h) hg)
    · exact hf _ _ (step_openSession h)



/-! ## Finalizer safety -/

theorem holdsFinalizer_iff (s : St) :
    s.holdsFinalizer = true ↔ ∀ x ∈ s.metas, MachineFinalizer ∈ x.Finalizers := by
  simp [St.holdsFinalizer, St.metas, ContainsFinalizer]

theorem holdsFinalizer_of_metas {s t : St} (h : t.metas ⊆ s.metas)
    (hs : s.holdsFinalizer = true) : t.holdsFinalizer = true := by
  rw [holdsFinalizer_iff] at *
  exact fun x hx => hs x (h hx)

theorem step_metas {names : List String} {s t : St} (h : St.Step names s t) :
    t.metas ⊆ s.metas := h.1

theorem removeNames_mem : "RemoveVM" ∈ ["RemoveVM", "RemoveADComputer"] ∧
    "RemoveADComputer" ∈ ["RemoveVM", "RemoveADComputer"] := by decide

theorem removeVM_cases (env : Env) (s : St) :
    (removeVM env s).st.metas ⊆ s.metas ∨
      (removalConfirmed env s.calls s.machine.Spec.VMName s.machine.Spec.ActiveDirectory = true ∧
        Cmd.RemoveVM (escapeSingleQuotes s.machine.Spec.VMName) ∈ (removeVM env s).st.calls) := by
  have h0 := step_refl ["RemoveVM", "RemoveADComputer"] s
  have hc := step_call (Cmd.RemoveVM (escapeSingleQuotes s.machine.Spec.VMName)) h0
    removeNames_mem.1
  unfold removeVM
  simp only []
  split
  · exact Or.inl (step_prc env hc ..).1
  · rename_i vm hvm
    split
    · exact Or.inl (step_prc env hc ..).1
    · rename_i herr
      split
      · rename_i hmsg
        unfold removed
        simp only [call_machine, call_calls]
        split
        · rename_i had
          refine Or.inr ⟨?_, ?_⟩
          · simp_all [removalConfirmed]
          · unfold removeFinalizer
            simp only []
            split <;> simp
        · rename_i ad had
          split
          · refine Or.inl (@step_metas ["RemoveVM", "RemoveADComputer"] _ _ ?_)
            apply step_prc
            exact step_call _ hc removeNames_mem.2
          · rename_i vm2 hvm2
            split
            · refine Or.inl (@step_metas ["RemoveVM", "RemoveADComputer"] _ _ ?_)
              apply step_prc
              exact step_call _ hc removeNames_mem.2
            · refine Or.inr ⟨?_, ?_⟩
              · simp_all [removalConfirmed]
              · unfold removeFinalizer
                simp only []
                split <;> simp
      · refine Or.inl (@step_metas ["RemoveVM", "RemoveADComputer"] _ _ ?_)
        apply step_prc
        exact step_setMachine _ hc rfl

theorem reconcileDelete_cases (env : Env) (provider : ScvmmProviderSpec) (s : St) :
    (reconcileDelete env provider s).st.metas ⊆ s.metas ∨ s.machine.Spec.VMName = "" ∨
      (removalConfirmed env s.calls s.machine.Spec.VMName s.machine.Spec.ActiveDirectory = true ∧
        Cmd.RemoveVM (escapeSingleQuotes s.machine.Spec.VMName) ∈
          (reconcileDelete env provider s).st.calls) := by
  have h0 := step_refl ["RemoveVM", "RemoveADComputer"] s
  unfold reconcileDelete
  split
  · exact Or.inl (fun _ h => h)
  · split
    · rename_i h; exact Or.inr (Or.inl h)
    · unfold deleteVM
      simp only []
      have hp := step_patch env (step_setMachine (MarkFalse env s.machine VmCreated
        VmDeletingReason ConditionSeverity.ConditionSeverityInfo "" []) h0 rfl)
      split
      · exact Or.inl hp.1
      · split
        · exact Or.inl hp.1
        · exact Or.inl hp.1
        · rcases removeVM_cases env (patchScvmmMachine env (s.setMachine (MarkFalse env s.machine
            VmCreated VmDeletingReason ConditionSeverity.ConditionSeverityInfo "" []))).1.openSession
            with h | h
          · exact Or.inl (h.trans hp.1)
          · refine Or.inr (Or.inr ?_)
            simpa using h


theorem step_ownerLookups (env : Env) (s : St) : St.Step [] s (ownerLookups env s).st := by
  have h0 := step_refl [] s
  unfold ownerLookups
  split
  · exact h0
  · exact step_prc env h0 ..
  · split
    · exact step_prc env h0 ..
    · exact step_prc env h0 ..
    · split
      · exact step_prc env h0 ..
      · exact h0

@[simp] theorem fixDiskSizes_ObjectMeta (m : ScvmmMachine) :
    (fixDiskSizes m).ObjectMeta = m.ObjectMeta := rfl
@[simp] theorem fixDiskSizes_VMName (m : ScvmmMachine) :
    (fixDiskSizes m).Spec.VMName = m.Spec.VMName := rfl
@[simp] theorem fixDiskSizes_ActiveDirectory (m : ScvmmMachine) :
    (fixDiskSizes m).Spec.ActiveDirectory = m.Spec.ActiveDirectory := rfl
@[simp] theorem fixDiskSizes_CloudInit (m : ScvmmMachine) :
    (fixDiskSizes m).Spec.CloudInit = m.Spec.CloudInit := rfl

theorem delegate_cases (env : Env) (deleting : Bool) (cluster : Option Cluster)
    (machine : Option Machine) (scvmmCluster : Option ScvmmCluster) (s : St) :
    (delegate env deleting cluster machine scvmmCluster s).st.metas ⊆ s.metas ∨
      s.machine.Spec.VMName = "" ∨
      (removalConfirmed env s.calls s.machine.Spec.VMName s.machine.Spec.ActiveDirectory = true ∧
        Cmd.RemoveVM (escapeSingleQuotes s.machine.Spec.VMName) ∈
          (delegate env deleting cluster machine scvmmCluster s).st.calls) := by
  unfold delegate
  split
  · exact Or.inl (fun _ h => h)
  · exact Or.inl (fun _ h => h)
  · split
    · exact reconcileDelete_cases env _ s
    · exact Or.inl (step_reconcileNormal env _ _ _ s).1

theorem Reconcile_cases (env : Env) (m : ScvmmMachine) (hm : env.getScvmmMachine = .ok m)
    (hf : ContainsFinalizer m MachineFinalizer = true) :
    (Reconcile env).st.holdsFinalizer = true ∨ m.Spec.VMName = "" ∨
      (removalConfirmed env [] m.Spec.VMName m.Spec.ActiveDirectory = true ∧
        Cmd.RemoveVM (escapeSingleQuotes m.Spec.VMName) ∈ (Reconcile env).st.calls) := by
  have hs : ({ machine := fixDiskSizes m } : St).holdsFinalizer = true := by
    simpa [St.holdsFinalizer, ContainsFinalizer] using hf
  have hf2 : ContainsFinalizer (fixDiskSizes m) MachineFinalizer = true := by
    simpa [ContainsFinalizer] using hf
  unfold Reconcile
  rw [hm]
  simp only []
  split
  · exact Or.inl hs
  · split
    · exact Or.inl (holdsFinalizer_of_metas (step_ownerLookups env _).1 hs)
    · unfold finalizerAndDelegate
      simp only [hf2, Bool.not_true, Bool.and_false, Bool.false_eq_true, if_false]
      rcases delegate_cases env (!Time.IsZero (fixDiskSizes m).ObjectMeta.DeletionTimestamp)
        none none none { machine := fixDiskSizes m } with h | h | h
      · exact Or.inl (holdsFinalizer_of_metas h hs)
      · exact Or.inr (Or.inl (by simpa using h))
      · exact Or.inr (Or.inr (by simpa using h))

/-- C1, finalizer safety.  For every run of `reconcileDelete`, and of
`Reconcile`, on a record that holds the finalizer before the run: if after the
run the record, or a record persisted by the run, no longer holds it, then
either `Spec.VMName` was empty, or the `RemoveVM` call was issued in that run
and came back without transport error, with an empty `Error` and the message
`Removed` (and, with an ActiveDirectory spec, `RemoveADComputer` came back
with an empty `Error`).  No run of `reconcileNormal` removes the finalizer. -/
theorem finalizer_safety (env : Env) :
    (∀ (provider : ScvmmProviderSpec) (s : St), s.holdsFinalizer = true →
      (reconcileDelete env provider s).st.holdsFinalizer = false →
      s.machine.Spec.VMName = "" ∨
        (removalConfirmed env s.calls s.machine.Spec.VMName s.machine.Spec.ActiveDirectory = true ∧
          Cmd.RemoveVM (escapeSingleQuotes s.machine.Spec.VMName) ∈
            (reconcileDelete env provider s).st.calls)) ∧
    (∀ m : ScvmmMachine, env.getScvmmMachine = .ok m →
      ContainsFinalizer m MachineFinalizer = true →
      (Reconcile env).st.holdsFinalizer = false →
      m.Spec.VMName = "" ∨
        (removalConfirmed env [] m.Spec.VMName m.Spec.ActiveDirectory = true ∧
          Cmd.RemoveVM (escapeSingleQuotes m.Spec.VMName) ∈ (Reconcile env).st.calls)) ∧
    (∀ (cluster : Option Cluster) (provider : ScvmmProviderSpec) (machine : Option Machine)
      (s : St), s.holdsFinalizer = true →
      (reconcileNormal env cluster provider machine s).st.holdsFinalizer = true) := by
  refine ⟨?_, ?_, ?_⟩
  · intro provider s hs hout
    rcases reconcileDelete_cases env provider s with h | h
    · rw [holdsFinalizer_of_metas h hs] at hout
      exact absurd hout (by decide)
    · exact h
  · intro m hm hf hout
    rcases Reconcile_cases env m hm hf with h | h
    · rw [h] at hout
      exact absurd hout (by decide)
    · exact h
  · intro cluster provider machine s hs
    exact holdsFinalizer_of_metas (step_reconcileNormal env cluster provider machine s).1 hs

/-- Witness of C1: the removal of `deletedRecord` is confirmed, and the
finalizer goes. -/
theorem finalizer_safety_witness :
    ContainsFinalizer deletedRecord MachineFinalizer = true ∧
    (Reconcile removedEnv).st.holdsFinalizer = false ∧
    (deletedRecord.Spec.VMName = "" ∨
      (removalConfirmed removedEnv [] deletedRecord.Spec.VMName
          deletedRecord.Spec.ActiveDirectory = true ∧
        Cmd.RemoveVM (escapeSingleQuotes deletedRecord.Spec.VMName) ∈
          (Reconcile removedEnv).st.calls)) :=
  ⟨by decide, by decide,
    (finalizer_safety removedEnv).2.1 deletedRecord rfl (by decide) (by decide)⟩


/-! ## The escaping claims -/

/-- C5.  For every string `s`, `escapeSingleQuotes s` is `s` with every single
quote replaced by two single quotes and every other character left unchanged
in order; every maximal run of single quotes of the result has even length,
and collapsing each doubled quote back to one quote returns `s`. -/
theorem escapeSingleQuotes_doubles (s : String) :
    (escapeSingleQuotes s).data = doubleQuotes s.data ∧
    (∀ n ∈ quoteRuns (escapeSingleQuotes s).data, Even n) ∧
    collapseQuotes (escapeSingleQuotes s).data = s.data := by
  rw [escapeSingleQuotes_data]
  exact ⟨rfl, quoteRunsFrom_doubleQuotes s.data 0 (by decide), collapseQuotes_doubleQuotes s.data⟩

/-- C6, the code at the failing input.  For the list `a`, `b`, `c` the code
returns the first element twice and drops the last one, where the claim
promises every element in the original order. -/
theorem escapeSingleQuotesArray_repeats_first :
    escapeSingleQuotesArray ["a", "b", "c"] = "'a','a','b'" ∧
    quotedList ["a", "b", "c"] = "'a','b','c'" ∧
    escapeSingleQuotesArray ["a", "b", "c"] ≠ quotedList ["a", "b", "c"] := by
  decide

/-! ## Discovery before mutation -/

theorem foundNames_not_create (c : Cmd)
    (h : c.name ∈ ["GetVM", "AddVMSpec", "ExpandVMDisks", "AddIsoToVM", "StartVM", "ReadVM"]) :
    c.name ≠ "CreateVM" ∧ c.name ≠ "GenerateVMName" ∧ c.name ≠ "CreateADComputer" := by
  simp only [List.mem_cons, List.mem_singleton, List.not_mem_nil, or_false] at h
  rcases h with h | h | h | h | h | h <;> rw [h] <;> decide

/-- C2, discovery before mutation.  For every run of `reconcileNormal` on a
named record in which the `GetVM` discovery call returned a result with a
non-empty `Name`, none of the calls issued in that run is a `CreateVM`, a
`GenerateVMName` or a `CreateADComputer` call. -/
theorem discovery_before_mutate (env : Env) (cluster : Option Cluster)
    (provider : ScvmmProviderSpec) (machine : Option Machine) (s : St) (vm : VMResult)
    (hname : s.machine.Spec.VMName ≠ "")
    (hget : env.vmCall s.calls (Cmd.GetVM (escapeSingleQuotes s.machine.Spec.VMName)) = .ok vm)
    (hvm : vm.Name ≠ "") :
    ∃ rest, (reconcileNormal env cluster provider machine s).st.calls = s.calls ++ rest ∧
      ∀ c ∈ rest, c.name ≠ "CreateVM" ∧ c.name ≠ "GenerateVMName" ∧
        c.name ≠ "CreateADComputer" := by
  have key : St.Step ["GetVM", "AddVMSpec", "ExpandVMDisks", "AddIsoToVM", "StartVM", "ReadVM"] s
      (reconcileNormal env cluster provider machine s).st := by
    have h0 := step_refl ["GetVM", "AddVMSpec", "ExpandVMDisks", "AddIsoToVM", "StartVM",
      "ReadVM"] s
    unfold reconcileNormal
    split
    · exact h0
    · exact h0
    · unfold discover
      simp only [openSession_machine, openSession_calls, hname, ne_eq, not_false_eq_true,
        if_true, hget]
      unfold afterDiscovery
      simp only [hvm, if_false]
      exact step_found env _ _ _ _
        (step_call (Cmd.GetVM (escapeSingleQuotes s.machine.Spec.VMName))
          (step_openSession h0) (List.mem_cons_self _ _))
        (by decide) (by decide) (by decide) (by decide) (by decide)
  obtain ⟨_, rest, hr, hall⟩ := key
  exact ⟨rest, hr, fun c hc => foundNames_not_create c (hall c hc)⟩

/-- Witness of C2: the machine `vm1` is found running, and the only call of the
run is the discovery call. -/
theorem discovery_before_mutate_witness :
    ∃ rest, (reconcileNormal runningEnv none testProvider none
        { machine := namedRecord }).st.calls = [] ++ rest ∧
      ∀ c ∈ rest, c.name ≠ "CreateVM" ∧ c.name ≠ "GenerateVMName" ∧
        c.name ≠ "CreateADComputer" :=
  discovery_before_mutate runningEnv none testProvider none { machine := namedRecord }
    { Name := "vm1", Status := "Running", IPv4Addresses := some ["10.0.0.1"], Hostname := "h" }
    (by decide) rfl (by decide)


/-! ## What `patchReasonCondition` leaves behind -/

theorem conditionsGet_set (cs : List Condition) (c : Condition) (t : ConditionType) :
    conditionsGet (conditionsSet cs c) t =
      if c.CondType = t then some c else conditionsGet cs t := by
  induction cs with
  | nil => simp [conditionsSet, conditionsGet]
  | cons x xs ih =>
    by_cases hx : x.CondType = c.CondType
    · by_cases hc : c.CondType = t
      · simp [conditionsSet, conditionsGet, hx, hc]
      · have hxt : ¬ x.CondType = t := by rw [hx]; exact hc
        simp [conditionsSet, conditionsGet, hx, hc, hxt]
    · rw [conditionsSet, if_neg hx]
      by_cases hxt : x.CondType = t
      · have hc : ¬ c.CondType = t := by rw [← hxt]; exact fun e => hx e.symm
        rw [conditionsGet, if_pos hxt, if_neg hc, conditionsGet, if_pos hxt]
      · rw [conditionsGet, if_neg hxt, ih, conditionsGet, if_neg hxt]

@[simp] theorem setSummary_Ready (env : Env) (m : ScvmmMachine) :
    (setSummary env m).Status.Ready = m.Status.Ready := by
  unfold setSummary; split <;> rfl

theorem setSummary_conditionsGet (env : Env) (m : ScvmmMachine) (t : ConditionType)
    (ht : t ≠ ReadyCondition) :
    conditionsGet (setSummary env m).Status.Conditions t = conditionsGet m.Status.Conditions t := by
  unfold setSummary
  split
  · rfl
  · simp only [conditionsGet_set]
    rw [if_neg (fun e => ht e.symm)]

theorem prc_st (env : Env) (s : St) (rq : Int) (err : Option String)
    (c : ConditionType) (r msg : String) (args : List String) :
    (patchReasonCondition env s rq err c r msg args).st =
      (patchScvmmMachine env (s.setMachine
        (MarkFalse env { s.machine with Status.Ready := false } c r
          (match err with
            | some _ => ConditionSeverity.ConditionSeverityError
            | none => ConditionSeverity.ConditionSeverityInfo) msg args))).1 := by
  unfold patchReasonCondition
  simp only []
  split <;> [skip; split] <;> rfl

@[simp] theorem prc_calls (env : Env) (s : St) (rq : Int) (err : Option String)
    (c : ConditionType) (r msg : String) (args : List String) :
    (patchReasonCondition env s rq err c r msg args).st.calls = s.calls := by
  rw [prc_st]; simp

@[simp] theorem prc_sessions (env : Env) (s : St) (rq : Int) (err : Option String)
    (c : ConditionType) (r msg : String) (args : List String) :
    (patchReasonCondition env s rq err c r msg args).st.sessions = s.sessions := by
  rw [prc_st]; simp

@[simp] theorem prc_Spec (env : Env) (s : St) (rq : Int) (err : Option String)
    (c : ConditionType) (r msg : String) (args : List String) :
    (patchReasonCondition env s rq err c r msg args).st.machine.Spec = s.machine.Spec := by
  rw [prc_st]; simp

@[simp] theorem prc_ObjectMeta (env : Env) (s : St) (rq : Int) (err : Option String)
    (c : ConditionType) (r msg : String) (args : List String) :
    (patchReasonCondition env s rq err c r msg args).st.machine.ObjectMeta =
      s.machine.ObjectMeta := by
  rw [prc_st]; simp

@[simp] theorem prc_Ready (env : Env) (s : St) (rq : Int) (err : Option String)
    (c : ConditionType) (r msg : String) (args : List String) :
    (patchReasonCondition env s rq err c r msg args).st.machine.Status.Ready = false := by
  rw [prc_st]; simp [MarkFalse]

theorem wrapInt64_seconds :
    wrapInt64 (Second * 10) = Second * 10 ∧ wrapInt64 (Second * 30) = Second * 30 ∧
      wrapInt64 (Second * 60) = Second * 60 := by
  decide

theorem prc_ret (env : Env) (s : St) (rq : Int) (err : Option String)
    (c : ConditionType) (r msg : String) (args : List String) :
    (patchReasonCondition env s rq err c r msg args).ret =
      match err with
      | some e => .done {} (some (errorsWrap e r))
      | none =>
        if rq ≠ 0 then .done { RequeueAfter := wrapInt64 (Second * rq) } none
        else .done {} none := by
  unfold patchReasonCondition
  simp only []
  split <;> [skip; split] <;> simp_all

theorem prc_condition (env : Env) (s : St) (rq : Int) (err : Option String)
    (c : ConditionType) (r msg : String) (args : List String) (hc : c ≠ ReadyCondition) :
    hasCondition (patchReasonCondition env s rq err c r msg args).st.machine c
      ConditionStatus.ConditionFalse r = true := by
  rw [prc_st]
  simp [hasCondition, setSummary_conditionsGet _ _ _ hc, MarkFalse, conditionsGet_set]


/-! ## Fresh record -/

/-- C9, fresh record.  For every record with an empty `Spec.VMName` and no
ActiveDirectory spec, when the session opens, `GenerateVMName` returns a
non-empty `VMName` with an empty `Error` and `CreateVM` returns with an empty
`Error`, `reconcileNormal` issues exactly the calls `GenerateVMName` then
`CreateVM`, sets `Spec.VMName` to the generated name, leaves `Status.Ready`
false, sets `VmCreated` to False with reason `VmCreating`, and returns
`RequeueAfter` = 10 seconds with a nil error. -/
theorem fresh_record (env : Env) (cluster : Option Cluster) (provider : ScvmmProviderSpec)
    (machine : Option Machine) (s : St) (newspec : VMSpecResult) (vm : VMResult)
    (hsess : createWinrmCmd env provider = .ok ())
    (hname : s.machine.Spec.VMName = "")
    (had : s.machine.Spec.ActiveDirectory = none)
    (hgen : env.specCall s.calls (Cmd.GenerateVMName s.machine.Spec s.machine.ObjectMeta) =
      .ok newspec)
    (hgerr : newspec.Error = "")
    (hgname : newspec.ScvmmMachineSpec.VMName ≠ "")
    (hcreate : env.vmCall (s.calls ++ [Cmd.GenerateVMName s.machine.Spec s.machine.ObjectMeta])
      (createVMCmd env s.machine.Spec newspec.ScvmmMachineSpec.VMName) = .ok vm)
    (hcerr : vm.Error = "") :
    (reconcileNormal env cluster provider machine s).st.calls =
      s.calls ++ [Cmd.GenerateVMName s.machine.Spec s.machine.ObjectMeta,
        createVMCmd env s.machine.Spec newspec.ScvmmMachineSpec.VMName] ∧
    (reconcileNormal env cluster provider machine s).st.machine.Spec.VMName =
      newspec.ScvmmMachineSpec.VMName ∧
    (reconcileNormal env cluster provider machine s).st.machine.Status.Ready = false ∧
    hasCondition (reconcileNormal env cluster provider machine s).st.machine VmCreated
      ConditionStatus.ConditionFalse VmCreatingReason = true ∧
    (reconcileNormal env cluster provider machine s).ret =
      .done { RequeueAfter := Second * 10 } none := by
  have hzero : ({} : VMResult).Name = "" := rfl
  unfold reconcileNormal
  rw [hsess]
  simp only []
  unfold discover
  simp only [openSession_machine, hname, ne_eq, not_true_eq_false, if_false]
  unfold afterDiscovery
  simp only [hzero, if_true]
  unfold notFound
  simp only [openSession_machine, openSession_calls, hname, if_true, hgen, hgerr, hgname,
    ne_eq, not_true_eq_false, if_false]
  unfold createVM
  simp only [call_machine, openSession_machine, had]
  unfold createVMCall
  simp only [call_machine, call_calls, openSession_machine, openSession_calls, hcreate,
    hcerr, ne_eq, not_true_eq_false, if_false]
  refine ⟨by simp, ?_, by simp, prc_condition _ _ _ _ _ _ _ _ (by decide), ?_⟩
  · simp [setProviderID]
    split <;> rfl
  · rw [prc_ret]
    simp [wrapInt64_seconds]


/-! ## The expansion check -/

theorem wrapInt64_of_isInt64 (x : Int) (h : isInt64 x) : wrapInt64 x = x := by
  unfold isInt64 at h
  unfold wrapInt64
  norm_num at h ⊢
  omega

theorem someDiskExceeds_cons (d : VmDisk) (ds : List VmDisk) (vd : VirtualDisk)
    (vds : List VirtualDisk) :
    someDiskExceeds (d :: ds) (vd :: vds) =
      ((match d.Size with
        | some size => decide (size > vd.MaximumSize + 1048576)
        | none => false) || someDiskExceeds ds vds) := rfl

theorem expandCheck_eq (disks : List VmDisk) (vds : List VirtualDisk) :
    ∀ (i : Nat) (acc : Bool), i + disks.length ≤ vds.length →
      (∀ d ∈ disks, ∀ size, d.Size = some size → -2 ^ 63 + 1048576 ≤ size ∧ size < 2 ^ 63) →
      expandCheck disks i vds acc = some (acc || someDiskExceeds disks (vds.drop i)) := by
  induction disks with
  | nil => intro i acc _ _; simp [expandCheck, someDiskExceeds]
  | cons d ds ih =>
    intro i acc hlen hsz
    have hi : i < vds.length := by simp at hlen; omega
    have hlen2 : i + 1 + ds.length ≤ vds.length := by simp at hlen; omega
    have hsz2 : ∀ d ∈ ds, ∀ size, d.Size = some size →
        -2 ^ 63 + 1048576 ≤ size ∧ size < 2 ^ 63 :=
      fun x hx => hsz x (List.mem_cons_of_mem _ hx)
    rw [List.drop_eq_getElem_cons hi, someDiskExceeds_cons]
    cases hd : d.Size with
    | none =>
      simp only [expandCheck, hd, ih (i + 1) acc hlen2 hsz2, Bool.false_or]
    | some size =>
      have hr := hsz d (List.mem_cons_self _ _) size hd
      have hw : wrapInt64 (size - 1024 * 1024) = size - 1024 * 1024 := by
        apply wrapInt64_of_isInt64
        unfold isInt64
        norm_num at hr ⊢
        omega
      simp only [expandCheck, hd, List.get?_eq_getElem?, List.getElem?_eq_getElem hi, hw]
      by_cases hc : vds[i].MaximumSize < size - 1024 * 1024
      · have hc2 : size > vds[i].MaximumSize + 1048576 := by omega
        rw [if_pos hc, ih (i + 1) true hlen2 hsz2]
        simp [hc2]
      · have hc2 : ¬ size > vds[i].MaximumSize + 1048576 := by omega
        rw [if_neg hc, ih (i + 1) acc hlen2 hsz2]
        simp [hc2]

theorem expandCheck_true (disks : List VmDisk) (vds : List VirtualDisk) :
    ∀ (i : Nat) (acc : Bool), i + disks.length ≤ vds.length →
      (∀ d ∈ disks, ∀ size, d.Size = some size → isInt64 size) →
      (∀ vd ∈ vds, isInt64 vd.MaximumSize) →
      (acc = true ∨ someDiskExceeds disks (vds.drop i) = true) →
      expandCheck disks i vds acc = some true := by
  induction disks with
  | nil => intro i acc _ _ _ h; simpa [expandCheck, someDiskExceeds] using h
  | cons d ds ih =>
    intro i acc hlen hsz hvd h
    have hi : i < vds.length := by simp at hlen; omega
    have hlen2 : i + 1 + ds.length ≤ vds.length := by simp at hlen; omega
    have hsz2 : ∀ d ∈ ds, ∀ size, d.Size = some size → isInt64 size :=
      fun x hx => hsz x (List.mem_cons_of_mem _ hx)
    rw [List.drop_eq_getElem_cons hi, someDiskExceeds_cons] at h
    cases hd : d.Size with
    | none =>
      simp only [expandCheck, hd]
      apply ih (i + 1) acc hlen2 hsz2 hvd
      simpa [hd] using h
    | some size =>
      simp only [expandCheck, hd, List.get?_eq_getElem?, List.getElem?_eq_getElem hi]
      split
      · exact ih (i + 1) true hlen2 hsz2 hvd (Or.inl rfl)
      · rename_i hc
        apply ih (i + 1) acc hlen2 hsz2 hvd
        have hr := hsz d (List.mem_cons_self _ _) size hd
        have hm := hvd vds[i] (List.getElem_mem _)
        have hnot : ¬ size > vds[i].MaximumSize + 1048576 := by
          intro hgt
          apply hc
          have hw : wrapInt64 (size - 1024 * 1024) = size - 1024 * 1024 := by
            apply wrapInt64_of_isInt64
            unfold isInt64 at *
            norm_num at hr hm ⊢
            omega
          rw [hw]
          omega
        simpa [hd, hnot] using h


/-! ## Reaching the expansion check -/

theorem reconcileNormal_powerOff (env : Env) (cluster : Option Cluster)
    (provider : ScvmmProviderSpec) (machine : Option Machine) (s : St) (vm : VMResult)
    (hsess : createWinrmCmd env provider = .ok ())
    (hname : s.machine.Spec.VMName ≠ "")
    (hget : env.vmCall s.calls (Cmd.GetVM (escapeSingleQuotes s.machine.Spec.VMName)) = .ok vm)
    (hfound : vm.Name ≠ "") (hoff : vm.Status = "PowerOff") :
    reconcileNormal env cluster provider machine s =
      powerOff env cluster provider machine (atPowerOff s vm) vm := by
  unfold reconcileNormal
  rw [hsess]
  simp only []
  unfold discover
  simp only [openSession_machine, openSession_calls, hname, ne_eq, not_false_eq_true, if_true,
    hget]
  unfold afterDiscovery
  simp only [hfound, if_false]
  unfold found
  simp only [hoff, if_true]
  rfl

theorem powerOff_expandCheck (env : Env) (cluster : Option Cluster)
    (provider : ScvmmProviderSpec) (machine : Option Machine) (s : St) (vm : VMResult)
    (newspec : VMSpecResult)
    (hadd : env.specCall s.calls (addVMSpecCmd s) = .ok newspec)
    (hok : newspec.Error = "")
    (hpatch : mergePersisted env s newspec = true) :
    powerOff env cluster provider machine s vm =
      expandOrBootstrap env cluster provider machine (atExpandCheck env s newspec) vm := by
  unfold powerOff
  unfold addVMSpecCmd at hadd
  simp only [hadd, hok, ne_eq, not_true_eq_false, if_false]
  unfold mergeSpec atExpandCheck
  unfold mergePersisted at hpatch
  simp only [call_machine]
  by_cases hch : (env.copyNonZeroTo newspec.ScvmmMachineSpec s.machine.Spec).2 = true
  · simp only [hch, Bool.not_true, Bool.false_or, Option.isNone_iff_eq_none] at hpatch
    simp only [hch, if_true]
    have hp : (patchScvmmMachine env ((s.call (Cmd.AddVMSpec s.machine.Spec
        s.machine.ObjectMeta)).setMachine { s.machine with Spec :=
          (env.copyNonZeroTo newspec.ScvmmMachineSpec s.machine.Spec).1 })).2 = none := hpatch
    rw [hp]
    rfl
  · simp only [hch, if_false]
    rfl


@[simp] theorem afterMerge_calls (env : Env) (s : St) (newspec : VMSpecResult) :
    (afterMerge env s newspec).calls = s.calls ++ [addVMSpecCmd s] := rfl

@[simp] theorem afterMerge_Spec (env : Env) (s : St) (newspec : VMSpecResult) :
    (afterMerge env s newspec).machine.Spec =
      (env.copyNonZeroTo newspec.ScvmmMachineSpec s.machine.Spec).1 := rfl

@[simp] theorem atExpandCheck_calls (env : Env) (s : St) (newspec : VMSpecResult) :
    (atExpandCheck env s newspec).calls = s.calls ++ [addVMSpecCmd s] := by
  unfold atExpandCheck
  split <;> simp

@[simp] theorem atExpandCheck_Spec (env : Env) (s : St) (newspec : VMSpecResult) :
    (atExpandCheck env s newspec).machine.Spec =
      (env.copyNonZeroTo newspec.ScvmmMachineSpec s.machine.Spec).1 := by
  unfold atExpandCheck
  split <;> simp

@[simp] theorem atPowerOff_calls (s : St) (vm : VMResult) :
    (atPowerOff s vm).calls =
      s.calls ++ [Cmd.GetVM (escapeSingleQuotes s.machine.Spec.VMName)] := rfl

theorem sizesInt64_iff (disks : List VmDisk) :
    sizesInt64 disks = true ↔ ∀ d ∈ disks, ∀ size, d.Size = some size → isInt64 size := by
  unfold sizesInt64 isInt64
  rw [List.all_eq_true]
  constructor
  · intro h d hd size hs
    have := h d hd
    rw [hs] at this
    simpa using this
  · intro h d hd
    cases hs : d.Size with
    | none => rfl
    | some size => simpa using h d hd size hs

theorem sizesNoWrap_iff (disks : List VmDisk) :
    sizesNoWrap disks = true ↔
      ∀ d ∈ disks, ∀ size, d.Size = some size → -2 ^ 63 + 1048576 ≤ size ∧ size < 2 ^ 63 := by
  unfold sizesNoWrap
  rw [List.all_eq_true]
  constructor
  · intro h d hd size hs
    have := h d hd
    rw [hs] at this
    simpa using this
  · intro h d hd
    cases hs : d.Size with
    | none => rfl
    | some size => simpa using h d hd size hs

theorem maximaInt64_iff (vds : List VirtualDisk) :
    maximaInt64 vds = true ↔ ∀ vd ∈ vds, isInt64 vd.MaximumSize := by
  unfold maximaInt64 isInt64
  rw [List.all_eq_true]
  constructor
  · intro h vd hvd
    simpa using h vd hvd
  · intro h vd hvd
    simpa using h vd hvd

/-! ## Disk growth -/

/-- C10 as amended, disk growth.  For every named record whose discovered VM
is in state `PowerOff`, whose `AddVMSpec` call succeeds, whose merged spec is
persisted when the merge changed it, whose discovery result lists a virtual
disk for every declared disk, and which declares a disk whose target size
exceeds the discovered `MaximumSize` by more than one mebibyte: when
`ExpandVMDisks` returns with an empty `Error`, `reconcileNormal` issues
`GetVM`, `AddVMSpec` and exactly one `ExpandVMDisks` call and nothing else (no
`AddIsoToVM`, no `StartVM`), sets `Status.Ready` false and `VmCreated` to
False with reason `VmUpdating`, and returns `RequeueAfter` = 10 seconds with a
nil error. -/
theorem disk_growth (env : Env) (cluster : Option Cluster) (provider : ScvmmProviderSpec)
    (machine : Option Machine) (s : St) (vm vm3 : VMResult) (newspec : VMSpecResult)
    (hsess : createWinrmCmd env provider = .ok ())
    (hname : s.machine.Spec.VMName ≠ "")
    (hget : env.vmCall s.calls (Cmd.GetVM (escapeSingleQuotes s.machine.Spec.VMName)) = .ok vm)
    (hfound : vm.Name ≠ "") (hoff : vm.Status = "PowerOff")
    (hadd : env.specCall (atPowerOff s vm).calls (addVMSpecCmd (atPowerOff s vm)) = .ok newspec)
    (hok : newspec.Error = "")
    (hpatch : mergePersisted env (atPowerOff s vm) newspec = true)
    (hlen : (atExpandCheck env (atPowerOff s vm) newspec).machine.Spec.Disks.length ≤
      vm.VirtualDisks.length)
    (hsz : sizesInt64 (atExpandCheck env (atPowerOff s vm) newspec).machine.Spec.Disks = true)
    (hvd : maximaInt64 vm.VirtualDisks = true)
    (hgrow : someDiskExceeds (atExpandCheck env (atPowerOff s vm) newspec).machine.Spec.Disks
      vm.VirtualDisks = true)
    (hexp : env.vmCall (atExpandCheck env (atPowerOff s vm) newspec).calls
      (expandCmd env (atExpandCheck env (atPowerOff s vm) newspec).machine.Spec) = .ok vm3)
    (hexpok : vm3.Error = "") :
    (reconcileNormal env cluster provider machine s).st.calls =
      s.calls ++ [Cmd.GetVM (escapeSingleQuotes s.machine.Spec.VMName),
        addVMSpecCmd (atPowerOff s vm),
        expandCmd env (atExpandCheck env (atPowerOff s vm) newspec).machine.Spec] ∧
    (reconcileNormal env cluster provider machine s).st.machine.Status.Ready = false ∧
    hasCondition (reconcileNormal env cluster provider machine s).st.machine VmCreated
      ConditionStatus.ConditionFalse VmUpdatingReason = true ∧
    (reconcileNormal env cluster provider machine s).ret =
      .done { RequeueAfter := Second * 10 } none := by
  rw [reconcileNormal_powerOff env cluster provider machine s vm hsess hname hget hfound hoff,
    powerOff_expandCheck env cluster provider machine _ vm newspec hadd hok hpatch]
  have hcheck : expandCheck (atExpandCheck env (atPowerOff s vm) newspec).machine.Spec.Disks 0
      vm.VirtualDisks false = some true :=
    expandCheck_true _ _ 0 false (by omega) ((sizesInt64_iff _).1 hsz)
      ((maximaInt64_iff _).1 hvd) (Or.inr (by simpa using hgrow))
  unfold expandOrBootstrap
  rw [hcheck]
  simp only []
  unfold expandVMDisks
  simp only [hexp, hexpok, ne_eq, not_true_eq_false, if_false]
  refine ⟨by simp, by simp, prc_condition _ _ _ _ _ _ _ _ (by decide), ?_⟩
  rw [prc_ret]
  simp [wrapInt64_seconds]

/-- Witness of C10 as amended: one disk to grow from 10 GiB to 20 GiB. -/
theorem disk_growth_witness :
    (reconcileNormal growEnv none testProvider none
        { machine := diskRecord [{ Size := some (20 * GiB) }] }).st.calls.map Cmd.name =
      ["GetVM", "AddVMSpec", "ExpandVMDisks"] ∧
    (reconcileNormal growEnv none testProvider none
        { machine := diskRecord [{ Size := some (20 * GiB) }] }).ret =
      .done { RequeueAfter := Second * 10 } none :=
  have h := disk_growth growEnv none testProvider none
    { machine := diskRecord [{ Size := some (20 * GiB) }] }
    (powerOffResult [{ MaximumSize := 10 * GiB }]) (powerOffResult [{ MaximumSize := 10 * GiB }])
    {} rfl (by decide) rfl (by decide) rfl rfl rfl (by decide) (by decide) (by decide)
    (by decide) (by decide) rfl rfl
  ⟨by rw [h.1]; decide, h.2.2.2⟩

/-- C10, the claim as stated fails twice.  The record declares two disks, the
first one to grow from 10 GiB to 20 GiB, the discovery result lists one
virtual disk, `AddVMSpec` succeeds and every call would return an empty
`Error`; the run stops in the expansion check with an index out of range and
issues no `ExpandVMDisks` call.  And a single disk to grow from 10 GiB to 20
GiB is not expanded when the merged spec could not be persisted: the run
returns after the refused patch, before the expansion check. -/
theorem disk_growth_counterexample :
    (powerOffResult [{ MaximumSize := 10 * GiB }]).Status = "PowerOff" ∧
    growEnv.specCall [Cmd.GetVM "vm1"] (addVMSpecCmd (atPowerOff
      { machine := diskRecord [{ Size := some (20 * GiB) }, { Size := some (5 * GiB) }] }
      (powerOffResult [{ MaximumSize := 10 * GiB }]))) = .ok {} ∧
    someDiskExceeds [{ Size := some (20 * GiB) }, { Size := some (5 * GiB) }]
      [{ MaximumSize := 10 * GiB }] = true ∧
    (reconcileNormal growEnv none testProvider none
      { machine := diskRecord [{ Size := some (20 * GiB) }, { Size := some (5 * GiB) }] }).ret =
      .panic "index out of range" ∧
    (reconcileNormal growEnv none testProvider none
      { machine := diskRecord [{ Size := some (20 * GiB) }, { Size := some (5 * GiB) }] }
      ).st.calls.map Cmd.name = ["GetVM", "AddVMSpec"] ∧
    someDiskExceeds [{ Size := some (20 * GiB) }] [{ MaximumSize := 10 * GiB }] = true ∧
    (reconcileNormal patchFailEnv none testProvider none
      { machine := diskRecord [{ Size := some (20 * GiB) }] }).st.calls.map Cmd.name =
        ["GetVM", "AddVMSpec"] ∧
    (reconcileNormal patchFailEnv none testProvider none
      { machine := diskRecord [{ Size := some (20 * GiB) }] }).st.persisted = [] :=
  ⟨rfl, rfl, by decide, by decide, by decide, by decide, by decide, by decide⟩


/-! ## Disk-expand threshold -/

theorem expandVMDisks_calls (env : Env) (s : St) :
    (expandVMDisks env s).st.calls = s.calls ++ [expandCmd env s.machine.Spec] := by
  unfold expandVMDisks
  simp only []
  split <;> [skip; split] <;> simp

theorem expandCmd_name (env : Env) (spec : ScvmmMachineSpec) :
    (expandCmd env spec).name = "ExpandVMDisks" := rfl

theorem addVMSpecCmd_name (s : St) : (addVMSpecCmd s).name = "AddVMSpec" := rfl

/-- C3 as amended, disk-expand threshold.  For every named record whose
discovered VM is in state `PowerOff`, whose discovery result lists a virtual
disk for every declared disk, for which `AddVMSpec` succeeded and the merged
spec was persisted when the merge changed it, and whose declared sizes are
`int64` values not below -2^63 + 1048576: the calls `reconcileNormal` issues
include an `ExpandVMDisks` call if and only if some declared disk `i` has a
non-nil `Size` with `Size.Value() > VirtualDisks[i].MaximumSize + 1048576`. -/
theorem expand_threshold (env : Env) (cluster : Option Cluster) (provider : ScvmmProviderSpec)
    (machine : Option Machine) (s : St) (vm : VMResult) (newspec : VMSpecResult)
    (hsess : createWinrmCmd env provider = .ok ())
    (hname : s.machine.Spec.VMName ≠ "")
    (hget : env.vmCall s.calls (Cmd.GetVM (escapeSingleQuotes s.machine.Spec.VMName)) = .ok vm)
    (hfound : vm.Name ≠ "") (hoff : vm.Status = "PowerOff")
    (hadd : env.specCall (atPowerOff s vm).calls (addVMSpecCmd (atPowerOff s vm)) = .ok newspec)
    (hok : newspec.Error = "")
    (hpatch : mergePersisted env (atPowerOff s vm) newspec = true)
    (hlen : (atExpandCheck env (atPowerOff s vm) newspec).machine.Spec.Disks.length ≤
      vm.VirtualDisks.length)
    (hsz : sizesNoWrap (atExpandCheck env (atPowerOff s vm) newspec).machine.Spec.Disks = true) :
    ∃ rest, (reconcileNormal env cluster provider machine s).st.calls = s.calls ++ rest ∧
      ((∃ c ∈ rest, c.name = "ExpandVMDisks") ↔
        someDiskExceeds (atExpandCheck env (atPowerOff s vm) newspec).machine.Spec.Disks
          vm.VirtualDisks = true) := by
  rw [reconcileNormal_powerOff env cluster provider machine s vm hsess hname hget hfound hoff,
    powerOff_expandCheck env cluster provider machine _ vm newspec hadd hok hpatch]
  have hcheck := expandCheck_eq (atExpandCheck env (atPowerOff s vm) newspec).machine.Spec.Disks
    vm.VirtualDisks 0 false (by omega) ((sizesNoWrap_iff _).1 hsz)
  simp only [Bool.false_or, List.drop_zero] at hcheck
  unfold expandOrBootstrap
  rw [hcheck]
  cases hex : someDiskExceeds (atExpandCheck env (atPowerOff s vm) newspec).machine.Spec.Disks
      vm.VirtualDisks with
  | true =>
    simp only []
    refine ⟨[Cmd.GetVM (escapeSingleQuotes s.machine.Spec.VMName),
      addVMSpecCmd (atPowerOff s vm),
      expandCmd env (atExpandCheck env (atPowerOff s vm) newspec).machine.Spec], ?_, ?_⟩
    · rw [expandVMDisks_calls]
      simp
    · simp [expandCmd_name]
  | false =>
    simp only []
    obtain ⟨_, rest, hr, hall⟩ := step_bootstrap env cluster provider machine vm
      (step_refl ["AddIsoToVM", "StartVM"] (atExpandCheck env (atPowerOff s vm) newspec))
      (by decide) (by decide)
    refine ⟨[Cmd.GetVM (escapeSingleQuotes s.machine.Spec.VMName),
      addVMSpecCmd (atPowerOff s vm)] ++ rest, ?_, ?_⟩
    · rw [hr]
      simp
    · constructor
      · rintro ⟨c, hc, hn⟩
        exfalso
        simp only [List.cons_append, List.nil_append, List.mem_cons] at hc
        rcases hc with hc | hc | hc
        · rw [hc] at hn; simp [Cmd.name] at hn
        · rw [hc, addVMSpecCmd_name] at hn; exact absurd hn (by decide)
        · have := hall c hc
          rw [hn] at this
          exact absurd this (by decide)
      · intro h; exact absurd h (by decide)

/-- Witness of C3 as amended: a disk of 20 GiB against a maximum of 10 GiB is
expanded. -/
theorem expand_threshold_witness :
    ∃ rest, (reconcileNormal growEnv none testProvider none
        { machine := diskRecord [{ Size := some (20 * GiB) }] }).st.calls = [] ++ rest ∧
      ((∃ c ∈ rest, c.name = "ExpandVMDisks") ↔
        someDiskExceeds [{ Size := some (20 * GiB) }] [{ MaximumSize := 10 * GiB }] = true) :=
  expand_threshold growEnv none testProvider none
    { machine := diskRecord [{ Size := some (20 * GiB) }] }
    (powerOffResult [{ MaximumSize := 10 * GiB }]) {}
    rfl (by decide) rfl (by decide) rfl rfl rfl (by decide) (by decide) (by decide)

/-- C3, the claim as stated fails twice.  A declared size of -2^63 is not
above the maximum size 0 plus one mebibyte, yet the subtraction wraps around
and `ExpandVMDisks` is issued.  And a disk to grow from 10 GiB to 20 GiB is
not expanded when `AddVMSpec` succeeded but the merged spec could not be
persisted: the run ends after the failed patch. -/
theorem expand_threshold_counterexample :
    (someDiskExceeds [{ Size := some (-9223372036854775808) }] [{ MaximumSize := 0 }] = false ∧
      (reconcileNormal emptyDiskEnv none testProvider none
        { machine := diskRecord [{ Size := some (-9223372036854775808) }] }).st.calls.map
          Cmd.name = ["GetVM", "AddVMSpec", "ExpandVMDisks"]) ∧
    (someDiskExceeds [{ Size := some (20 * GiB) }] [{ MaximumSize := 10 * GiB }] = true ∧
      (reconcileNormal patchFailEnv none testProvider none
        { machine := diskRecord [{ Size := some (20 * GiB) }] }).st.calls.map Cmd.name =
          ["GetVM", "AddVMSpec"]) := by
  decide


/-- Witness of C9: the generated name is `vm1`, the creation call succeeds. -/
theorem fresh_record_witness :
    (reconcileNormal freshEnv none testProvider none { machine := freshRecord }).st.calls =
      [] ++ [Cmd.GenerateVMName freshRecord.Spec freshRecord.ObjectMeta,
        createVMCmd freshEnv freshRecord.Spec "vm1"] ∧
    (reconcileNormal freshEnv none testProvider none
      { machine := freshRecord }).st.machine.Spec.VMName = "vm1" ∧
    (reconcileNormal freshEnv none testProvider none
      { machine := freshRecord }).st.machine.Status.Ready = false ∧
    hasCondition (reconcileNormal freshEnv none testProvider none
      { machine := freshRecord }).st.machine VmCreated ConditionStatus.ConditionFalse
      VmCreatingReason = true ∧
    (reconcileNormal freshEnv none testProvider none { machine := freshRecord }).ret =
      .done { RequeueAfter := Second * 10 } none :=
  fresh_record freshEnv none testProvider none { machine := freshRecord }
    { ScvmmMachineSpec := { VMName := "vm1" } } {} rfl rfl rfl rfl rfl (by decide) rfl rfl

/-! ## Structured errors -/

/-- C4, the code at failing inputs.  A `CreateVM` result with a non-empty
`Error` ends the run with the failure condition but with an empty result, no
`RequeueAfter`.  A `GetVM` result with a non-empty `Error` and no name is not
looked at: the run goes on to issue `CreateVM`.  A `StartVM` result with a
non-empty `Error` is not looked at either: the run requeues in 10 seconds and
records no `VmFailed` condition. -/
theorem structured_error_not_uniform :
    ((reconcileNormal createErrorEnv none testProvider none
        { machine := freshRecord }).st.calls.map Cmd.name = ["GenerateVMName", "CreateVM"] ∧
      hasCondition (reconcileNormal createErrorEnv none testProvider none
        { machine := freshRecord }).st.machine VmCreated ConditionStatus.ConditionFalse
        VmFailedReason = true ∧
      (reconcileNormal createErrorEnv none testProvider none { machine := freshRecord }).ret =
        .done { RequeueAfter := 0 } none) ∧
    ((reconcileNormal createErrorEnv none testProvider none
        { machine := namedRecord }).st.calls.map Cmd.name = ["GetVM", "CreateVM"]) ∧
    ((reconcileNormal startErrorEnv none testProvider none
        { machine := namedRecord }).st.calls.map Cmd.name = ["GetVM", "AddVMSpec", "StartVM"] ∧
      hasCondition (reconcileNormal startErrorEnv none testProvider none
        { machine := namedRecord }).st.machine VmCreated ConditionStatus.ConditionFalse
        VmFailedReason = false ∧
      (reconcileNormal startErrorEnv none testProvider none { machine := namedRecord }).ret =
        .done { RequeueAfter := Second * 10 } none) := by
  decide

/-! ## Removal precedence -/

/-- C7, the code at the failing input.  For a record being deleted that holds
the finalizer and has a machine name but has no cloud-init section and no
owner, `Reconcile` records the `WaitingForOwner` condition and returns: no
session is opened, no `RemoveVM` call is issued and the finalizer stays. -/
theorem deletion_waits_for_owner :
    Time.IsZero orphanDeletedRecord.ObjectMeta.DeletionTimestamp = false ∧
    hasCondition (Reconcile orphanDeletedEnv).st.machine VmCreated
      ConditionStatus.ConditionFalse WaitingForOwnerReason = true ∧
    (Reconcile orphanDeletedEnv).st.sessions = 0 ∧
    (Reconcile orphanDeletedEnv).st.calls = [] ∧
    ContainsFinalizer (Reconcile orphanDeletedEnv).st.machine MachineFinalizer = true ∧
    (Reconcile orphanDeletedEnv).ret = .done {} none := by
  decide

/-! ## Finalizer before mutation -/

theorem ContainsFinalizer_AddFinalizer (m : ScvmmMachine) (f : String) :
    ContainsFinalizer (AddFinalizer m f) f = true := by
  unfold AddFinalizer ContainsFinalizer
  split
  · assumption
  · simp

theorem ContainsFinalizer_setSummary (env : Env) (m : ScvmmMachine) (f : String) :
    ContainsFinalizer (setSummary env m) f = ContainsFinalizer m f := by
  simp [ContainsFinalizer]

theorem step_nil_calls {s t : St} (h : St.Step [] s t) : t.calls = s.calls := by
  obtain ⟨_, rest, hr, hall⟩ := h
  cases rest with
  | nil => simpa using hr
  | cons c cs => exact absurd (hall c (List.mem_cons_self _ _)) (by simp)

/-- C8 as amended, finalizer before mutation.  For every record that is not
being deleted, does not yet hold the finalizer and has a cloud-init section,
once the patch helper is made, `Reconcile` adds the finalizer, patches the
record once, opens no remote session, issues no remote call and returns an
empty result; when that patch goes through, the record with the finalizer is
persisted and the returned error is nil.  Hence every remote call issued in a
run of `Reconcile` on a record that is not being deleted is issued for a
record that already holds the finalizer. -/
theorem finalizer_before_mutation (env : Env) (m : ScvmmMachine)
    (hget : env.getScvmmMachine = .ok m)
    (hnd : Time.IsZero m.ObjectMeta.DeletionTimestamp = true) :
    (env.newHelper = none → m.Spec.CloudInit ≠ none →
      ContainsFinalizer m MachineFinalizer = false →
      ContainsFinalizer (Reconcile env).st.machine MachineFinalizer = true ∧
      (Reconcile env).st.patches = 1 ∧
      (Reconcile env).st.sessions = 0 ∧
      (Reconcile env).st.calls = [] ∧
      (∃ err, (Reconcile env).ret = .done {} err) ∧
      (env.patch 0 (setSummary env (AddFinalizer (fixDiskSizes m) MachineFinalizer)) = none →
        (Reconcile env).st.persisted =
          [setSummary env (AddFinalizer (fixDiskSizes m) MachineFinalizer)] ∧
        (Reconcile env).ret = .done {} none)) ∧
    ((Reconcile env).st.calls ≠ [] → ContainsFinalizer m MachineFinalizer = true) := by
  have hnd2 : Time.IsZero (fixDiskSizes m).ObjectMeta.DeletionTimestamp = true := hnd
  have hfin : ∀ h : ContainsFinalizer m MachineFinalizer = false,
      ContainsFinalizer (fixDiskSizes m) MachineFinalizer = false := fun h => h
  constructor
  · intro hhelper hci hnf
    obtain ⟨ci, hci2⟩ := Option.ne_none_iff_exists'.1 hci
    have hci3 : (fixDiskSizes m).Spec.CloudInit = some ci := hci2
    unfold Reconcile
    rw [hget]
    simp only [hhelper, hci3]
    unfold finalizerAndDelegate
    simp only [hnd2, hfin hnf, Bool.not_true, Bool.not_false, Bool.and_self, if_true]
    refine ⟨?_, ?_, ?_, ?_, ?_, ?_⟩
    · split <;> simp [ContainsFinalizer_setSummary, ContainsFinalizer_AddFinalizer]
    · split <;> simp
    · split <;> simp
    · split <;> simp
    · split <;> exact ⟨_, rfl⟩
    · intro hp
      constructor
      · split <;> simp [patch_persisted, hp]
      · split <;> rfl
  · intro hcalls
    by_contra hnf
    have hnf2 : ContainsFinalizer m MachineFinalizer = false := by simpa using hnf
    apply hcalls
    unfold Reconcile
    rw [hget]
    simp only []
    split
    · rfl
    · split
      · exact step_nil_calls (step_ownerLookups env _)
      · unfold finalizerAndDelegate
        simp only [hnd2, hfin hnf2, Bool.not_true, Bool.not_false, Bool.and_self, if_true]
        split <;> simp

/-- Witness of C8 as amended: a new standalone record gets the finalizer, and
with the patch going through it is persisted and the error is nil. -/
theorem finalizer_before_mutation_witness :
    (ContainsFinalizer (Reconcile newEnv).st.machine MachineFinalizer = true ∧
      (Reconcile newEnv).st.patches = 1 ∧
      (Reconcile newEnv).st.sessions = 0 ∧
      (Reconcile newEnv).st.calls = [] ∧
      (∃ err, (Reconcile newEnv).ret = .done {} err) ∧
      (newEnv.patch 0 (setSummary newEnv (AddFinalizer (fixDiskSizes newRecord)
          MachineFinalizer)) = none →
        (Reconcile newEnv).st.persisted =
          [setSummary newEnv (AddFinalizer (fixDiskSizes newRecord) MachineFinalizer)] ∧
        (Reconcile newEnv).ret = .done {} none)) :=
  (finalizer_before_mutation newEnv newRecord rfl rfl).1 rfl (by decide) (by decide)

/-- C8, the claim as stated fails twice.  A record that is not being
deleted, holds no finalizer and has neither a cloud-init section nor an owner
is left without the finalizer; `Reconcile` records `WaitingForOwner` and
returns.  And for a new standalone record whose patch is refused nothing is
persisted. -/
theorem finalizer_before_mutation_counterexample :
    Time.IsZero orphanNewRecord.ObjectMeta.DeletionTimestamp = true ∧
    ContainsFinalizer orphanNewRecord MachineFinalizer = false ∧
    ContainsFinalizer (Reconcile orphanNewEnv).st.machine MachineFinalizer = false ∧
    (Reconcile orphanNewEnv).st.persisted.all
      (fun p => !ContainsFinalizer p MachineFinalizer) = true ∧
    hasCondition (Reconcile orphanNewEnv).st.machine VmCreated
      ConditionStatus.ConditionFalse WaitingForOwnerReason = true ∧
    Time.IsZero newRecord.ObjectMeta.DeletionTimestamp = true ∧
    ContainsFinalizer newRecord MachineFinalizer = false ∧
    (Reconcile newPatchFailsEnv).st.patches = 1 ∧
    (Reconcile newPatchFailsEnv).st.persisted = [] := by
  decide


/-! ## Provider resolution -/

/-- C15, the code at the failing input.  The provider object names no
execution host and `SCVMM_EXECHOST` is `exec`, yet `getProvider` returns the
management host `scvmm` as `ExecHost`: the variable is read and overwritten.
Without a provider object the function table is the nil map and the same
branch panics. -/
theorem execHost_ignores_environment :
    execHostEnv.getenv "SCVMM_EXECHOST" = "exec" ∧
    (getProvider execHostEnv none refRecord).value?.map (fun p => p.ExecHost) = some "scvmm" ∧
    (getProvider execHostEnv none refRecord).value?.map (fun p => p.ScvmmHost) = some "scvmm" ∧
    getProvider execHostEnv none namedRecord = .panic "assignment to entry in nil map" := by
  decide

/-- C16, the code at the failing input.  Neither a provider object nor
`SCVMM_HOST` supplies a management host, `getProvider` fails, and `Reconcile`
returns an empty result with a nil error and records no condition. -/
theorem configuration_error_dropped :
    getProvider noHostEnv none (fixDiskSizes namedRecord) =
      .err "missing required value ScvmmHost" ∧
    (Reconcile noHostEnv).ret = .done {} none ∧
    (Reconcile noHostEnv).st.machine.Status.Conditions = [] ∧
    (Reconcile noHostEnv).st.persisted = [] ∧
    (Reconcile noHostEnv).st.sessions = 0 := by
  decide

/-! ## The disk array -/

theorem tdiv_nonneg_1024 (v : Int) (h : 0 ≤ v) :
    (v.tdiv 1024).tdiv 1024 = v.tdiv 1048576 := by
  have h1 : v.tdiv 1024 = v / 1024 := Int.tdiv_eq_ediv h (by decide)
  have h2 : 0 ≤ v / 1024 := by omega
  rw [h1, Int.tdiv_eq_ediv h2 (by decide), Int.tdiv_eq_ediv h (by decide)]
  omega

theorem tdiv_1024_1024 (v : Int) : (v.tdiv 1024).tdiv 1024 = v.tdiv 1048576 := by
  by_cases h : 0 ≤ v
  · exact tdiv_nonneg_1024 v h
  · have hn : 0 ≤ -v := by omega
    have := tdiv_nonneg_1024 (-v) hn
    simp only [Int.neg_tdiv] at this
    omega

theorem diskObject_eq (d : VmDisk) :
    VmDiskElem.toJSON
      { SizeMB := match d.Size with
          | none => 0
          | some v => (v.tdiv 1024).tdiv 1024
        VHDisk := d.VHDisk
        Dynamic := d.Dynamic } = diskObject d := by
  unfold VmDiskElem.toJSON diskObject
  cases d.Size with
  | none => rfl
  | some v => simp only [tdiv_1024_1024]

/-- C20.  For every list of disks `makeDisksJSON` encodes an array of the same
length and order, in which element `i` has `sizeMB` equal to `Size.Value()`
divided by 1048576 with truncation (0 when `Size` is nil), `vhDisk` equal to
the disk's `VHDisk` (left out when empty) and `dynamic` equal to the disk's
`Dynamic` flag; the only error the function can return is that of
`json.Marshal`, which has no failing case on such an array. -/
theorem makeDisksJSON_encodes (env : Env) (disks : List VmDisk) :
    makeDisksJSON env disks = env.marshalDisks (disks.map diskObject) ∧
    (disks.map diskObject).length = disks.length ∧
    ∀ i : Nat, (disks.map diskObject)[i]? = disks[i]?.map diskObject := by
  refine ⟨?_, by simp, fun i => by simp⟩
  unfold makeDisksJSON makeDisksElems
  rw [List.map_map]
  congr 1
  apply List.map_congr_left
  intro d _
  exact diskObject_eq d


/-! ## Status fields under the condition helpers -/

@[simp] theorem MarkFalse_VMStatus (env : Env) (m : ScvmmMachine) (t : ConditionType)
    (r : String) (sv : ConditionSeverity) (f : String) (a : List String) :
    (MarkFalse env m t r sv f a).Status.VMStatus = m.Status.VMStatus := rfl
@[simp] theorem MarkFalse_CreationTime (env : Env) (m : ScvmmMachine) (t : ConditionType)
    (r : String) (sv : ConditionSeverity) (f : String) (a : List String) :
    (MarkFalse env m t r sv f a).Status.CreationTime = m.Status.CreationTime := rfl
@[simp] theorem MarkFalse_ModifiedTime (env : Env) (m : ScvmmMachine) (t : ConditionType)
    (r : String) (sv : ConditionSeverity) (f : String) (a : List String) :
    (MarkFalse env m t r sv f a).Status.ModifiedTime = m.Status.ModifiedTime := rfl
@[simp] theorem MarkFalse_Ready (env : Env) (m : ScvmmMachine) (t : ConditionType)
    (r : String) (sv : ConditionSeverity) (f : String) (a : List String) :
    (MarkFalse env m t r sv f a).Status.Ready = m.Status.Ready := rfl
@[simp] theorem MarkTrue_Ready (m : ScvmmMachine) (t : ConditionType) :
    (MarkTrue m t).Status.Ready = m.Status.Ready := rfl
@[simp] theorem setSummary_VMStatus (env : Env) (m : ScvmmMachine) :
    (setSummary env m).Status.VMStatus = m.Status.VMStatus := by
  unfold setSummary; split <;> rfl
@[simp] theorem setSummary_CreationTime (env : Env) (m : ScvmmMachine) :
    (setSummary env m).Status.CreationTime = m.Status.CreationTime := by
  unfold setSummary; split <;> rfl
@[simp] theorem setSummary_ModifiedTime (env : Env) (m : ScvmmMachine) :
    (setSummary env m).Status.ModifiedTime = m.Status.ModifiedTime := by
  unfold setSummary; split <;> rfl

theorem prc_machine (env : Env) (s : St) (rq : Int) (err : Option String)
    (c : ConditionType) (r msg : String) (args : List String) :
    (patchReasonCondition env s rq err c r msg args).st.machine =
      setSummary env (MarkFalse env { s.machine with Status.Ready := false } c r
        (match err with
          | some _ => ConditionSeverity.ConditionSeverityError
          | none => ConditionSeverity.ConditionSeverityInfo) msg args) := by
  rw [prc_st]; simp

/-! ## Removal -/

theorem reconcileDelete_removeVM (env : Env) (provider : ScvmmProviderSpec) (s : St)
    (hfin : ContainsFinalizer s.machine MachineFinalizer = true)
    (hname : s.machine.Spec.VMName ≠ "")
    (hpatch : (patchScvmmMachine env (s.setMachine (MarkFalse env s.machine VmCreated
      VmDeletingReason ConditionSeverity.ConditionSeverityInfo "" []))).2 = none)
    (hsess : createWinrmCmd env provider = .ok ()) :
    reconcileDelete env provider s = removeVM env (atRemoveVM env s) := by
  unfold reconcileDelete
  simp only [hfin, Bool.not_true, Bool.false_eq_true, if_false, hname]
  unfold deleteVM
  simp only [hpatch, hsess]
  rfl

/-- C17, removal still in progress.  For every record that holds the
finalizer and has a non-empty `Spec.VMName`, when `RemoveVM` is reached (the
record marked as deleting is patched and the session opens) and returns with
an empty `Error` and a `Message` other than `Removed`, `reconcileDelete`
copies `Status`, `CreationTime` and `ModifiedTime` of the result into the
record's status, sets `VmCreated` to False with reason `VmDeleting`, leaves
the metadata and with it the finalizer as it is, issues `RemoveVM` and nothing
else (no `RemoveADComputer`) and returns `RequeueAfter` = 30 seconds with a
nil error. -/
theorem removal_in_progress (env : Env) (provider : ScvmmProviderSpec) (s : St) (vm : VMResult)
    (hfin : ContainsFinalizer s.machine MachineFinalizer = true)
    (hname : s.machine.Spec.VMName ≠ "")
    (hpatch : (patchScvmmMachine env (s.setMachine (MarkFalse env s.machine VmCreated
      VmDeletingReason ConditionSeverity.ConditionSeverityInfo "" []))).2 = none)
    (hsess : createWinrmCmd env provider = .ok ())
    (hrm : env.vmCall s.calls (Cmd.RemoveVM (escapeSingleQuotes s.machine.Spec.VMName)) = .ok vm)
    (herr : vm.Error = "") (hmsg : vm.Message ≠ "Removed") :
    (reconcileDelete env provider s).st.machine.Status.VMStatus = vm.Status ∧
    (reconcileDelete env provider s).st.machine.Status.CreationTime = vm.CreationTime ∧
    (reconcileDelete env provider s).st.machine.Status.ModifiedTime = vm.ModifiedTime ∧
    hasCondition (reconcileDelete env provider s).st.machine VmCreated
      ConditionStatus.ConditionFalse VmDeletingReason = true ∧
    (reconcileDelete env provider s).st.machine.ObjectMeta = s.machine.ObjectMeta ∧
    ContainsFinalizer (reconcileDelete env provider s).st.machine MachineFinalizer = true ∧
    (reconcileDelete env provider s).st.calls =
      s.calls ++ [Cmd.RemoveVM (escapeSingleQuotes s.machine.Spec.VMName)] ∧
    (reconcileDelete env provider s).ret = .done { RequeueAfter := Second * 30 } none := by
  rw [reconcileDelete_removeVM env provider s hfin hname hpatch hsess]
  unfold removeVM atRemoveVM
  simp only [openSession_machine, openSession_calls, patch_machine, patch_calls,
    setMachine_machine, setMachine_calls, setSummary_Spec, MarkFalse_Spec, hrm, herr, hmsg,
    ne_eq, not_true_eq_false, if_false]
  refine ⟨?_, ?_, ?_, prc_condition _ _ _ _ _ _ _ _ (by decide), by simp, ?_, by simp, ?_⟩
  · rw [prc_machine]; simp
  · rw [prc_machine]; simp
  · rw [prc_machine]; simp
  · simpa [ContainsFinalizer] using hfin
  · rw [prc_ret]; simp [wrapInt64_seconds]

/-- Witness of C17: the removal of `deletedRecord` is still going on. -/
theorem removal_in_progress_witness :
    (reconcileDelete removingEnv testProvider { machine := deletedRecord }).st.machine.Status.VMStatus
      = "Deleting" ∧
    ContainsFinalizer (reconcileDelete removingEnv testProvider
      { machine := deletedRecord }).st.machine MachineFinalizer = true ∧
    (reconcileDelete removingEnv testProvider { machine := deletedRecord }).st.calls =
      [] ++ [Cmd.RemoveVM (escapeSingleQuotes "vm1")] ∧
    (reconcileDelete removingEnv testProvider { machine := deletedRecord }).ret =
      .done { RequeueAfter := Second * 30 } none :=
  have h := removal_in_progress removingEnv testProvider { machine := deletedRecord }
    { Status := "Deleting", Message := "Removing" } (by decide) (by decide) rfl rfl rfl rfl
    (by decide)
  ⟨h.1, h.2.2.2.2.2.1, h.2.2.2.2.2.2.1, h.2.2.2.2.2.2.2⟩


theorem ContainsFinalizer_RemoveFinalizer (m : ScvmmMachine) (f : String) :
    ContainsFinalizer (RemoveFinalizer m f) f = false := by
  simp [ContainsFinalizer, RemoveFinalizer]

theorem removeFinalizer_st (env : Env) (s : St) :
    (removeFinalizer env s).st =
      (patchScvmmMachine env (s.setMachine (RemoveFinalizer s.machine MachineFinalizer))).1 := by
  unfold removeFinalizer
  simp only []
  split <;> rfl

theorem removeFinalizer_ret (env : Env) (s : St) :
    (removeFinalizer env s).ret =
      .done {} (patchScvmmMachine env
        (s.setMachine (RemoveFinalizer s.machine MachineFinalizer))).2 := by
  unfold removeFinalizer
  simp only []
  split <;> simp_all

/-- C12 as amended, removal completes.  For every record that holds the
finalizer, has a non-empty `Spec.VMName` and no ActiveDirectory spec, when
`RemoveVM` is reached and returns with an empty `Error` and the message
`Removed`, `reconcileDelete` removes the finalizer from the record, issues no
further call and patches the record; when that patch goes through, the record
without the finalizer is persisted and the result is empty (no requeue) with
a nil error. -/
theorem removal_completes (env : Env) (provider : ScvmmProviderSpec) (s : St) (vm : VMResult)
    (hfin : ContainsFinalizer s.machine MachineFinalizer = true)
    (hname : s.machine.Spec.VMName ≠ "")
    (had : s.machine.Spec.ActiveDirectory = none)
    (hpatch : (patchScvmmMachine env (s.setMachine (MarkFalse env s.machine VmCreated
      VmDeletingReason ConditionSeverity.ConditionSeverityInfo "" []))).2 = none)
    (hsess : createWinrmCmd env provider = .ok ())
    (hrm : env.vmCall s.calls (Cmd.RemoveVM (escapeSingleQuotes s.machine.Spec.VMName)) = .ok vm)
    (herr : vm.Error = "") (hmsg : vm.Message = "Removed") :
    ContainsFinalizer (reconcileDelete env provider s).st.machine MachineFinalizer = false ∧
    (reconcileDelete env provider s).st.calls =
      s.calls ++ [Cmd.RemoveVM (escapeSingleQuotes s.machine.Spec.VMName)] ∧
    (reconcileDelete env provider s).st.patches = s.patches + 2 ∧
    ((patchScvmmMachine env (atRemoveFinalizer env s)).2 = none →
      (reconcileDelete env provider s).st.persisted =
        (atRemoveVM env s).persisted ++ [(reconcileDelete env provider s).st.machine] ∧
      (reconcileDelete env provider s).ret = .done {} none) := by
  rw [reconcileDelete_removeVM env provider s hfin hname hpatch hsess]
  have hspec : (atRemoveVM env s).machine.Spec = s.machine.Spec := by simp [atRemoveVM]
  have hcalls : (atRemoveVM env s).calls = s.calls := by simp [atRemoveVM]
  unfold removeVM
  simp only [hspec, hcalls, hrm, herr, hmsg, ne_eq, not_true_eq_false, if_false, if_true]
  unfold removed
  simp only [call_machine, hspec, had]
  have hst : ((atRemoveVM env s).call
      (Cmd.RemoveVM (escapeSingleQuotes s.machine.Spec.VMName))).setMachine
      (RemoveFinalizer (atRemoveVM env s).machine MachineFinalizer) = atRemoveFinalizer env s :=
    rfl
  rw [removeFinalizer_st, call_machine, hst]
  refine ⟨?_, ?_, ?_, ?_⟩
  · simp [ContainsFinalizer_setSummary, atRemoveFinalizer, ContainsFinalizer_RemoveFinalizer]
  · simp [atRemoveFinalizer, hcalls]
  · simp [atRemoveFinalizer, atRemoveVM]
  · intro hp
    have hp2 : env.patch (atRemoveFinalizer env s).patches
        (setSummary env (atRemoveFinalizer env s).machine) = none := by
      simpa using hp
    refine ⟨?_, ?_⟩
    · rw [patch_persisted, hp2]
      simp [atRemoveFinalizer]
    · rw [removeFinalizer_ret, call_machine, hst, hp]

/-- Witness of C12 as amended: the removal of `deletedRecord` completes. -/
theorem removal_completes_witness :
    ContainsFinalizer (reconcileDelete removedEnv testProvider
      { machine := deletedRecord }).st.machine MachineFinalizer = false ∧
    (reconcileDelete removedEnv testProvider { machine := deletedRecord }).st.calls =
      [] ++ [Cmd.RemoveVM (escapeSingleQuotes "vm1")] ∧
    (reconcileDelete removedEnv testProvider { machine := deletedRecord }).ret =
      .done {} none :=
  have h := removal_completes removedEnv testProvider { machine := deletedRecord }
    { Message := "Removed" } (by decide) (by decide) rfl rfl rfl rfl rfl rfl
  ⟨h.1, h.2.1, (h.2.2.2 rfl).2⟩

/-- C12, the claim as stated fails: `RemoveVM` returns with an empty `Error`
and the message `Removed`, but the patch that would persist the record
without the finalizer is refused; `reconcileDelete` returns that error and
every record persisted in the attempt still holds the finalizer. -/
theorem removal_completes_counterexample :
    secondPatchFailsEnv.vmCall [] (Cmd.RemoveVM (escapeSingleQuotes "vm1")) =
      .ok { Message := "Removed" } ∧
    (reconcileDelete secondPatchFailsEnv testProvider { machine := deletedRecord }).ret =
      .done {} (some "conflict") ∧
    (reconcileDelete secondPatchFailsEnv testProvider
      { machine := deletedRecord }).st.persisted.all
        (fun p => ContainsFinalizer p MachineFinalizer) = true ∧
    (reconcileDelete secondPatchFailsEnv testProvider
      { machine := deletedRecord }).st.persisted.length = 1 :=
  ⟨rfl, by decide, by decide, by decide⟩


/-! ## Running machine without host name -/

theorem reconcileNormal_running (env : Env) (cluster : Option Cluster)
    (provider : ScvmmProviderSpec) (machine : Option Machine) (s : St) (vm : VMResult)
    (hsess : createWinrmCmd env provider = .ok ())
    (hname : s.machine.Spec.VMName ≠ "")
    (hget : env.vmCall s.calls (Cmd.GetVM (escapeSingleQuotes s.machine.Spec.VMName)) = .ok vm)
    (hfound : vm.Name ≠ "") (hoff : vm.Status ≠ "PowerOff") :
    reconcileNormal env cluster provider machine s = running env (atPowerOff s vm) vm := by
  unfold reconcileNormal
  rw [hsess]
  simp only []
  unfold discover
  simp only [openSession_machine, openSession_calls, hname, ne_eq, not_false_eq_true, if_true,
    hget]
  unfold afterDiscovery
  simp only [hfound, if_false]
  unfold found
  simp only [hoff, if_false]
  rfl

theorem running_st_machine (env : Env) (s : St) (vm : VMResult) (hrun : vm.Status = "Running") :
    (running env s vm).st.machine =
      setSummary env (MarkTrue (fillAddresses { s.machine with Status.Ready := true } vm)
        VmRunning) ∧
    (running env s vm).st.patches = s.patches + 1 := by
  unfold running
  simp only [hrun, ne_eq, not_true_eq_false, if_false]
  split
  · simp
  · split
    · unfold readVM
      simp only []
      split <;> simp
    · simp

theorem fillAddresses_Ready (m : ScvmmMachine) (vm : VMResult) :
    (fillAddresses m vm).Status.Ready = m.Status.Ready := by
  unfold fillAddresses; simp only []; split <;> split <;> rfl

theorem fillAddresses_Conditions (m : ScvmmMachine) (vm : VMResult) :
    (fillAddresses m vm).Status.Conditions = m.Status.Conditions := by
  unfold fillAddresses; simp only []; split <;> split <;> rfl

theorem setProviderID_Conditions (m : ScvmmMachine) (vm : VMResult) :
    (setProviderID m vm).Status.Conditions = m.Status.Conditions := by
  unfold setProviderID; split <;> rfl

/-- C11 as amended, running machine without host name.  For every named
record whose `GetVM` result has a non-empty `Name`, the `Status` `Running` and
an empty `Hostname` or nil `IPv4Addresses`, `reconcileNormal` sets
`Status.Ready` to true, marks `VmCreated` and `VmRunning` True and patches the
record once; when that patch goes through, the record is persisted and
exactly one further call, the discovery call `ReadVM`, is issued, and when
`ReadVM` returns without transport error the result is `RequeueAfter` = 60
seconds with a nil error. -/
theorem running_missing_hostname (env : Env) (cluster : Option Cluster)
    (provider : ScvmmProviderSpec) (machine : Option Machine) (s : St) (vm : VMResult)
    (hsess : createWinrmCmd env provider = .ok ())
    (hname : s.machine.Spec.VMName ≠ "")
    (hget : env.vmCall s.calls (Cmd.GetVM (escapeSingleQuotes s.machine.Spec.VMName)) = .ok vm)
    (hfound : vm.Name ≠ "") (hrun : vm.Status = "Running")
    (hmiss : vm.IPv4Addresses = none ∨ vm.Hostname = "") :
    (reconcileNormal env cluster provider machine s).st.machine.Status.Ready = true ∧
    hasCondition (reconcileNormal env cluster provider machine s).st.machine VmCreated
      ConditionStatus.ConditionTrue "" = true ∧
    hasCondition (reconcileNormal env cluster provider machine s).st.machine VmRunning
      ConditionStatus.ConditionTrue "" = true ∧
    (reconcileNormal env cluster provider machine s).st.patches = s.patches + 1 ∧
    ((patchScvmmMachine env (atRunningPatch s vm)).2 = none →
      (reconcileNormal env cluster provider machine s).st.persisted =
        s.persisted ++ [(reconcileNormal env cluster provider machine s).st.machine] ∧
      (reconcileNormal env cluster provider machine s).st.calls =
        s.calls ++ [Cmd.GetVM (escapeSingleQuotes s.machine.Spec.VMName),
          Cmd.ReadVM (escapeSingleQuotes s.machine.Spec.VMName)] ∧
      ∀ vm2, env.vmCall (s.calls ++ [Cmd.GetVM (escapeSingleQuotes s.machine.Spec.VMName)])
          (Cmd.ReadVM (escapeSingleQuotes s.machine.Spec.VMName)) = .ok vm2 →
        (reconcileNormal env cluster provider machine s).ret =
          .done { RequeueAfter := Second * 60 } none) := by
  have hoff : vm.Status ≠ "PowerOff" := by rw [hrun]; decide
  rw [reconcileNormal_running env cluster provider machine s vm hsess hname hget hfound hoff]
  have hm := running_st_machine env (atPowerOff s vm) vm hrun
  have hcr : VmCreated ≠ ReadyCondition := by decide
  have hrr : VmRunning ≠ ReadyCondition := by decide
  have hcrun : ¬ VmRunning = VmCreated := by decide
  refine ⟨?_, ?_, ?_, ?_, ?_⟩
  · rw [hm.1]; simp [fillAddresses_Ready]
  · rw [hm.1]
    simp [hasCondition, setSummary_conditionsGet _ _ _ hcr, MarkTrue, conditionsGet_set,
      fillAddresses_Conditions, atPowerOff, fillFound, fillStatus, setProviderID_Conditions,
      hcrun]
  · rw [hm.1]
    simp [hasCondition, setSummary_conditionsGet _ _ _ hrr, MarkTrue, conditionsGet_set]
  · rw [hm.2]; rfl
  · intro hp
    have hp' : (patchScvmmMachine env ((atPowerOff s vm).setMachine
        (MarkTrue (fillAddresses { (atPowerOff s vm).machine with Status.Ready := true } vm)
          VmRunning))).2 = none := hp
    have hp2 : env.patch (atRunningPatch s vm).patches
        (setSummary env (atRunningPatch s vm).machine) = none := by
      simpa using hp
    unfold running
    simp only [hrun, ne_eq, not_true_eq_false, if_false, hp', hmiss, if_true]
    unfold readVM
    simp only [patch_machine, patch_calls, setMachine_machine, setMachine_calls,
      setSummary_Spec, MarkTrue_Spec, fillAddresses_Spec]
    have hspec : (atPowerOff s vm).machine.Spec.VMName = s.machine.Spec.VMName := by
      simp [atPowerOff, fillFound, setProviderID]
      split <;> rfl
    have hpers : (patchScvmmMachine env ((atPowerOff s vm).setMachine
        (MarkTrue (fillAddresses { (atPowerOff s vm).machine with Status.Ready := true } vm)
          VmRunning))).1.persisted = s.persisted ++
          [setSummary env (MarkTrue (fillAddresses
            { (atPowerOff s vm).machine with Status.Ready := true } vm) VmRunning)] := by
      rw [patch_persisted]
      have : env.patch ((atPowerOff s vm).setMachine (MarkTrue (fillAddresses
          { (atPowerOff s vm).machine with Status.Ready := true } vm) VmRunning)).patches
          (setSummary env ((atPowerOff s vm).setMachine (MarkTrue (fillAddresses
            { (atPowerOff s vm).machine with Status.Ready := true } vm)
            VmRunning)).machine) = none := hp2
      rw [this]
      rfl
    refine ⟨?_, ?_, ?_⟩
    · split <;> simpa using hpers
    · split <;> simp [hspec]
    · intro vm2 hread
      rw [hspec, atPowerOff_calls]
      simp only [hread]


/-- Witness of C11 as amended: `vm1` runs, addresses and host name are still
unknown. -/
theorem running_missing_hostname_witness :
    (reconcileNormal startingUpEnv none testProvider none
      { machine := namedRecord }).st.machine.Status.Ready = true ∧
    (reconcileNormal startingUpEnv none testProvider none { machine := namedRecord }).st.calls =
      [] ++ [Cmd.GetVM (escapeSingleQuotes "vm1"), Cmd.ReadVM (escapeSingleQuotes "vm1")] ∧
    (reconcileNormal startingUpEnv none testProvider none { machine := namedRecord }).ret =
      .done { RequeueAfter := Second * 60 } none :=
  have h := running_missing_hostname startingUpEnv none testProvider none
    { machine := namedRecord } startingUpResult rfl (by decide) rfl (by decide) rfl (Or.inl rfl)
  ⟨h.1, (h.2.2.2.2 rfl).2.1, (h.2.2.2.2 rfl).2.2 startingUpResult rfl⟩

/-- C11, the claim as stated fails three times.  A `GetVM` result with the
status `Running` but no name counts as not found: the run goes on to
`CreateVM` and the record is not ready.  When the patch of the ready record
is refused, the run ends with that error and without `ReadVM`.  When `ReadVM`
fails in transport, the run ends with an error instead of the requeue. -/
theorem running_missing_hostname_counterexample :
    ((reconcileNormal namelessRunningEnv none testProvider none
        { machine := namedRecord }).st.calls.map Cmd.name = ["GetVM", "CreateVM"] ∧
      (reconcileNormal namelessRunningEnv none testProvider none
        { machine := namedRecord }).st.machine.Status.Ready = false) ∧
    ((reconcileNormal startingUpPatchFailsEnv none testProvider none
        { machine := namedRecord }).st.calls.map Cmd.name = ["GetVM"] ∧
      (reconcileNormal startingUpPatchFailsEnv none testProvider none
        { machine := namedRecord }).st.persisted = [] ∧
      (reconcileNormal startingUpPatchFailsEnv none testProvider none
        { machine := namedRecord }).ret = .done {} (some "conflict")) ∧
    ((reconcileNormal readFailsEnv none testProvider none
        { machine := namedRecord }).st.calls.map Cmd.name = ["GetVM", "ReadVM"] ∧
      (reconcileNormal readFailsEnv none testProvider none
        { machine := namedRecord }).ret = .done {} (some "Failed to read vm: timeout")) := by
  decide


/-! ## The contract of `patchReasonCondition` -/

/-- C19 as amended.  For every call of `patchReasonCondition` with a condition
type other than `Ready`: afterwards `Status.Ready` is false and the named
condition is False with the given reason, with severity Error if and only if
`err` is non-nil and Info otherwise; the result is the empty result with `err`
wrapped with the reason if `err` is non-nil, `RequeueAfter` = `requeue`
seconds with a nil error if `err` is nil and `requeue` is non-zero and its
nanoseconds fit `int64`, and the empty result with a nil error if `err` is
nil and `requeue` is zero; the outcome of the patch changes none of these
return values. -/
theorem patchReasonCondition_contract (env : Env) (s : St) (requeue : Int)
    (err : Option String) (condition : ConditionType) (reason message : String)
    (args : List String) (hcond : condition ≠ ReadyCondition) :
    (patchReasonCondition env s requeue err condition reason message args).st.machine.Status.Ready
      = false ∧
    (∃ c, conditionsGet (patchReasonCondition env s requeue err condition reason message
        args).st.machine.Status.Conditions condition = some c ∧
      c.Status = ConditionStatus.ConditionFalse ∧ c.Reason = reason ∧
      (c.Severity = ConditionSeverity.ConditionSeverityError ↔ err ≠ none) ∧
      (c.Severity = ConditionSeverity.ConditionSeverityInfo ↔ err = none)) ∧
    (∀ e, err = some e →
      (patchReasonCondition env s requeue err condition reason message args).ret =
        .done {} (some (errorsWrap e reason))) ∧
    (err = none → requeue ≠ 0 → isInt64 (Second * requeue) →
      (patchReasonCondition env s requeue err condition reason message args).ret =
        .done { RequeueAfter := Second * requeue } none) ∧
    (err = none → requeue = 0 →
      (patchReasonCondition env s requeue err condition reason message args).ret =
        .done {} none) ∧
    (∀ patch : Nat → ScvmmMachine → Option String,
      (patchReasonCondition { env with patch := patch } s requeue err condition reason message
        args).ret =
      (patchReasonCondition env s requeue err condition reason message args).ret) := by
  refine ⟨by simp, ?_, ?_, ?_, ?_, ?_⟩
  · rw [prc_machine, setSummary_conditionsGet _ _ _ hcond]
    simp only [MarkFalse, conditionsGet_set, if_true]
    refine ⟨_, rfl, rfl, rfl, ?_, ?_⟩
    · cases err <;> simp
    · cases err <;> simp
  · intro e he
    rw [prc_ret, he]
  · intro he hrq hfit
    rw [prc_ret, he]
    simp only [hrq, ne_eq, not_false_eq_true, if_true, wrapInt64_of_isInt64 _ hfit]
  · intro he hrq
    rw [prc_ret, he]
    simp [hrq]
  · intro patch
    rw [prc_ret, prc_ret]

/-- Witness of C19 as amended: a requeue of 60 seconds without error. -/
theorem patchReasonCondition_contract_witness :
    (patchReasonCondition quietEnv { machine := namedRecord } 60 none VmCreated VmFailedReason
      "Failed to delete VM: %s" ["boom"]).ret = .done { RequeueAfter := Second * 60 } none :=
  (patchReasonCondition_contract quietEnv { machine := namedRecord } 60 none VmCreated
    VmFailedReason "Failed to delete VM: %s" ["boom"] (by decide)).2.2.2.1 rfl (by decide)
    (by unfold isInt64; decide)

/-- C19, the claim as stated fails twice.  With the condition type `Ready`,
on a record whose `VmCreated` and `VmRunning` are true, the summary stored by
the patch step replaces the condition just set, so the named condition is
True and not False afterwards.  With a requeue of ten thousand million
seconds the nanoseconds leave `int64` and `RequeueAfter` is not that many
seconds. -/
theorem patchReasonCondition_contract_counterexample :
    hasCondition (patchReasonCondition readySummaryEnv { machine := readyRecord } 0 none
      ReadyCondition VmFailedReason "" []).st.machine ReadyCondition
      ConditionStatus.ConditionFalse VmFailedReason = false ∧
    hasCondition (patchReasonCondition readySummaryEnv { machine := readyRecord } 0 none
      ReadyCondition VmFailedReason "" []).st.machine ReadyCondition
      ConditionStatus.ConditionTrue "" = true ∧
    (patchReasonCondition quietEnv { machine := namedRecord } 10000000000 none VmCreated
      VmFailedReason "" []).ret ≠ .done { RequeueAfter := Second * 10000000000 } none := by
  decide


/-! ## Bootstrap or start -/

theorem bootstrap_attachOrStart (env : Env) (cluster : Option Cluster)
    (provider : ScvmmProviderSpec) (machine : Option Machine) (s : St) (vm : VMResult)
    (b md nc : Option String)
    (h : bootstrapPayloads env machine s.machine = some (b, md, nc)) :
    bootstrap env cluster provider machine s vm = attachOrStart env provider s vm b md nc := by
  unfold bootstrapPayloads at h
  unfold bootstrap
  cases machine with
  | some mc =>
    simp only [] at h ⊢
    cases hd : mc.DataSecretName with
    | none => simp [hd] at h
    | some n =>
      simp only [hd] at h ⊢
      cases hg : getBootstrapData env mc with
      | error e => simp [hg] at h
      | ok bd =>
        simp only [hg, Option.some.injEq, Prod.mk.injEq] at h ⊢
        obtain ⟨h1, h2, h3⟩ := h
        subst h1 h2 h3
        rfl
  | none =>
    simp only [] at h ⊢
    cases hc : s.machine.Spec.CloudInit with
    | some ci =>
      simp only [hc, Option.some.injEq, Prod.mk.injEq] at h ⊢
      obtain ⟨h1, h2, h3⟩ := h
      subst h1 h2 h3
      rfl
    | none =>
      simp only [hc, Option.some.injEq, Prod.mk.injEq] at h ⊢
      obtain ⟨h1, h2, h3⟩ := h
      subst h1 h2 h3
      rfl

theorem finishStart_calls (env : Env) (s : St) (vm : VMResult) :
    (finishStart env s vm).st.calls = s.calls := by
  unfold finishStart
  dsimp only
  split <;> simp

theorem finishStart_VMStatus (env : Env) (s : St) (vm : VMResult) :
    (finishStart env s vm).st.machine.Status.VMStatus = vm.Status := by
  unfold finishStart
  dsimp only
  split <;> simp

theorem finishStart_ret (env : Env) (s : St) (vm : VMResult)
    (h : closingPatchOk env s vm = true) :
    (finishStart env s vm).ret = .done { RequeueAfter := Second * 10 } none := by
  unfold closingPatchOk at h
  rw [Option.isNone_iff_eq_none] at h
  unfold finishStart
  simp only [h]

theorem reconcileNormal_bootstrap (env : Env) (cluster : Option Cluster)
    (provider : ScvmmProviderSpec) (machine : Option Machine) (s : St) (vm : VMResult)
    (newspec : VMSpecResult)
    (hsess : createWinrmCmd env provider = .ok ())
    (hname : s.machine.Spec.VMName ≠ "")
    (hget : env.vmCall s.calls (Cmd.GetVM (escapeSingleQuotes s.machine.Spec.VMName)) = .ok vm)
    (hfound : vm.Name ≠ "") (hoff : vm.Status = "PowerOff")
    (hadd : env.specCall (atPowerOff s vm).calls (addVMSpecCmd (atPowerOff s vm)) = .ok newspec)
    (hok : newspec.Error = "")
    (hpatch : mergePersisted env (atPowerOff s vm) newspec = true)
    (hcheck : expandCheck (atBootstrap env s vm newspec).machine.Spec.Disks 0 vm.VirtualDisks
      false = some false) :
    reconcileNormal env cluster provider machine s =
      bootstrap env cluster provider machine (atBootstrap env s vm newspec) vm := by
  rw [reconcileNormal_powerOff env cluster provider machine s vm hsess hname hget hfound hoff,
    powerOff_expandCheck env cluster provider machine _ vm newspec hadd hok hpatch]
  unfold atBootstrap at hcheck ⊢
  unfold expandOrBootstrap
  rw [hcheck]

@[simp] theorem atBootstrap_calls (env : Env) (s : St) (vm : VMResult) (newspec : VMSpecResult) :
    (atBootstrap env s vm newspec).calls =
      s.calls ++ [Cmd.GetVM (escapeSingleQuotes s.machine.Spec.VMName),
        addVMSpecCmd (atPowerOff s vm)] := by
  unfold atBootstrap
  simp

/-- C18 as amended, bootstrap or start.  For every named record whose
discovered VM is in state `PowerOff`, whose spec is merged (and persisted when
the merge changed it), which needs no disk expansion and whose bootstrap data
is available: if at least one of the bootstrap, meta-data and network-config
payloads is present (not nil, possibly of length zero), the cloud-init media
is written and the patch that marks `VmRunning` False goes through,
`reconcileNormal` issues `GetVM`, `AddVMSpec` and `AddIsoToVM` and no other
call; if none of the three payloads is present it issues `GetVM`, `AddVMSpec`
and `StartVM` and no other call.  In both cases, when that last call returns,
`Status.VMStatus` is the status of its result and, when the closing patch goes
through, the result is `RequeueAfter` = 10 seconds with a nil error. -/
theorem bootstrap_or_start (env : Env) (cluster : Option Cluster) (provider : ScvmmProviderSpec)
    (machine : Option Machine) (s : St) (vm : VMResult) (newspec : VMSpecResult)
    (b md nc : Option String)
    (hsess : createWinrmCmd env provider = .ok ())
    (hname : s.machine.Spec.VMName ≠ "")
    (hget : env.vmCall s.calls (Cmd.GetVM (escapeSingleQuotes s.machine.Spec.VMName)) = .ok vm)
    (hfound : vm.Name ≠ "") (hoff : vm.Status = "PowerOff")
    (hadd : env.specCall (atPowerOff s vm).calls (addVMSpecCmd (atPowerOff s vm)) = .ok newspec)
    (hok : newspec.Error = "")
    (hpatch : mergePersisted env (atPowerOff s vm) newspec = true)
    (hcheck : expandCheck (atBootstrap env s vm newspec).machine.Spec.Disks 0 vm.VirtualDisks
      false = some false)
    (hboot : bootstrapPayloads env machine (atBootstrap env s vm newspec).machine =
      some (b, md, nc)) :
    ((b ≠ none ∨ md ≠ none ∨ nc ≠ none) →
      env.writeCloudInit (atBootstrap env s vm newspec).machine provider vm.VMId
        (isoPath provider (atBootstrap env s vm newspec).machine) b md nc = none →
      (attachPatch env (atBootstrap env s vm newspec)).2 = none →
      (reconcileNormal env cluster provider machine s).st.calls =
        s.calls ++ [Cmd.GetVM (escapeSingleQuotes s.machine.Spec.VMName),
          addVMSpecCmd (atPowerOff s vm),
          addIsoCmd provider (atBootstrap env s vm newspec).machine] ∧
      ∀ vm2, env.vmCall (atBootstrap env s vm newspec).calls
          (addIsoCmd provider (atBootstrap env s vm newspec).machine) = .ok vm2 →
        (reconcileNormal env cluster provider machine s).st.machine.Status.VMStatus =
          vm2.Status ∧
        (closingPatchOk env ((attachPatch env (atBootstrap env s vm newspec)).1.call
            (addIsoCmd provider (atBootstrap env s vm newspec).machine)) vm2 = true →
          (reconcileNormal env cluster provider machine s).ret =
            .done { RequeueAfter := Second * 10 } none)) ∧
    ((b = none ∧ md = none ∧ nc = none) →
      (reconcileNormal env cluster provider machine s).st.calls =
        s.calls ++ [Cmd.GetVM (escapeSingleQuotes s.machine.Spec.VMName),
          addVMSpecCmd (atPowerOff s vm),
          startCmd (atBootstrap env s vm newspec).machine] ∧
      ∀ vm2, env.vmCall (atBootstrap env s vm newspec).calls
          (startCmd (atBootstrap env s vm newspec).machine) = .ok vm2 →
        (reconcileNormal env cluster provider machine s).st.machine.Status.VMStatus =
          vm2.Status ∧
        (closingPatchOk env ((atBootstrap env s vm newspec).call
            (startCmd (atBootstrap env s vm newspec).machine)) vm2 = true →
          (reconcileNormal env cluster provider machine s).ret =
            .done { RequeueAfter := Second * 10 } none)) := by
  rw [reconcileNormal_bootstrap env cluster provider machine s vm newspec hsess hname hget hfound
      hoff hadd hok hpatch hcheck,
    bootstrap_attachOrStart env cluster provider machine _ vm b md nc hboot]
  constructor
  · intro hany hwrite hp
    have hany2 : md ≠ none ∨ b ≠ none ∨ nc ≠ none := by tauto
    unfold attachPatch at hp
    unfold isoPath at hwrite
    have hspec : (attachPatch env (atBootstrap env s vm newspec)).1.machine.Spec =
        (atBootstrap env s vm newspec).machine.Spec := by
      unfold attachPatch
      simp
    have hcalls : (attachPatch env (atBootstrap env s vm newspec)).1.calls =
        (atBootstrap env s vm newspec).calls := by
      unfold attachPatch
      simp
    have heq : attachOrStart env provider (atBootstrap env s vm newspec) vm b md nc =
        addIsoToVM env (attachPatch env (atBootstrap env s vm newspec)).1
          (isoPath provider (atBootstrap env s vm newspec).machine) := by
      unfold attachOrStart
      rw [if_pos hany2]
      simp only [hwrite, hp]
      rfl
    rw [heq]
    unfold addIsoToVM
    simp only [hspec, hcalls]
    constructor
    · unfold addIsoCmd
      split
      · simp [hcalls]
      · simp [finishStart_calls, hcalls]
    · intro vm2 hcall
      unfold addIsoCmd at hcall ⊢
      simp only [hcall]
      exact ⟨finishStart_VMStatus _ _ _, fun h => finishStart_ret _ _ _ h⟩
  · intro hnone
    obtain ⟨h1, h2, h3⟩ := hnone
    subst h1 h2 h3
    have heq : attachOrStart env provider (atBootstrap env s vm newspec) vm none none none =
        startVM env (atBootstrap env s vm newspec) := by
      unfold attachOrStart
      simp
    rw [heq]
    unfold startVM
    dsimp only
    constructor
    · unfold startCmd
      split
      · simp
      · simp [finishStart_calls]
    · intro vm2 hcall
      unfold startCmd at hcall ⊢
      simp only [hcall]
      exact ⟨finishStart_VMStatus _ _ _, fun h => finishStart_ret _ _ _ h⟩

/-- Witness of C18 as amended: a standalone record with inline user data
gets the media attached, takes the status `Starting` and is requeued in 10
seconds. -/
theorem bootstrap_or_start_witness :
    (reconcileNormal bootEnv none testProvider none { machine := bootRecord }).st.calls.map
        Cmd.name = ["GetVM", "AddVMSpec", "AddIsoToVM"] ∧
    (reconcileNormal bootEnv none testProvider none
        { machine := bootRecord }).st.machine.Status.VMStatus = "Starting" ∧
    (reconcileNormal bootEnv none testProvider none { machine := bootRecord }).ret =
      .done { RequeueAfter := Second * 10 } none :=
  have h := (bootstrap_or_start bootEnv none testProvider none { machine := bootRecord }
    (powerOffResult []) {} (some "#cloud-config") none none rfl (by decide) rfl (by decide) rfl
    rfl rfl (by decide) (by decide) (by decide)).1 (by decide) rfl (by decide)
  ⟨by rw [h.1]; decide, (h.2 { Name := "vm1", Status := "Starting" } rfl).1,
    (h.2 { Name := "vm1", Status := "Starting" } rfl).2 (by decide)⟩

/-- C18, the claim as stated fails.  An owner whose bootstrap secret holds a
value of length zero has all three payloads empty, yet the media is attached
and the machine is not started.  With inline user data, when the media cannot
be written neither call is issued and an error is returned.  Without any
payload, when the closing patch is refused the start call is followed by an
error and not by a requeue in 10 seconds. -/
theorem bootstrap_or_start_counterexample :
    bootstrapPayloads emptySecretEnv (some ownerMachine) namedRecord =
      some (some "", none, none) ∧
    (reconcileNormal emptySecretEnv none testProvider (some ownerMachine)
        { machine := namedRecord }).st.calls.map Cmd.name = ["GetVM", "AddVMSpec", "AddIsoToVM"] ∧
    (reconcileNormal mediaFailsEnv none testProvider none
        { machine := bootRecord }).st.calls.map Cmd.name = ["GetVM", "AddVMSpec"] ∧
    (reconcileNormal mediaFailsEnv none testProvider none { machine := bootRecord }).ret =
      .done {} (some "WaitingForBootstrapData: library share full") ∧
    (reconcileNormal bootPatchFailsEnv none testProvider none
        { machine := namedRecord }).st.calls.map Cmd.name = ["GetVM", "AddVMSpec", "StartVM"] ∧
    (reconcileNormal bootPatchFailsEnv none testProvider none { machine := namedRecord }).ret =
      .done {} (some "conflict") := by
  decide


/-! ## Runs that differ in status or in messages only -/

theorem alike_refl (s : St) : St.Alike s s := ⟨⟨rfl, rfl⟩, rfl, rfl, rfl⟩

theorem alike_call {s1 s2 : St} (h : St.Alike s1 s2) (c : Cmd) :
    St.Alike (s1.call c) (s2.call c) := by
  obtain ⟨hm, hc, hp, hs⟩ := h
  exact ⟨hm, by simp [hc], hp, hs⟩

theorem alike_setMachine {s1 s2 : St} (h : St.Alike s1 s2) {m1 m2 : ScvmmMachine}
    (hm : sameRecord m1 m2) : St.Alike (s1.setMachine m1) (s2.setMachine m2) := by
  obtain ⟨_, hc, hp, hs⟩ := h
  exact ⟨hm, hc, hp, hs⟩

theorem alike_openSession {s1 s2 : St} (h : St.Alike s1 s2) :
    St.Alike s1.openSession s2.openSession := by
  obtain ⟨hm, hc, hp, hs⟩ := h
  exact ⟨hm, hc, hp, by simp [hs]⟩

theorem alike_patch {e1 e2 : Env} (he : sameWrites e1 e2) {s1 s2 : St} (h : St.Alike s1 s2) :
    St.Alike (patchScvmmMachine e1 s1).1 (patchScvmmMachine e2 s2).1 ∧
      (patchScvmmMachine e1 s1).2 = (patchScvmmMachine e2 s2).2 := by
  obtain ⟨hm, hc, hp, hs⟩ := h
  have hsum : sameRecord (setSummary e1 s1.machine) (setSummary e2 s2.machine) :=
    ⟨by simp [hm.1], by simp [hm.2]⟩
  refine ⟨⟨by simpa using hsum, by simp [hc], by simp [hp], by simp [hs]⟩, ?_⟩
  simp only [patch_result, hp]
  exact he.1 _ _ _ hsum

theorem sameRecord_MarkFalse {m1 m2 : ScvmmMachine} (h : sameRecord m1 m2) (e1 e2 : Env)
    (t : ConditionType) (r : String) (sev1 sev2 : ConditionSeverity) (msg1 msg2 : String)
    (args1 args2 : List String) :
    sameRecord (MarkFalse e1 m1 t r sev1 msg1 args1) (MarkFalse e2 m2 t r sev2 msg2 args2) :=
  ⟨by simp [h.1], by simp [h.2]⟩

theorem alike_prc {e1 e2 : Env} (he : sameWrites e1 e2) {s1 s2 : St} (h : St.Alike s1 s2)
    (rq : Int) (err : Option String) (c : ConditionType) (r msg1 msg2 : String)
    (args1 args2 : List String) :
    Outcome.Alike (patchReasonCondition e1 s1 rq err c r msg1 args1)
      (patchReasonCondition e2 s2 rq err c r msg2 args2) := by
  constructor
  · rw [prc_st, prc_st]
    have hm : sameRecord { s1.machine with Status.Ready := false }
        { s2.machine with Status.Ready := false } := ⟨h.1.1, h.1.2⟩
    exact (alike_patch he (alike_setMachine h (sameRecord_MarkFalse hm _ _ _ _ _ _
      _ _ _ _))).1
  · rw [prc_ret, prc_ret]

theorem vmCall_cases {e1 e2 : Env} (h : sameButMessage e1 e2) (calls : List Cmd) (c : Cmd) :
    (∃ e, e1.vmCall calls c = .error e ∧ e2.vmCall calls c = .error e) ∨
    (∃ vm1 vm2, e1.vmCall calls c = .ok vm1 ∧ e2.vmCall calls c = .ok vm2 ∧
      vm1.eraseMessage = vm2.eraseMessage) := by
  have h0 := h.1 calls c
  cases h1 : e1.vmCall calls c with
  | error a =>
    cases h2 : e2.vmCall calls c with
    | error b =>
      rw [h1, h2] at h0
      simp only [Except.map, Except.error.injEq] at h0
      exact Or.inl ⟨a, rfl, by rw [h0]⟩
    | ok b =>
      rw [h1, h2] at h0
      simp [Except.map] at h0
  | ok a =>
    cases h2 : e2.vmCall calls c with
    | error b =>
      rw [h1, h2] at h0
      simp [Except.map] at h0
    | ok b =>
      rw [h1, h2] at h0
      simp only [Except.map, Except.ok.injEq] at h0
      exact Or.inr ⟨a, b, rfl, rfl, h0⟩

theorem specCall_cases {e1 e2 : Env} (h : sameButMessage e1 e2) (calls : List Cmd) (c : Cmd) :
    (∃ e, e1.specCall calls c = .error e ∧ e2.specCall calls c = .error e) ∨
    (∃ r1 r2, e1.specCall calls c = .ok r1 ∧ e2.specCall calls c = .ok r2 ∧
      r1.eraseMessage = r2.eraseMessage) := by
  have h0 := h.2.1 calls c
  cases h1 : e1.specCall calls c with
  | error a =>
    cases h2 : e2.specCall calls c with
    | error b =>
      rw [h1, h2] at h0
      simp only [Except.map, Except.error.injEq] at h0
      exact Or.inl ⟨a, rfl, by rw [h0]⟩
    | ok b =>
      rw [h1, h2] at h0
      simp [Except.map] at h0
  | ok a =>
    cases h2 : e2.specCall calls c with
    | error b =>
      rw [h1, h2] at h0
      simp [Except.map] at h0
    | ok b =>
      rw [h1, h2] at h0
      simp only [Except.map, Except.ok.injEq] at h0
      exact Or.inr ⟨a, b, rfl, rfl, h0⟩

theorem eraseMessage_fields {vm1 vm2 : VMResult} (h : vm1.eraseMessage = vm2.eraseMessage) :
    vm1.Name = vm2.Name ∧ vm1.Status = vm2.Status ∧ vm1.Error = vm2.Error ∧
    vm1.VMId = vm2.VMId ∧ vm1.IPv4Addresses = vm2.IPv4Addresses ∧
    vm1.Hostname = vm2.Hostname ∧ vm1.VirtualDisks = vm2.VirtualDisks :=
  by
  have h1 := congrArg VMResult.Name h
  have h2 := congrArg VMResult.Status h
  have h3 := congrArg VMResult.Error h
  have h4 := congrArg VMResult.VMId h
  have h5 := congrArg VMResult.IPv4Addresses h
  have h6 := congrArg VMResult.Hostname h
  have h7 := congrArg VMResult.VirtualDisks h
  exact ⟨h1, h2, h3, h4, h5, h6, h7⟩

theorem eraseSpecMessage_fields {r1 r2 : VMSpecResult} (h : r1.eraseMessage = r2.eraseMessage) :
    r1.ScvmmMachineSpec = r2.ScvmmMachineSpec ∧ r1.Error = r2.Error :=
  by
  have h1 := congrArg VMSpecResult.ScvmmMachineSpec h
  have h2 := congrArg VMSpecResult.Error h
  exact ⟨h1, h2⟩

theorem alike_finishStart {e1 e2 : Env} (he : sameWrites e1 e2) {s1 s2 : St}
    (h : St.Alike s1 s2) (vm1 vm2 : VMResult) :
    Outcome.Alike (finishStart e1 s1 vm1) (finishStart e2 s2 vm2) := by
  have hm : sameRecord { s1.machine with Status.VMStatus := vm1.Status }
      { s2.machine with Status.VMStatus := vm2.Status } := ⟨h.1.1, h.1.2⟩
  have hp := alike_patch he (alike_setMachine h hm)
  unfold finishStart
  dsimp only
  rw [← hp.2]
  cases (patchScvmmMachine e1 (s1.setMachine
    { s1.machine with Status.VMStatus := vm1.Status })).2 with
  | some perr => exact ⟨hp.1, rfl⟩
  | none => exact ⟨hp.1, rfl⟩

theorem alike_addIsoToVM {e1 e2 : Env} (he : sameButMessage e1 e2) {s1 s2 : St}
    (h : St.Alike s1 s2) (isoPath : String) :
    Outcome.Alike (addIsoToVM e1 s1 isoPath) (addIsoToVM e2 s2 isoPath) := by
  unfold addIsoToVM
  dsimp only
  rw [h.1.2, h.2.1]
  rcases vmCall_cases he s2.calls (Cmd.AddIsoToVM (escapeSingleQuotes s2.machine.Spec.VMName)
    (escapeSingleQuotes isoPath)) with ⟨e, h1, h2⟩ | ⟨vm1, vm2, h1, h2, _⟩
  · rw [h1, h2]
    exact ⟨alike_call h _, rfl⟩
  · rw [h1, h2]
    exact alike_finishStart he.2.2.2.2.2.2 (alike_call h _) vm1 vm2

theorem alike_startVM {e1 e2 : Env} (he : sameButMessage e1 e2) {s1 s2 : St}
    (h : St.Alike s1 s2) :
    Outcome.Alike (startVM e1 s1) (startVM e2 s2) := by
  unfold startVM
  dsimp only
  rw [h.1.2, h.2.1]
  rcases vmCall_cases he s2.calls (Cmd.StartVM (escapeSingleQuotes s2.machine.Spec.VMName))
    with ⟨e, h1, h2⟩ | ⟨vm1, vm2, h1, h2, _⟩
  · rw [h1, h2]
    exact ⟨alike_call h _, rfl⟩
  · rw [h1, h2]
    exact alike_finishStart he.2.2.2.2.2.2 (alike_call h _) vm1 vm2

theorem alike_attachOrStart {e1 e2 : Env} (he : sameButMessage e1 e2) {s1 s2 : St}
    (h : St.Alike s1 s2) (provider : ScvmmProviderSpec) (vm1 vm2 : VMResult)
    (hv : vm1.VMId = vm2.VMId) (b md nc : Option String) :
    Outcome.Alike (attachOrStart e1 provider s1 vm1 b md nc)
      (attachOrStart e2 provider s2 vm2 b md nc) := by
  have hw := he.2.2.2.2.2.2
  unfold attachOrStart
  by_cases hany : md ≠ none ∨ b ≠ none ∨ nc ≠ none
  · rw [if_pos hany, if_pos hany]
    dsimp only
    rw [h.1.2, hv, hw.2 s1.machine s2.machine provider vm2.VMId _ b md nc h.1]
    cases e2.writeCloudInit s2.machine provider vm2.VMId (provider.ScvmmLibraryISOs ++ backslash ++
      s2.machine.Spec.VMName ++ "-cloud-init.iso") b md nc with
    | some e => exact alike_prc hw h _ _ _ _ _ _ _ _
    | none =>
      dsimp only
      have hp := alike_patch hw (alike_setMachine h (sameRecord_MarkFalse h.1 e1 e2 VmRunning
        VmStartingReason ConditionSeverity.ConditionSeverityInfo
        ConditionSeverity.ConditionSeverityInfo "" "" [] []))
      rw [← hp.2]
      cases (patchScvmmMachine e1 (s1.setMachine (MarkFalse e1 s1.machine VmRunning
        VmStartingReason ConditionSeverity.ConditionSeverityInfo "" []))).2 with
      | some perr => exact ⟨hp.1, rfl⟩
      | none => exact alike_addIsoToVM he hp.1 _
  · rw [if_neg hany, if_neg hany]
    exact alike_startVM he h

theorem getBootstrapData_congr {e1 e2 : Env} (h : e1.getSecret = e2.getSecret) (mc : Machine) :
    getBootstrapData e1 mc = getBootstrapData e2 mc := by
  unfold getBootstrapData
  rw [h]

theorem alike_bootstrap {e1 e2 : Env} (he : sameButMessage e1 e2) {s1 s2 : St}
    (h : St.Alike s1 s2) (cluster : Option Cluster) (provider : ScvmmProviderSpec)
    (machine : Option Machine) (vm1 vm2 : VMResult) (hv : vm1.VMId = vm2.VMId) :
    Outcome.Alike (bootstrap e1 cluster provider machine s1 vm1)
      (bootstrap e2 cluster provider machine s2 vm2) := by
  have hw := he.2.2.2.2.2.2
  unfold bootstrap
  cases machine with
  | some mc =>
    dsimp only
    rw [getBootstrapData_congr he.2.2.2.1 mc]
    cases mc.DataSecretName with
    | none =>
      dsimp only
      by_cases hc : IsControlPlaneMachine mc = true
      · rw [if_pos hc, if_pos hc]
        exact alike_prc hw h _ _ _ _ _ _ _ _
      · rw [if_neg hc, if_neg hc]
        cases cluster with
        | none => exact ⟨h, rfl⟩
        | some cl =>
          dsimp only
          by_cases hi : (!conditionsIsTrue cl.Conditions ControlPlaneInitializedCondition) = true
          · rw [if_pos hi, if_pos hi]
            exact alike_prc hw h _ _ _ _ _ _ _ _
          · rw [if_neg hi, if_neg hi]
            exact alike_prc hw h _ _ _ _ _ _ _ _
    | some n =>
      dsimp only
      cases getBootstrapData e2 mc with
      | error e => exact alike_prc hw h _ _ _ _ _ _ _ _
      | ok bd => exact alike_attachOrStart he h provider vm1 vm2 hv _ _ _
  | none =>
    dsimp only
    rw [h.1.2]
    cases s2.machine.Spec.CloudInit with
    | some ci => exact alike_attachOrStart he h provider vm1 vm2 hv _ _ _
    | none => exact alike_attachOrStart he h provider vm1 vm2 hv _ _ _

theorem makeDisksJSON_congr {e1 e2 : Env} (h : e1.marshalDisks = e2.marshalDisks)
    (disks : List VmDisk) : makeDisksJSON e1 disks = makeDisksJSON e2 disks := by
  unfold makeDisksJSON
  rw [h]

theorem expandCmd_congr {e1 e2 : Env} (h : e1.marshalDisks = e2.marshalDisks)
    (spec : ScvmmMachineSpec) : expandCmd e1 spec = expandCmd e2 spec := by
  unfold expandCmd
  rw [makeDisksJSON_congr h]

theorem createVMCmd_congr {e1 e2 : Env} (h : e1.marshalDisks = e2.marshalDisks)
    (spec : ScvmmMachineSpec) (vmName : String) :
    createVMCmd e1 spec vmName = createVMCmd e2 spec vmName := by
  unfold createVMCmd
  rw [makeDisksJSON_congr h]

theorem sameRecord_fillStatus {m1 m2 : ScvmmMachine} (h : sameRecord m1 m2) (r1 r2 : Bool)
    (vm1 vm2 : VMResult) : sameRecord (fillStatus m1 r1 vm1) (fillStatus m2 r2 vm2) :=
  ⟨h.1, h.2⟩

theorem alike_expandVMDisks {e1 e2 : Env} (he : sameButMessage e1 e2) {s1 s2 : St}
    (h : St.Alike s1 s2) :
    Outcome.Alike (expandVMDisks e1 s1) (expandVMDisks e2 s2) := by
  have hw := he.2.2.2.2.2.2
  unfold expandVMDisks
  dsimp only
  rw [h.1.2, h.2.1, expandCmd_congr he.2.2.2.2.2.1]
  rcases vmCall_cases he s2.calls (expandCmd e2 s2.machine.Spec)
    with ⟨e, h1, h2⟩ | ⟨vm1, vm2, h1, h2, hv⟩
  · rw [h1, h2]
    exact alike_prc hw (alike_call h _) _ _ _ _ _ _ _ _
  · rw [h1, h2]
    dsimp only
    rw [(eraseMessage_fields hv).2.2.1]
    by_cases herr : vm2.Error ≠ ""
    · rw [if_pos herr, if_pos herr]
      exact alike_prc hw (alike_call h _) _ _ _ _ _ _ _ _
    · rw [if_neg herr, if_neg herr]
      exact alike_prc hw (alike_setMachine (alike_call h _)
        (sameRecord_fillStatus h.1 false false vm1 vm2)) _ _ _ _ _ _ _ _

theorem alike_expandOrBootstrap {e1 e2 : Env} (he : sameButMessage e1 e2) {s1 s2 : St}
    (h : St.Alike s1 s2) (cluster : Option Cluster) (provider : ScvmmProviderSpec)
    (machine : Option Machine) (vm1 vm2 : VMResult) (hv : vm1.eraseMessage = vm2.eraseMessage) :
    Outcome.Alike (expandOrBootstrap e1 cluster provider machine s1 vm1)
      (expandOrBootstrap e2 cluster provider machine s2 vm2) := by
  unfold expandOrBootstrap
  rw [h.1.2, (eraseMessage_fields hv).2.2.2.2.2.2]
  cases expandCheck s2.machine.Spec.Disks 0 vm2.VirtualDisks false with
  | none => exact ⟨h, rfl⟩
  | some b =>
    cases b with
    | true => exact alike_expandVMDisks he h
    | false =>
      exact alike_bootstrap he h cluster provider machine vm1 vm2
        (eraseMessage_fields hv).2.2.2.1

theorem alike_mergeSpec {e1 e2 : Env} (he : sameButMessage e1 e2) {s1 s2 : St}
    (h : St.Alike s1 s2) (cluster : Option Cluster) (provider : ScvmmProviderSpec)
    (machine : Option Machine) (vm1 vm2 : VMResult) (hv : vm1.eraseMessage = vm2.eraseMessage)
    (r1 r2 : VMSpecResult) (hr : r1.eraseMessage = r2.eraseMessage) :
    Outcome.Alike (mergeSpec e1 cluster provider machine s1 vm1 r1)
      (mergeSpec e2 cluster provider machine s2 vm2 r2) := by
  have hw := he.2.2.2.2.2.2
  unfold mergeSpec
  dsimp only
  rw [h.1.2, (eraseSpecMessage_fields hr).1, he.2.2.2.2.1]
  have hm : sameRecord
      { s1.machine with Spec := (e2.copyNonZeroTo r2.ScvmmMachineSpec s2.machine.Spec).1 }
      { s2.machine with Spec := (e2.copyNonZeroTo r2.ScvmmMachineSpec s2.machine.Spec).1 } :=
    ⟨h.1.1, rfl⟩
  have hs := alike_setMachine h hm
  by_cases hch : (e2.copyNonZeroTo r2.ScvmmMachineSpec s2.machine.Spec).2 = true
  · rw [if_pos hch, if_pos hch]
    have hp := alike_patch hw hs
    rw [← hp.2]
    cases (patchScvmmMachine e1 (s1.setMachine { s1.machine with
      Spec := (e2.copyNonZeroTo r2.ScvmmMachineSpec s2.machine.Spec).1 })).2 with
    | some perr => exact ⟨hp.1, rfl⟩
    | none => exact alike_expandOrBootstrap he hp.1 cluster provider machine vm1 vm2 hv
  · rw [if_neg hch, if_neg hch]
    exact alike_expandOrBootstrap he hs cluster provider machine vm1 vm2 hv

theorem alike_powerOff {e1 e2 : Env} (he : sameButMessage e1 e2) {s1 s2 : St}
    (h : St.Alike s1 s2) (cluster : Option Cluster) (provider : ScvmmProviderSpec)
    (machine : Option Machine) (vm1 vm2 : VMResult) (hv : vm1.eraseMessage = vm2.eraseMessage) :
    Outcome.Alike (powerOff e1 cluster provider machine s1 vm1)
      (powerOff e2 cluster provider machine s2 vm2) := by
  have hw := he.2.2.2.2.2.2
  unfold powerOff
  dsimp only
  rw [h.1.2, h.1.1, h.2.1]
  rcases specCall_cases he s2.calls (Cmd.AddVMSpec s2.machine.Spec s2.machine.ObjectMeta)
    with ⟨e, h1, h2⟩ | ⟨r1, r2, h1, h2, hr⟩
  · rw [h1, h2]
    exact alike_prc hw (alike_call h _) _ _ _ _ _ _ _ _
  · rw [h1, h2]
    dsimp only
    rw [(eraseSpecMessage_fields hr).2]
    by_cases herr : r2.Error ≠ ""
    · rw [if_pos herr, if_pos herr]
      exact alike_prc hw (alike_call h _) _ _ _ _ _ _ _ _
    · rw [if_neg herr, if_neg herr]
      exact alike_mergeSpec he (alike_call h _) cluster provider machine vm1 vm2 hv r1 r2 hr

theorem alike_readVM {e1 e2 : Env} (he : sameButMessage e1 e2) {s1 s2 : St}
    (h : St.Alike s1 s2) : Outcome.Alike (readVM e1 s1) (readVM e2 s2) := by
  unfold readVM
  dsimp only
  rw [h.1.2, h.2.1]
  rcases vmCall_cases he s2.calls (Cmd.ReadVM (escapeSingleQuotes s2.machine.Spec.VMName))
    with ⟨e, h1, h2⟩ | ⟨vm1, vm2, h1, h2, _⟩
  · rw [h1, h2]
    exact ⟨alike_call h _, rfl⟩
  · rw [h1, h2]
    exact ⟨alike_call h _, rfl⟩

theorem sameRecord_fillAddresses {m1 m2 : ScvmmMachine} (h : sameRecord m1 m2)
    (vm1 vm2 : VMResult) : sameRecord (fillAddresses m1 vm1) (fillAddresses m2 vm2) :=
  ⟨by simp [h.1], by simp [h.2]⟩

theorem sameRecord_MarkTrue {m1 m2 : ScvmmMachine} (h : sameRecord m1 m2) (t : ConditionType) :
    sameRecord (MarkTrue m1 t) (MarkTrue m2 t) :=
  ⟨by simp [h.1], by simp [h.2]⟩

theorem alike_running {e1 e2 : Env} (he : sameButMessage e1 e2) {s1 s2 : St}
    (h : St.Alike s1 s2) (vm1 vm2 : VMResult) (hv : vm1.eraseMessage = vm2.eraseMessage) :
    Outcome.Alike (running e1 s1 vm1) (running e2 s2 vm2) := by
  have hw := he.2.2.2.2.2.2
  obtain ⟨_, hst, _, _, hip, hhost, _⟩ := eraseMessage_fields hv
  unfold running
  rw [hst, hip, hhost]
  by_cases hrun : vm2.Status ≠ "Running"
  · rw [if_pos hrun, if_pos hrun]
    exact alike_prc hw h _ _ _ _ _ _ _ _
  · rw [if_neg hrun, if_neg hrun]
    dsimp only
    have hready : sameRecord { s1.machine with Status.Ready := true }
        { s2.machine with Status.Ready := true } := ⟨h.1.1, h.1.2⟩
    have hp := alike_patch hw (alike_setMachine h (sameRecord_MarkTrue
      (sameRecord_fillAddresses hready vm1 vm2) VmRunning))
    rw [← hp.2]
    cases (patchScvmmMachine e1 (s1.setMachine (MarkTrue
      (fillAddresses { s1.machine with Status.Ready := true } vm1) VmRunning))).2 with
    | some perr => exact ⟨hp.1, rfl⟩
    | none =>
      dsimp only
      by_cases hmiss : vm2.IPv4Addresses = none ∨ vm2.Hostname = ""
      · rw [if_pos hmiss, if_pos hmiss]
        exact alike_readVM he hp.1
      · rw [if_neg hmiss, if_neg hmiss]
        exact ⟨hp.1, rfl⟩

theorem sameRecord_setProviderID {m1 m2 : ScvmmMachine} (h : sameRecord m1 m2)
    (vm1 vm2 : VMResult) (hv : vm1.VMId = vm2.VMId) :
    sameRecord (setProviderID m1 vm1) (setProviderID m2 vm2) := by
  unfold setProviderID
  rw [hv]
  by_cases hid : vm2.VMId ≠ ""
  · rw [if_pos hid, if_pos hid]
    exact ⟨h.1, by rw [h.2]⟩
  · rw [if_neg hid, if_neg hid]
    exact h

theorem alike_fillFound {s1 s2 : St} (h : St.Alike s1 s2) (vm1 vm2 : VMResult)
    (hv : vm1.VMId = vm2.VMId) : St.Alike (fillFound s1 vm1) (fillFound s2 vm2) := by
  unfold fillFound
  exact alike_setMachine h (sameRecord_fillStatus
    (sameRecord_setProviderID (sameRecord_MarkTrue h.1 VmCreated) vm1 vm2 hv) _ _ vm1 vm2)

theorem alike_found {e1 e2 : Env} (he : sameButMessage e1 e2) {s1 s2 : St}
    (h : St.Alike s1 s2) (cluster : Option Cluster) (provider : ScvmmProviderSpec)
    (machine : Option Machine) (vm1 vm2 : VMResult) (hv : vm1.eraseMessage = vm2.eraseMessage) :
    Outcome.Alike (found e1 cluster provider machine s1 vm1)
      (found e2 cluster provider machine s2 vm2) := by
  have hf := alike_fillFound h vm1 vm2 (eraseMessage_fields hv).2.2.2.1
  unfold found
  rw [(eraseMessage_fields hv).2.1]
  by_cases hoff : vm2.Status = "PowerOff"
  · rw [if_pos hoff, if_pos hoff]
    exact alike_powerOff he hf cluster provider machine vm1 vm2 hv
  · rw [if_neg hoff, if_neg hoff]
    exact alike_running he hf vm1 vm2 hv

theorem alike_createVMCall {e1 e2 : Env} (he : sameButMessage e1 e2) {s1 s2 : St}
    (h : St.Alike s1 s2) (vmName : String) :
    Outcome.Alike (createVMCall e1 s1 vmName) (createVMCall e2 s2 vmName) := by
  have hw := he.2.2.2.2.2.2
  unfold createVMCall
  dsimp only
  rw [h.1.2, h.2.1, createVMCmd_congr he.2.2.2.2.2.1]
  rcases vmCall_cases he s2.calls (createVMCmd e2 s2.machine.Spec vmName)
    with ⟨e, h1, h2⟩ | ⟨vm1, vm2, h1, h2, hv⟩
  · rw [h1, h2]
    exact alike_prc hw (alike_call h _) _ _ _ _ _ _ _ _
  · rw [h1, h2]
    dsimp only
    rw [(eraseMessage_fields hv).2.2.1]
    by_cases herr : vm2.Error ≠ ""
    · rw [if_pos herr, if_pos herr]
      exact alike_prc hw (alike_call h _) _ _ _ _ _ _ _ _
    · rw [if_neg herr, if_neg herr]
      refine alike_prc hw (alike_setMachine (alike_call h _) ?_) _ _ _ _ _ _ _ _
      refine sameRecord_fillStatus (sameRecord_setProviderID ?_ vm1 vm2
        (eraseMessage_fields hv).2.2.2.1) false false vm1 vm2
      exact ⟨h.1.1, rfl⟩

theorem alike_createVM {e1 e2 : Env} (he : sameButMessage e1 e2) {s1 s2 : St}
    (h : St.Alike s1 s2) (vmName : String) :
    Outcome.Alike (createVM e1 s1 vmName) (createVM e2 s2 vmName) := by
  have hw := he.2.2.2.2.2.2
  unfold createVM
  rw [h.1.2, h.2.1]
  cases s2.machine.Spec.ActiveDirectory with
  | none => exact alike_createVMCall he h vmName
  | some adspec =>
    dsimp only
    rcases vmCall_cases he s2.calls (Cmd.CreateADComputer (escapeSingleQuotes vmName)
      (escapeSingleQuotes adspec.OUPath) (escapeSingleQuotes adspec.DomainController)
      (escapeSingleQuotes adspec.Description) (escapeSingleQuotesArray adspec.MemberOf))
      with ⟨e, h1, h2⟩ | ⟨vm1, vm2, h1, h2, hv⟩
    · rw [h1, h2]
      exact alike_prc hw (alike_call h _) _ _ _ _ _ _ _ _
    · rw [h1, h2]
      dsimp only
      rw [(eraseMessage_fields hv).2.2.1]
      by_cases herr : vm2.Error ≠ ""
      · rw [if_pos herr, if_pos herr]
        exact alike_prc hw (alike_call h _) _ _ _ _ _ _ _ _
      · rw [if_neg herr, if_neg herr]
        exact alike_createVMCall he (alike_call h _) vmName

theorem alike_notFound {e1 e2 : Env} (he : sameButMessage e1 e2) {s1 s2 : St}
    (h : St.Alike s1 s2) : Outcome.Alike (notFound e1 s1) (notFound e2 s2) := by
  have hw := he.2.2.2.2.2.2
  unfold notFound
  rw [h.1.2, h.1.1, h.2.1]
  by_cases hname : s2.machine.Spec.VMName = ""
  · rw [if_pos hname, if_pos hname]
    dsimp only
    rcases specCall_cases he s2.calls (Cmd.GenerateVMName s2.machine.Spec s2.machine.ObjectMeta)
      with ⟨e, h1, h2⟩ | ⟨r1, r2, h1, h2, hr⟩
    · rw [h1, h2]
      exact alike_prc hw (alike_call h _) _ _ _ _ _ _ _ _
    · rw [h1, h2]
      dsimp only
      rw [(eraseSpecMessage_fields hr).2, (eraseSpecMessage_fields hr).1]
      by_cases herr : r2.Error ≠ ""
      · rw [if_pos herr, if_pos herr]
        exact alike_prc hw (alike_call h _) _ _ _ _ _ _ _ _
      · rw [if_neg herr, if_neg herr]
        by_cases hgen : r2.ScvmmMachineSpec.VMName = ""
        · rw [if_pos hgen, if_pos hgen]
          exact alike_prc hw (alike_call h _) _ _ _ _ _ _ _ _
        · rw [if_neg hgen, if_neg hgen]
          exact alike_createVM he (alike_call h _) _
  · rw [if_neg hname, if_neg hname]
    exact alike_createVM he h _

theorem alike_afterDiscovery {e1 e2 : Env} (he : sameButMessage e1 e2) {s1 s2 : St}
    (h : St.Alike s1 s2) (cluster : Option Cluster) (provider : ScvmmProviderSpec)
    (machine : Option Machine) (vm1 vm2 : VMResult) (hv : vm1.eraseMessage = vm2.eraseMessage) :
    Outcome.Alike (afterDiscovery e1 cluster provider machine s1 vm1)
      (afterDiscovery e2 cluster provider machine s2 vm2) := by
  unfold afterDiscovery
  rw [(eraseMessage_fields hv).1]
  by_cases hname : vm2.Name = ""
  · rw [if_pos hname, if_pos hname]
    exact alike_notFound he h
  · rw [if_neg hname, if_neg hname]
    exact alike_found he h cluster provider machine vm1 vm2 hv

theorem alike_discover {e1 e2 : Env} (he : sameButMessage e1 e2) {s1 s2 : St}
    (h : St.Alike s1 s2) (cluster : Option Cluster) (provider : ScvmmProviderSpec)
    (machine : Option Machine) :
    Outcome.Alike (discover e1 cluster provider machine s1)
      (discover e2 cluster provider machine s2) := by
  unfold discover
  rw [h.1.2, h.2.1]
  by_cases hname : s2.machine.Spec.VMName ≠ ""
  · rw [if_pos hname, if_pos hname]
    dsimp only
    rcases vmCall_cases he s2.calls (Cmd.GetVM (escapeSingleQuotes s2.machine.Spec.VMName))
      with ⟨e, h1, h2⟩ | ⟨vm1, vm2, h1, h2, hv⟩
    · rw [h1, h2]
      exact ⟨alike_call h _, rfl⟩
    · rw [h1, h2]
      exact alike_afterDiscovery he (alike_call h _) cluster provider machine vm1 vm2 hv
  · rw [if_neg hname, if_neg hname]
    exact alike_afterDiscovery he h cluster provider machine _ _ rfl

theorem alike_reconcileNormal {e1 e2 : Env} (he : sameButMessage e1 e2) {s1 s2 : St}
    (h : St.Alike s1 s2) (cluster : Option Cluster) (provider : ScvmmProviderSpec)
    (machine : Option Machine) :
    Outcome.Alike (reconcileNormal e1 cluster provider machine s1)
      (reconcileNormal e2 cluster provider machine s2) := by
  unfold reconcileNormal
  rw [he.2.2.1 provider]
  cases createWinrmCmd e2 provider with
  | panic msg => exact ⟨alike_openSession h, rfl⟩
  | err e => exact ⟨alike_openSession h, rfl⟩
  | ok u => exact alike_discover he (alike_openSession h) cluster provider machine

theorem alike_removeFinalizer {e1 e2 : Env} (he : sameWrites e1 e2) {s1 s2 : St}
    (h : St.Alike s1 s2) : Outcome.Alike (removeFinalizer e1 s1) (removeFinalizer e2 s2) := by
  have hm : sameRecord (RemoveFinalizer s1.machine MachineFinalizer)
      (RemoveFinalizer s2.machine MachineFinalizer) := by
    unfold RemoveFinalizer
    exact ⟨by rw [h.1.1], h.1.2⟩
  have hp := alike_patch he (alike_setMachine h hm)
  unfold removeFinalizer
  dsimp only
  rw [← hp.2]
  cases (patchScvmmMachine e1 (s1.setMachine (RemoveFinalizer s1.machine MachineFinalizer))).2 with
  | some perr => exact ⟨hp.1, rfl⟩
  | none => exact ⟨hp.1, rfl⟩

theorem alike_removed {e1 e2 : Env} (he : sameButMessage e1 e2) {s1 s2 : St}
    (h : St.Alike s1 s2) : Outcome.Alike (removed e1 s1) (removed e2 s2) := by
  have hw := he.2.2.2.2.2.2
  unfold removed
  rw [h.1.2, h.2.1]
  cases s2.machine.Spec.ActiveDirectory with
  | none => exact alike_removeFinalizer hw h
  | some adspec =>
    dsimp only
    rcases vmCall_cases he s2.calls (Cmd.RemoveADComputer
      (escapeSingleQuotes s2.machine.Spec.VMName) (escapeSingleQuotes adspec.OUPath)
      (escapeSingleQuotes adspec.DomainController)) with ⟨e, h1, h2⟩ | ⟨vm1, vm2, h1, h2, hv⟩
    · rw [h1, h2]
      exact alike_prc hw (alike_call h _) _ _ _ _ _ _ _ _
    · rw [h1, h2]
      dsimp only
      rw [(eraseMessage_fields hv).2.2.1]
      by_cases herr : vm2.Error ≠ ""
      · rw [if_pos herr, if_pos herr]
        exact alike_prc hw (alike_call h _) _ _ _ _ _ _ _ _
      · rw [if_neg herr, if_neg herr]
        exact alike_removeFinalizer hw (alike_call h _)

theorem alike_removeVM {e1 e2 : Env} (he : sameButMessage e1 e2) (hrem : sameRemoved e1 e2)
    {s1 s2 : St} (h : St.Alike s1 s2) : Outcome.Alike (removeVM e1 s1) (removeVM e2 s2) := by
  have hw := he.2.2.2.2.2.2
  unfold removeVM
  dsimp only
  rw [h.1.2, h.2.1]
  rcases vmCall_cases he s2.calls (Cmd.RemoveVM (escapeSingleQuotes s2.machine.Spec.VMName))
    with ⟨e, h1, h2⟩ | ⟨vm1, vm2, h1, h2, hv⟩
  · rw [h1, h2]
    exact alike_prc hw (alike_call h _) _ _ _ _ _ _ _ _
  · have hmsg := hrem _ _ _ _ h1 h2
    rw [h1, h2]
    dsimp only
    rw [(eraseMessage_fields hv).2.2.1]
    by_cases herr : vm2.Error ≠ ""
    · rw [if_pos herr, if_pos herr]
      exact alike_prc hw (alike_call h _) _ _ _ _ _ _ _ _
    · rw [if_neg herr, if_neg herr]
      by_cases hdone : vm2.Message = "Removed"
      · rw [if_pos (hmsg.2 hdone), if_pos hdone]
        exact alike_removed he (alike_call h _)
      · rw [if_neg (fun hx => hdone (hmsg.1 hx)), if_neg hdone]
        refine alike_prc hw (alike_setMachine (alike_call h _) ?_) _ _ _ _ _ _ _ _
        exact ⟨h.1.1, rfl⟩

theorem alike_deleteVM {e1 e2 : Env} (he : sameButMessage e1 e2) (hrem : sameRemoved e1 e2)
    {s1 s2 : St} (h : St.Alike s1 s2) (provider : ScvmmProviderSpec) :
    Outcome.Alike (deleteVM e1 provider s1) (deleteVM e2 provider s2) := by
  have hw := he.2.2.2.2.2.2
  have hp := alike_patch hw (alike_setMachine h (sameRecord_MarkFalse h.1 e1 e2 VmCreated
    VmDeletingReason ConditionSeverity.ConditionSeverityInfo
    ConditionSeverity.ConditionSeverityInfo "" "" [] []))
  unfold deleteVM
  dsimp only
  rw [← hp.2, he.2.2.1 provider]
  cases (patchScvmmMachine e1 (s1.setMachine (MarkFalse e1 s1.machine VmCreated
    VmDeletingReason ConditionSeverity.ConditionSeverityInfo "" []))).2 with
  | some perr => exact ⟨hp.1, rfl⟩
  | none =>
    dsimp only
    cases createWinrmCmd e2 provider with
    | panic msg => exact ⟨alike_openSession hp.1, rfl⟩
    | err e => exact ⟨alike_openSession hp.1, rfl⟩
    | ok u => exact alike_removeVM he hrem (alike_openSession hp.1)

theorem alike_reconcileDelete {e1 e2 : Env} (he : sameButMessage e1 e2)
    (hrem : sameRemoved e1 e2) {s1 s2 : St} (h : St.Alike s1 s2)
    (provider : ScvmmProviderSpec) :
    Outcome.Alike (reconcileDelete e1 provider s1) (reconcileDelete e2 provider s2) := by
  have hfin : ContainsFinalizer s1.machine MachineFinalizer =
      ContainsFinalizer s2.machine MachineFinalizer := by
    unfold ContainsFinalizer
    rw [h.1.1]
  unfold reconcileDelete
  rw [hfin, h.1.2]
  by_cases hc : (!ContainsFinalizer s2.machine MachineFinalizer) = true
  · rw [if_pos hc, if_pos hc]
    exact ⟨h, rfl⟩
  · rw [if_neg hc, if_neg hc]
    by_cases hname : s2.machine.Spec.VMName = ""
    · rw [if_pos hname, if_pos hname]
      exact alike_removeFinalizer he.2.2.2.2.2.2 h
    · rw [if_neg hname, if_neg hname]
      exact alike_deleteVM he hrem h provider


/-! ## Message and control -/

/-- C14 as amended, what `Message` steers.  For every record and every two
runs whose remote results are equal except for the `Message` fields (and in
which each patch and each write of the cloud-init media has the same outcome),
`reconcileNormal` makes the same decisions: the same remote calls in the same
order, the same finalizer presence afterwards and the same returned pair
(requeue directive and error).  `reconcileDelete` does so provided the results
of `RemoveVM` in the two runs agree on whether `Message` is `Removed`. -/
theorem message_steers_removal_only (e1 e2 : Env) (cluster : Option Cluster)
    (provider : ScvmmProviderSpec) (machine : Option Machine) (s : St)
    (he : sameButMessage e1 e2) :
    ((reconcileNormal e1 cluster provider machine s).st.calls =
        (reconcileNormal e2 cluster provider machine s).st.calls ∧
      ContainsFinalizer (reconcileNormal e1 cluster provider machine s).st.machine
          MachineFinalizer =
        ContainsFinalizer (reconcileNormal e2 cluster provider machine s).st.machine
          MachineFinalizer ∧
      (reconcileNormal e1 cluster provider machine s).ret =
        (reconcileNormal e2 cluster provider machine s).ret) ∧
    (sameRemoved e1 e2 →
      (reconcileDelete e1 provider s).st.calls = (reconcileDelete e2 provider s).st.calls ∧
      ContainsFinalizer (reconcileDelete e1 provider s).st.machine MachineFinalizer =
        ContainsFinalizer (reconcileDelete e2 provider s).st.machine MachineFinalizer ∧
      (reconcileDelete e1 provider s).ret = (reconcileDelete e2 provider s).ret) := by
  constructor
  · have h := alike_reconcileNormal he (alike_refl s) cluster provider machine
    refine ⟨h.1.2.1, ?_, h.2⟩
    unfold ContainsFinalizer
    rw [h.1.1.1]
  · intro hrem
    have h := alike_reconcileDelete he hrem (alike_refl s) provider
    refine ⟨h.1.2.1, ?_, h.2⟩
    unfold ContainsFinalizer
    rw [h.1.1.1]

/-- Witness of C14 as amended: two removals in progress that report
different messages get the same requeue. -/
theorem message_steers_removal_only_witness :
    (reconcileDelete removingEnv testProvider { machine := deletedRecord }).ret =
      (reconcileDelete waitingEnv testProvider { machine := deletedRecord }).ret :=
  ((message_steers_removal_only removingEnv waitingEnv none testProvider none
    { machine := deletedRecord }
    ⟨fun _ _ => rfl, fun _ _ => rfl, fun _ => rfl, rfl, rfl, rfl, fun _ _ _ _ => rfl,
      fun _ _ _ _ _ _ _ _ _ => rfl⟩).2
    (fun _ _ vm1 vm2 h1 h2 => by
      cases h1
      cases h2
      decide)).2.2

/-- C14, the claim as stated fails: the results of `removedEnv` and
`lingeringEnv` differ in the `Message` of the removal result only, yet after
the first the finalizer is gone and nothing is requeued, after the second the
finalizer stays and the record is requeued in 30 seconds. -/
theorem message_steers_removal_only_counterexample :
    sameButMessage removedEnv lingeringEnv ∧
    ContainsFinalizer (reconcileDelete removedEnv testProvider
      { machine := deletedRecord }).st.machine MachineFinalizer = false ∧
    ContainsFinalizer (reconcileDelete lingeringEnv testProvider
      { machine := deletedRecord }).st.machine MachineFinalizer = true ∧
    (reconcileDelete removedEnv testProvider { machine := deletedRecord }).ret =
      .done {} none ∧
    (reconcileDelete lingeringEnv testProvider { machine := deletedRecord }).ret =
      .done { RequeueAfter := Second * 30 } none :=
  ⟨⟨fun _ _ => rfl, fun _ _ => rfl, fun _ => rfl, rfl, rfl, rfl, fun _ _ _ _ => rfl,
      fun _ _ _ _ _ _ _ _ _ => rfl⟩, by decide, by decide, by decide, by decide⟩


/-! ## A second run -/

theorem setProviderID_Spec (m : ScvmmMachine) (vm : VMResult) :
    (setProviderID m vm).Spec =
      if vm.VMId ≠ "" then { m.Spec with ProviderID := "scvmm://" ++ vm.VMId } else m.Spec := by
  unfold setProviderID
  split <;> rfl

theorem atRunningPatch_Spec (s : St) (vm : VMResult) :
    (atRunningPatch s vm).machine.Spec =
      if vm.VMId ≠ "" then { s.machine.Spec with ProviderID := "scvmm://" ++ vm.VMId }
      else s.machine.Spec := by
  unfold atRunningPatch atPowerOff fillFound
  simp [setProviderID_Spec]

theorem atRunningPatch_ObjectMeta (s : St) (vm : VMResult) :
    (atRunningPatch s vm).machine.ObjectMeta = s.machine.ObjectMeta := by
  unfold atRunningPatch atPowerOff fillFound
  simp

theorem atRunningPatch_fields (s : St) (vm : VMResult) :
    (atRunningPatch s vm).calls =
      s.calls ++ [Cmd.GetVM (escapeSingleQuotes s.machine.Spec.VMName)] ∧
    (atRunningPatch s vm).patches = s.patches ∧
    (atRunningPatch s vm).persisted = s.persisted := by
  unfold atRunningPatch atPowerOff fillFound
  simp [St.setMachine, St.call, St.openSession]

/-- A run that finds the machine running with address and host name: only
the discovery call is issued; the outcome of the patch decides the rest. -/
theorem reconcileNormal_ready (env : Env) (cluster : Option Cluster)
    (provider : ScvmmProviderSpec) (machine : Option Machine) (s : St) (vm : VMResult)
    (hsess : createWinrmCmd env provider = .ok ())
    (hname : s.machine.Spec.VMName ≠ "")
    (hget : env.vmCall s.calls (Cmd.GetVM (escapeSingleQuotes s.machine.Spec.VMName)) = .ok vm)
    (hfound : vm.Name ≠ "") (hrun : vm.Status = "Running")
    (haddr : vm.IPv4Addresses ≠ none) (hhost : vm.Hostname ≠ "") :
    (reconcileNormal env cluster provider machine s).st.calls =
      s.calls ++ [Cmd.GetVM (escapeSingleQuotes s.machine.Spec.VMName)] ∧
    ((patchScvmmMachine env (atRunningPatch s vm)).2 = none →
      (reconcileNormal env cluster provider machine s).st.persisted =
        s.persisted ++ [setSummary env (atRunningPatch s vm).machine] ∧
      (reconcileNormal env cluster provider machine s).ret = .done {} none) ∧
    ((patchScvmmMachine env (atRunningPatch s vm)).2 ≠ none →
      (reconcileNormal env cluster provider machine s).st.persisted = s.persisted) := by
  have hoff : vm.Status ≠ "PowerOff" := by rw [hrun]; decide
  have hmiss : ¬ (vm.IPv4Addresses = none ∨ vm.Hostname = "") := by
    intro h
    cases h with
    | inl h => exact haddr h
    | inr h => exact hhost h
  rw [reconcileNormal_running env cluster provider machine s vm hsess hname hget hfound hoff]
  have hst : running env (atPowerOff s vm) vm =
      match (patchScvmmMachine env (atRunningPatch s vm)).2 with
      | some perr => { st := (patchScvmmMachine env (atRunningPatch s vm)).1,
                       ret := .done {} (some perr) }
      | none => { st := (patchScvmmMachine env (atRunningPatch s vm)).1, ret := .done {} none } := by
    unfold running
    rw [if_neg (by rw [hrun]; decide)]
    dsimp only
    rw [if_neg hmiss]
    rfl
  rw [hst]
  have hf := atRunningPatch_fields s vm
  cases hr : (patchScvmmMachine env (atRunningPatch s vm)).2 with
  | some perr =>
    dsimp only
    refine ⟨by simp [hf.1], fun h => by simp at h, fun _ => ?_⟩
    rw [patch_persisted]
    rw [patch_result] at hr
    rw [hr]
    exact hf.2.2
  | none =>
    dsimp only
    refine ⟨by simp [hf.1], fun _ => ⟨?_, rfl⟩, fun h => absurd rfl h⟩
    rw [patch_persisted]
    rw [patch_result] at hr
    rw [hr]
    dsimp only
    rw [hf.2.2]

theorem sameButMessage_self (env : Env) (hw : sameWrites env env) : sameButMessage env env :=
  ⟨fun _ _ => rfl, fun _ _ => rfl, fun _ => rfl, rfl, rfl, rfl, hw⟩

theorem persisted_ObjectMeta (env : Env) (cluster : Option Cluster)
    (provider : ScvmmProviderSpec) (machine : Option Machine) (m0 p : ScvmmMachine)
    (hp : p ∈ (reconcileNormal env cluster provider machine { machine := m0 }).st.persisted) :
    p.ObjectMeta = m0.ObjectMeta := by
  have h := step_metas (step_reconcileNormal env cluster provider machine { machine := m0 })
  have hmem : p.ObjectMeta ∈
      (reconcileNormal env cluster provider machine { machine := m0 }).st.metas := by
    unfold St.metas
    exact List.mem_cons_of_mem _ (List.mem_map_of_mem _ hp)
  have := h hmem
  simpa [St.metas] using this

/-- C13 as amended, a second run.  For every desired spec and every remote
state that stays the same across two attempts (the remote answers each call
identically both times, and the outcomes of the patches and of writing the
cloud-init media do not depend on the status of the record): running
`reconcileNormal` a second time on a record persisted by the first run, whose
spec is the spec the first run started from, returns the same requeue
directive and error as the first run and issues exactly the calls that the
first run issued, mutating calls included; and for a VM reported `Running`
with addresses and host name both runs issue only `GetVM` and return an empty
result. -/
theorem second_run_repeats (env : Env) (cluster : Option Cluster) (provider : ScvmmProviderSpec)
    (machine : Option Machine) (m0 p : ScvmmMachine)
    (hw : sameWrites env env)
    (hp : p ∈ (reconcileNormal env cluster provider machine { machine := m0 }).st.persisted) :
    (p.Spec = m0.Spec →
      (reconcileNormal env cluster provider machine { machine := p }).ret =
        (reconcileNormal env cluster provider machine { machine := m0 }).ret ∧
      (reconcileNormal env cluster provider machine { machine := p }).st.calls =
        (reconcileNormal env cluster provider machine { machine := m0 }).st.calls) ∧
    (∀ vm, createWinrmCmd env provider = .ok () → m0.Spec.VMName ≠ "" →
      env.vmCall [] (Cmd.GetVM (escapeSingleQuotes m0.Spec.VMName)) = .ok vm →
      vm.Name ≠ "" → vm.Status = "Running" → vm.IPv4Addresses ≠ none → vm.Hostname ≠ "" →
      (reconcileNormal env cluster provider machine { machine := m0 }).st.calls =
        [Cmd.GetVM (escapeSingleQuotes m0.Spec.VMName)] ∧
      (reconcileNormal env cluster provider machine { machine := m0 }).ret = .done {} none ∧
      (reconcileNormal env cluster provider machine { machine := p }).st.calls =
        [Cmd.GetVM (escapeSingleQuotes m0.Spec.VMName)] ∧
      (reconcileNormal env cluster provider machine { machine := p }).ret = .done {} none) := by
  have hmeta := persisted_ObjectMeta env cluster provider machine m0 p hp
  constructor
  · intro hspec
    have h := alike_reconcileNormal (sameButMessage_self env hw)
      (show St.Alike { machine := p } { machine := m0 } from ⟨⟨hmeta, hspec⟩, rfl, rfl, rfl⟩)
      cluster provider machine
    exact ⟨h.2, h.1.2.1⟩
  · intro vm hsess hname hget hfound hrun haddr hhost
    have h1 := reconcileNormal_ready env cluster provider machine { machine := m0 } vm hsess
      hname hget hfound hrun haddr hhost
    have hfirst : (patchScvmmMachine env (atRunningPatch { machine := m0 } vm)).2 = none := by
      by_contra hne
      rw [h1.2.2 hne] at hp
      simp at hp
    have hpe : p = setSummary env (atRunningPatch { machine := m0 } vm).machine := by
      rw [(h1.2.1 hfirst).1] at hp
      simpa using hp
    have hpspec : p.Spec = (atRunningPatch { machine := m0 } vm).machine.Spec := by
      rw [hpe]; simp
    have hpname : p.Spec.VMName = m0.Spec.VMName := by
      rw [hpspec, atRunningPatch_Spec]
      split <;> rfl
    have hname2 : ({ machine := p } : St).machine.Spec.VMName ≠ "" := by
      show p.Spec.VMName ≠ ""
      rw [hpname]; exact hname
    have hget2 : env.vmCall ({ machine := p } : St).calls
        (Cmd.GetVM (escapeSingleQuotes ({ machine := p } : St).machine.Spec.VMName)) = .ok vm := by
      show env.vmCall [] (Cmd.GetVM (escapeSingleQuotes p.Spec.VMName)) = .ok vm
      rw [hpname]; exact hget
    have h2 := reconcileNormal_ready env cluster provider machine { machine := p } vm hsess
      hname2 hget2 hfound hrun haddr hhost
    have hsame : sameRecord (setSummary env (atRunningPatch { machine := p } vm).machine)
        (setSummary env (atRunningPatch { machine := m0 } vm).machine) := by
      constructor
      · simp [atRunningPatch_ObjectMeta, hmeta]
      · simp only [setSummary_Spec, atRunningPatch_Spec]
        show (if vm.VMId ≠ "" then { p.Spec with ProviderID := "scvmm://" ++ vm.VMId }
          else p.Spec) = (if vm.VMId ≠ "" then { m0.Spec with ProviderID := "scvmm://" ++ vm.VMId }
          else m0.Spec)
        rw [hpspec, atRunningPatch_Spec]
        show (if vm.VMId ≠ "" then
            { (if vm.VMId ≠ "" then { m0.Spec with ProviderID := "scvmm://" ++ vm.VMId }
                else m0.Spec) with ProviderID := "scvmm://" ++ vm.VMId }
          else (if vm.VMId ≠ "" then { m0.Spec with ProviderID := "scvmm://" ++ vm.VMId }
                else m0.Spec)) = _
        by_cases hid : vm.VMId ≠ ""
        · simp only [if_pos hid]
        · simp only [if_neg hid]
    have hsecond : (patchScvmmMachine env (atRunningPatch { machine := p } vm)).2 = none := by
      rw [patch_result] at hfirst ⊢
      rw [(atRunningPatch_fields _ vm).2.1] at hfirst ⊢
      rw [hw.1 _ _ _ hsame]
      exact hfirst
    refine ⟨by simpa using h1.1, (h1.2.1 hfirst).2, ?_, (h2.2.1 hsecond).2⟩
    have := h2.1
    rw [this]
    show [] ++ [Cmd.GetVM (escapeSingleQuotes p.Spec.VMName)] = _
    rw [hpname]
    rfl

/-- Witness of C13 as amended: a machine found running with address and host
name; both runs issue only `GetVM` and return an empty result. -/
theorem second_run_repeats_witness :
    (reconcileNormal runningEnv none testProvider none { machine := namedRecord }).st.calls =
      [Cmd.GetVM (escapeSingleQuotes namedRecord.Spec.VMName)] ∧
    (reconcileNormal runningEnv none testProvider none { machine := namedRecord }).ret =
      .done {} none ∧
    (reconcileNormal runningEnv none testProvider none
      { machine := (reconcileNormal runningEnv none testProvider none
          { machine := namedRecord }).st.machine }).st.calls =
      [Cmd.GetVM (escapeSingleQuotes namedRecord.Spec.VMName)] ∧
    (reconcileNormal runningEnv none testProvider none
      { machine := (reconcileNormal runningEnv none testProvider none
          { machine := namedRecord }).st.machine }).ret = .done {} none :=
  (second_run_repeats runningEnv none testProvider none namedRecord
    (reconcileNormal runningEnv none testProvider none { machine := namedRecord }).st.machine
    ⟨fun _ _ _ _ => rfl, fun _ _ _ _ _ _ _ _ _ => rfl⟩ (List.Mem.head [])).2
    { Name := "vm1", Status := "Running", IPv4Addresses := some ["10.0.0.1"], Hostname := "h" }
    rfl (by decide) rfl (by decide) rfl (by decide) (by decide)

/-- C13, the claim as stated fails twice.  While the machine stays powered
off, the second run on the record persisted by the first issues `StartVM`
again.  For a record without a machine name whose machine, once named, is
found running, the first run creates the machine and asks for a requeue in 10
seconds, the second run returns the empty result. -/
theorem second_run_repeats_counterexample :
    (reconcileNormal bootEnv none testProvider none { machine := namedRecord }).st.calls.map
      Cmd.name = ["GetVM", "AddVMSpec", "StartVM"] ∧
    (reconcileNormal bootEnv none testProvider none { machine := namedRecord }).st.persisted.map
      (fun p => (reconcileNormal bootEnv none testProvider none { machine := p }).st.calls.map
        Cmd.name) = [["GetVM", "AddVMSpec", "StartVM"]] ∧
    (reconcileNormal createdRunningEnv none testProvider none { machine := freshRecord }).ret =
      .done { RequeueAfter := Second * 10 } none ∧
    (reconcileNormal createdRunningEnv none testProvider none
      { machine := freshRecord }).st.persisted.map
      (fun p => (reconcileNormal createdRunningEnv none testProvider none { machine := p }).ret) =
        [.done {} none] := by
  decide


/-! ## The index of the expansion check -/

theorem expandCheck_none_iff (disks : List VmDisk) (vds : List VirtualDisk) :
    ∀ (i : Nat) (acc : Bool),
      expandCheck disks i vds acc = none ↔ sizedDiskBeyond disks i vds.length = true := by
  induction disks with
  | nil => intro i acc; simp [expandCheck, sizedDiskBeyond]
  | cons d ds ih =>
    intro i acc
    cases hd : d.Size with
    | none => simp [expandCheck, sizedDiskBeyond, hd, ih]
    | some size =>
      by_cases hi : i < vds.length
      · have hn : ¬ vds.length ≤ i := by omega
        simp only [expandCheck, hd, List.get?_eq_getElem?, List.getElem?_eq_getElem hi,
          sizedDiskBeyond, Option.isSome_some, hn, decide_False, Bool.and_false, Bool.false_or]
        split
        · exact ih (i + 1) true
        · exact ih (i + 1) acc
      · have hn : vds.length ≤ i := by omega
        simp [expandCheck, hd, List.getElem?_eq_none hn, sizedDiskBeyond, hn]

/-- C21, the code at the failing input.  The expansion check runs into the
index-out-of-range panic exactly when a declared disk with a size has an
index at or beyond the number of virtual disks of the discovery result.  A
record that declares one disk of 20 GiB, found powered off without virtual
disks, makes `reconcileNormal` panic after `GetVM` and `AddVMSpec`; so does a
second sized disk when one virtual disk is listed; a disk without a size is
passed over. -/
theorem expansion_check_out_of_range :
    (∀ (disks : List VmDisk) (vds : List VirtualDisk),
      expandCheck disks 0 vds false = none ↔ sizedDiskBeyond disks 0 vds.length = true) ∧
    expandCheck [{ Size := some (20 * GiB) }] 0 [] false = none ∧
    (reconcileNormal noVirtualDiskEnv none testProvider none
      { machine := diskRecord [{ Size := some (20 * GiB) }] }).ret =
        .panic "index out of range" ∧
    (reconcileNormal noVirtualDiskEnv none testProvider none
      { machine := diskRecord [{ Size := some (20 * GiB) }] }).st.calls.map Cmd.name =
        ["GetVM", "AddVMSpec"] ∧
    expandCheck [{ Size := some GiB }, { Size := some GiB }] 0 [{ MaximumSize := GiB }] false =
      none ∧
    expandCheck [{ Size := some GiB }, { Size := none }] 0 [{ MaximumSize := GiB }] false =
      some false :=
  ⟨fun disks vds => expandCheck_none_iff disks vds 0 false, by decide, by decide, by decide,
    by decide, by decide⟩


/-! ## Readiness -/

theorem persistsReady_of_subset {b : Bool} {s0 s : St}
    (h : ∀ p ∈ s.persisted, p ∈ s0.persisted) : St.persistsReady b s0 s :=
  fun p hp => Or.inl (h p hp)

theorem readyIs_patch (env : Env) {b : Bool} {s0 s : St} (hp : St.persistsReady b s0 s)
    (hr : s.machine.Status.Ready = b) : St.readyIs b s0 (patchScvmmMachine env s).1 := by
  constructor
  · simp [hr]
  · intro p hmem
    rw [patch_persisted] at hmem
    split at hmem
    · rw [List.mem_append] at hmem
      cases hmem with
      | inl h => exact hp p h
      | inr h =>
        rw [List.mem_singleton] at h
        right
        rw [h]
        simp [hr]
    · exact hp p hmem

theorem readyIs_call {b : Bool} {s0 s : St} (h : St.readyIs b s0 s) (c : Cmd) :
    St.readyIs b s0 (s.call c) := h

theorem readyIs_prc (env : Env) {s0 s : St} (hp : St.persistsReady false s0 s) (rq : Int)
    (err : Option String) (c : ConditionType) (r msg : String) (args : List String) :
    St.readyIs false s0 (patchReasonCondition env s rq err c r msg args).st := by
  rw [prc_st]
  exact readyIs_patch env hp rfl

theorem readyIs_finishStart (env : Env) {b : Bool} {s0 s : St} (h : St.readyIs b s0 s)
    (vm : VMResult) : St.readyIs b s0 (finishStart env s vm).st := by
  have hpatch : St.readyIs b s0 (patchScvmmMachine env
      (s.setMachine { s.machine with Status.VMStatus := vm.Status })).1 :=
    readyIs_patch env h.2 h.1
  unfold finishStart
  dsimp only
  split
  · exact hpatch
  · exact hpatch

theorem readyIs_addIsoToVM (env : Env) {b : Bool} {s0 s : St} (h : St.readyIs b s0 s)
    (isoPath : String) : St.readyIs b s0 (addIsoToVM env s isoPath).st := by
  unfold addIsoToVM
  dsimp only
  split
  · exact readyIs_call h _
  · exact readyIs_finishStart env (readyIs_call h _) _

theorem readyIs_startVM (env : Env) {b : Bool} {s0 s : St} (h : St.readyIs b s0 s) :
    St.readyIs b s0 (startVM env s).st := by
  unfold startVM
  dsimp only
  split
  · exact readyIs_call h _
  · exact readyIs_finishStart env (readyIs_call h _) _

theorem readyIs_attachOrStart (env : Env) (provider : ScvmmProviderSpec) {s0 s : St}
    (h : St.readyIs false s0 s) (vm : VMResult) (b md nc : Option String) :
    St.readyIs false s0 (attachOrStart env provider s vm b md nc).st := by
  have hpatch : St.readyIs false s0 (patchScvmmMachine env (s.setMachine (MarkFalse env s.machine
      VmRunning VmStartingReason ConditionSeverity.ConditionSeverityInfo "" []))).1 :=
    readyIs_patch env h.2 h.1
  unfold attachOrStart
  split
  · dsimp only
    split
    · (apply readyIs_prc; exact h.2)
    · split
      · exact hpatch
      · exact readyIs_addIsoToVM env hpatch _
  · exact readyIs_startVM env h

theorem readyIs_bootstrap (env : Env) (cluster : Option Cluster) (provider : ScvmmProviderSpec)
    (machine : Option Machine) {s0 s : St} (h : St.readyIs false s0 s) (vm : VMResult) :
    St.readyIs false s0 (bootstrap env cluster provider machine s vm).st := by
  unfold bootstrap
  split
  · split
    · split
      · (apply readyIs_prc; exact h.2)
      · split
        · exact h
        · split
          · (apply readyIs_prc; exact h.2)
          · (apply readyIs_prc; exact h.2)
    · split
      · (apply readyIs_prc; exact h.2)
      · exact readyIs_attachOrStart env provider h vm _ _ _
  · split
    · exact readyIs_attachOrStart env provider h vm _ _ _
    · exact readyIs_attachOrStart env provider h vm _ _ _

theorem readyIs_expandVMDisks (env : Env) {s0 s : St} (hp : St.persistsReady false s0 s) :
    St.readyIs false s0 (expandVMDisks env s).st := by
  unfold expandVMDisks
  dsimp only
  split
  · (apply readyIs_prc; exact hp)
  · split
    · (apply readyIs_prc; exact hp)
    · (apply readyIs_prc; exact hp)

theorem readyIs_expandOrBootstrap (env : Env) (cluster : Option Cluster)
    (provider : ScvmmProviderSpec) (machine : Option Machine) {s0 s : St}
    (h : St.readyIs false s0 s) (vm : VMResult) :
    St.readyIs false s0 (expandOrBootstrap env cluster provider machine s vm).st := by
  unfold expandOrBootstrap
  split
  · exact h
  · exact readyIs_expandVMDisks env h.2
  · exact readyIs_bootstrap env cluster provider machine h vm

theorem readyIs_mergeSpec (env : Env) (cluster : Option Cluster) (provider : ScvmmProviderSpec)
    (machine : Option Machine) {s0 s : St} (h : St.readyIs false s0 s) (vm : VMResult)
    (newspec : VMSpecResult) :
    St.readyIs false s0 (mergeSpec env cluster provider machine s vm newspec).st := by
  have hset : St.readyIs false s0 (s.setMachine { s.machine with
      Spec := (env.copyNonZeroTo newspec.ScvmmMachineSpec s.machine.Spec).1 }) := ⟨h.1, h.2⟩
  unfold mergeSpec
  dsimp only
  split
  · split
    · exact readyIs_patch env hset.2 hset.1
    · exact readyIs_expandOrBootstrap env cluster provider machine
        (readyIs_patch env hset.2 hset.1) vm
  · exact readyIs_expandOrBootstrap env cluster provider machine hset vm

theorem readyIs_powerOff (env : Env) (cluster : Option Cluster) (provider : ScvmmProviderSpec)
    (machine : Option Machine) {s0 s : St} (h : St.readyIs false s0 s) (vm : VMResult) :
    St.readyIs false s0 (powerOff env cluster provider machine s vm).st := by
  unfold powerOff
  dsimp only
  split
  · (apply readyIs_prc; exact h.2)
  · split
    · (apply readyIs_prc; exact h.2)
    · exact readyIs_mergeSpec env cluster provider machine (readyIs_call h _) vm _

theorem readyIs_readVM (env : Env) {b : Bool} {s0 s : St} (h : St.readyIs b s0 s) :
    St.readyIs b s0 (readVM env s).st := by
  unfold readVM
  dsimp only
  split
  · exact readyIs_call h _
  · exact readyIs_call h _

theorem readyIs_running (env : Env) {s0 s : St} (vm : VMResult)
    (hp : ∀ p ∈ s.persisted, p ∈ s0.persisted) :
    St.readyIs (decide (vm.Status = "Running")) s0 (running env s vm).st := by
  unfold running
  split
  · rename_i hne
    have hb : decide (vm.Status = "Running") = false := by simpa using hne
    rw [hb]
    (apply readyIs_prc; exact persistsReady_of_subset hp)
  · rename_i heq
    have hb : decide (vm.Status = "Running") = true := by simpa using heq
    rw [hb]
    have hpatch : St.readyIs true s0 (patchScvmmMachine env (s.setMachine (MarkTrue
        (fillAddresses { s.machine with Status.Ready := true } vm) VmRunning))).1 :=
      readyIs_patch env (persistsReady_of_subset hp) (by simp [fillAddresses_Ready])
    dsimp only
    split
    · exact hpatch
    · split
      · exact readyIs_readVM env hpatch
      · exact hpatch

theorem fillFound_Ready (s : St) (vm : VMResult) :
    (fillFound s vm).machine.Status.Ready = (vm.Status == "Running") := rfl

theorem readyIs_found (env : Env) (cluster : Option Cluster) (provider : ScvmmProviderSpec)
    (machine : Option Machine) {s0 s : St} (vm : VMResult)
    (hp : ∀ p ∈ s.persisted, p ∈ s0.persisted) :
    St.readyIs (decide (vm.Status = "Running")) s0
      (found env cluster provider machine s vm).st := by
  unfold found
  split
  · rename_i hoff
    have hb : decide (vm.Status = "Running") = false := by rw [hoff]; decide
    rw [hb]
    apply readyIs_powerOff
    constructor
    · rw [fillFound_Ready, hoff]
      decide
    · exact persistsReady_of_subset hp
  · exact readyIs_running env vm hp

theorem readyIs_createVMCall (env : Env) {s0 s : St} (hp : St.persistsReady false s0 s)
    (vmName : String) : St.readyIs false s0 (createVMCall env s vmName).st := by
  unfold createVMCall
  dsimp only
  split
  · (apply readyIs_prc; exact hp)
  · split
    · (apply readyIs_prc; exact hp)
    · (apply readyIs_prc; exact hp)

theorem readyIs_createVM (env : Env) {s0 s : St} (hp : St.persistsReady false s0 s)
    (vmName : String) : St.readyIs false s0 (createVM env s vmName).st := by
  unfold createVM
  split
  · (apply readyIs_createVMCall; exact hp)
  · dsimp only
    split
    · (apply readyIs_prc; exact hp)
    · split
      · (apply readyIs_prc; exact hp)
      · (apply readyIs_createVMCall; exact hp)

theorem readyIs_notFound (env : Env) {s0 s : St} (hp : St.persistsReady false s0 s) :
    St.readyIs false s0 (notFound env s).st := by
  unfold notFound
  split
  · dsimp only
    split
    · (apply readyIs_prc; exact hp)
    · split
      · (apply readyIs_prc; exact hp)
      · split
        · (apply readyIs_prc; exact hp)
        · (apply readyIs_createVM; exact hp)
  · (apply readyIs_createVM; exact hp)

theorem readyIs_afterDiscovery (env : Env) (cluster : Option Cluster)
    (provider : ScvmmProviderSpec) (machine : Option Machine) {s0 s : St} (vm : VMResult)
    (hp : ∀ p ∈ s.persisted, p ∈ s0.persisted) :
    St.readyIs (readyFor vm) s0 (afterDiscovery env cluster provider machine s vm).st := by
  unfold afterDiscovery readyFor
  split
  · rename_i hname
    have hb : decide (vm.Name ≠ "" ∧ vm.Status = "Running") = false := by simp [hname]
    rw [hb]
    (apply readyIs_notFound; exact persistsReady_of_subset hp)
  · rename_i hname
    have hb : decide (vm.Name ≠ "" ∧ vm.Status = "Running") = decide (vm.Status = "Running") := by
      simp [hname]
    rw [hb]
    exact readyIs_found env cluster provider machine vm hp

/-- C22, readiness tracks discovery.  For every run of `reconcileNormal` that
gets past the discovery step (the session opens, and `GetVM` succeeds at
transport level or is skipped because the record has no name): in the state it
ends in `Status.Ready` is true if and only if the discovery result had a
non-empty `Name` and the `Status` `Running`, and on every other path it is
false; every record that the run persisted carries the same value. -/
theorem readiness_tracks_discovery (env : Env) (cluster : Option Cluster)
    (provider : ScvmmProviderSpec) (machine : Option Machine) (s : St)
    (hsess : createWinrmCmd env provider = .ok ()) :
    (∀ vm, s.machine.Spec.VMName ≠ "" →
      env.vmCall s.calls (Cmd.GetVM (escapeSingleQuotes s.machine.Spec.VMName)) = .ok vm →
      ((reconcileNormal env cluster provider machine s).st.machine.Status.Ready = true ↔
        vm.Name ≠ "" ∧ vm.Status = "Running") ∧
      St.persistsReady (readyFor vm) s (reconcileNormal env cluster provider machine s).st) ∧
    (s.machine.Spec.VMName = "" →
      (reconcileNormal env cluster provider machine s).st.machine.Status.Ready = false ∧
      St.persistsReady false s (reconcileNormal env cluster provider machine s).st) := by
  constructor
  · intro vm hname hget
    have h : St.readyIs (readyFor vm) s (afterDiscovery env cluster provider machine
        (s.openSession.call (Cmd.GetVM (escapeSingleQuotes s.machine.Spec.VMName))) vm).st := by
      apply readyIs_afterDiscovery
      exact fun p hp => hp
    have hrun : reconcileNormal env cluster provider machine s =
        afterDiscovery env cluster provider machine
          (s.openSession.call (Cmd.GetVM (escapeSingleQuotes s.machine.Spec.VMName))) vm := by
      unfold reconcileNormal
      rw [hsess]
      simp only []
      unfold discover
      simp only [openSession_machine, openSession_calls, hname, ne_eq, not_false_eq_true,
        if_true, hget]
    rw [hrun]
    refine ⟨?_, h.2⟩
    rw [h.1]
    unfold readyFor
    simp
  · intro hname
    have h : St.readyIs (readyFor {}) s (afterDiscovery env cluster provider machine
        s.openSession {}).st := by
      apply readyIs_afterDiscovery
      exact fun p hp => hp
    have hrun : reconcileNormal env cluster provider machine s =
        afterDiscovery env cluster provider machine s.openSession {} := by
      unfold reconcileNormal
      rw [hsess]
      simp only []
      unfold discover
      simp only [openSession_machine, hname, ne_eq, not_true_eq_false, if_false]
    rw [hrun]
    exact h

/-- Witness of C22: a machine found running makes the record ready; a
machine found powered off does not. -/
theorem readiness_tracks_discovery_witness :
    (reconcileNormal runningEnv none testProvider none
      { machine := namedRecord }).st.machine.Status.Ready = true ∧
    ((reconcileNormal bootEnv none testProvider none
      { machine := namedRecord }).st.machine.Status.Ready = true ↔
        (powerOffResult []).Name ≠ "" ∧ (powerOffResult []).Status = "Running") :=
  ⟨(((readiness_tracks_discovery runningEnv none testProvider none { machine := namedRecord }
      rfl).1
      { Name := "vm1", Status := "Running", IPv4Addresses := some ["10.0.0.1"], Hostname := "h" }
      (by decide) rfl).1).2 ⟨by decide, rfl⟩,
    ((readiness_tracks_discovery bootEnv none testProvider none { machine := namedRecord }
      rfl).1 (powerOffResult []) (by decide) rfl).1⟩


end Scvmm
